import Mathlib

/-!
# cryptopump: order lifecycle, quantity correction, teardown, election and startup

A shallow embedding of `exchange/exchange.go` (quantity correction, `BuyTicker`,
`SellTicker`), `threads/threads.go` (`ExitThreadID`), `node/node.go`
(`ReleaseRole`, `GetRole`), `functions/functions.go` (`Logger`, `LockThreadID`, the error
paths of `stringToTime` and `DeleteConfigFile`) and `main.go` (the identity resolution and
the join barrier of `execution`).

Conventions of the embedding.

* A Go `float64` is an `F64`: a finite value carried exactly as a rational, or one of
  `+Inf`, `-Inf`, `NaN`.  The results of `F64.div` and `F64.mul` are exact (no rounding
  error, no overflow); `F64.div64` and `F64.mul64` round every result to the nearest
  float64, as the machine does, and `getSellQuantity64`, `getBuyQuantity64` are the
  quantity correction computed with them.  The sign of zero is not tracked.
* A Go `(order *types.Order, err error)` result is a pair
  `Option Order × Option String`; `none` is `nil`, and the string of an error is the text
  of `err.Error()`.
* Everything the source calls but does not define (the Binance adapter, the `mysql`
  package, `os.Remove`, `time.Now`) is a field of `World`; for `GetRole` the file
  `master.lock` is a state, and the other failures of its `os` calls are an `OsFaults`.
* Calls that leave the package are recorded, in program order, as a list of `Event`s.
* A pointer that may be nil is an `Option`; reading a field through `none` is the outcome
  `panicked`, as is a slice expression out of bounds.
* The files of the working directory other than `master.lock` are a list of names.
-/

namespace Cryptopump

/-! ## float64 -/

/-- A float64 value. -/
inductive F64 where
  | fin (q : ℚ)
  | posInf
  | negInf
  | nan
deriving DecidableEq

namespace F64

/-- Go `x / y` on float64, over exact arithmetic. -/
def div : F64 → F64 → F64
  | fin a, fin b =>
    if b = 0 then (if a = 0 then nan else if 0 < a then posInf else negInf) else fin (a / b)
  | fin _, posInf => fin 0
  | fin _, negInf => fin 0
  | posInf, fin b => if 0 ≤ b then posInf else negInf
  | negInf, fin b => if 0 ≤ b then negInf else posInf
  | _, _ => nan

/-- Go `x * y` on float64, over exact arithmetic. -/
def mul : F64 → F64 → F64
  | fin a, fin b => fin (a * b)
  | fin a, posInf => if a = 0 then nan else if 0 < a then posInf else negInf
  | fin a, negInf => if a = 0 then nan else if 0 < a then negInf else posInf
  | posInf, fin b => if b = 0 then nan else if 0 < b then posInf else negInf
  | negInf, fin b => if b = 0 then nan else if 0 < b then negInf else posInf
  | posInf, posInf => posInf
  | negInf, negInf => posInf
  | posInf, negInf => negInf
  | negInf, posInf => negInf
  | _, _ => nan

end F64

/-- Round to the nearest integer, halves away from zero: the rounding of Go `math.Round`
("Round returns the nearest integer, rounding half away from zero"). -/
def roundHalfAway (x : ℚ) : ℤ :=
  if 0 ≤ x then ⌊x + 1 / 2⌋ else -⌊-x + 1 / 2⌋

/-- Round to the nearest integer, halves to the even neighbour: the rounding of Go
`math.RoundToEven`, and of `strconv.FormatFloat` at the last printed digit. -/
def roundHalfEven (x : ℚ) : ℤ :=
  let f := ⌊x⌋
  if x - f < 1 / 2 then f
  else if 1 / 2 < x - f then f + 1
  else if f % 2 = 0 then f else f + 1

/-- Go `math.Round`. -/
def mathRound : F64 → F64
  | F64.fin q => F64.fin (roundHalfAway q)
  | v => v

/-- Go `math.IsNaN`. -/
def mathIsNaN : F64 → Bool
  | F64.nan => true
  | _ => false

/-- Go `strconv.FormatFloat(value, 'f', prec, 64)`, given by the number its decimal string
denotes: a finite value is rounded to `prec` digits after the point; `+Inf`, `-Inf` and
`NaN` print as themselves. -/
def FormatFloat (value : F64) (prec : Nat) : F64 :=
  match value with
  | F64.fin q => F64.fin (roundHalfEven (q * 10 ^ prec) / 10 ^ prec)
  | v => v

namespace F64

/-- The exponent of the last mantissa bit of the float64 values next to `q`:
`⌊log₂ |q|⌋ - 52`, and `-1074` in the subnormal range. -/
def ulpExp (q : ℚ) : ℤ := max (Int.log 2 |q| - 52) (-1074)

/-- The least magnitude beyond the float64 range: `2^1024`. -/
@[irreducible]
def huge : ℚ := 2 ^ 1024

/-- The float64 nearest to the number `q`, ties to the even mantissa: the result of a
float64 operation whose exact result is `q`. A magnitude that rounds to `2^1024` or more is
an infinity. -/
def nearest (q : ℚ) : F64 :=
  let v := (roundHalfEven (q / 2 ^ ulpExp q) : ℚ) * 2 ^ ulpExp q
  if huge ≤ v then posInf else if v ≤ -huge then negInf else fin v

/-- Go `x / y` on float64 as the machine computes it: the quotient is rounded to the nearest
float64. -/
def div64 : F64 → F64 → F64
  | fin a, fin b =>
    if b = 0 then (if a = 0 then nan else if 0 < a then posInf else negInf)
    else nearest (a / b)
  | fin _, posInf => fin 0
  | fin _, negInf => fin 0
  | posInf, fin b => if 0 ≤ b then posInf else negInf
  | negInf, fin b => if 0 ≤ b then negInf else posInf
  | _, _ => nan

/-- Go `x * y` on float64 as the machine computes it: the product is rounded to the nearest
float64. -/
def mul64 : F64 → F64 → F64
  | fin a, fin b => nearest (a * b)
  | fin a, posInf => if a = 0 then nan else if 0 < a then posInf else negInf
  | fin a, negInf => if a = 0 then nan else if 0 < a then negInf else posInf
  | posInf, fin b => if b = 0 then nan else if 0 < b then posInf else negInf
  | negInf, fin b => if b = 0 then nan else if 0 < b then negInf else posInf
  | posInf, posInf => posInf
  | negInf, negInf => posInf
  | posInf, negInf => negInf
  | negInf, posInf => negInf
  | _, _ => nan

end F64

/-- Go `strings.ToLower`, on ASCII letters. -/
def ToLower (s : String) : String := String.mk (s.data.map Char.toLower)

/-- Go `strings.Contains`. -/
def Contains (s substr : String) : Bool := decide (substr.data <:+: s.data)

/-! ## types/types.go -/

/-- The `types.Order` struct. -/
structure Order where
  ClientOrderID : String
  CumulativeQuoteQuantity : F64
  ExecutedQuantity : F64
  OrderID : Int
  Price : F64
  Side : String
  Status : String
  Symbol : String
  TransactTime : Int
  ThreadID : Int
  ThreadIDSession : Int
  OrderIDSource : Int
deriving DecidableEq

/-- The Go zero value `types.Order{}`. -/
def Order.zero : Order :=
  { ClientOrderID := "", CumulativeQuoteQuantity := F64.fin 0, ExecutedQuantity := F64.fin 0,
    OrderID := 0, Price := F64.fin 0, Side := "", Status := "", Symbol := "",
    TransactTime := 0, ThreadID := 0, ThreadIDSession := 0, OrderIDSource := 0 }

/-- The scalar fields of `types.Session` (handles to the bot, the database and the client
library, and the plotter buffer, are left out). Times are clock readings. -/
structure Session where
  ThreadID : String
  ThreadIDSession : String
  ThreadCount : Int
  SellTransactionCount : F64
  Symbol : String
  SymbolFiat : String
  SymbolFiatFunds : F64
  LastBuyTransactTime : Int
  LastSellCanceledTime : Int
  ConfigTemplate : Int
  ForceBuy : Bool
  ForceSell : Bool
  ListenKey : String
  MasterNode : Bool
  StopWs : Bool
  Busy : Bool
  MinQuantity : F64
  MaxQuantity : F64
  StepSize : F64
deriving DecidableEq

/-- The Go zero value `types.Session{}`. -/
def Session.zero : Session :=
  { ThreadID := "", ThreadIDSession := "", ThreadCount := 0, SellTransactionCount := F64.fin 0,
    Symbol := "", SymbolFiat := "", SymbolFiatFunds := F64.fin 0, LastBuyTransactTime := 0,
    LastSellCanceledTime := 0, ConfigTemplate := 0, ForceBuy := false, ForceSell := false,
    ListenKey := "", MasterNode := false, StopWs := false, Busy := false,
    MinQuantity := F64.fin 0, MaxQuantity := F64.fin 0, StepSize := F64.fin 0 }

/-- The assignment `sessionData.Busy = b`. -/
def Session.setBusy (s : Session) (b : Bool) : Session := { s with Busy := b }

/-- The assignment `sessionData.LastBuyTransactTime = t`. -/
def Session.setLastBuyTransactTime (s : Session) (t : Int) : Session :=
  { s with LastBuyTransactTime := t }

/-- The assignment `sessionData.LastSellCanceledTime = t`. -/
def Session.setLastSellCanceledTime (s : Session) (t : Int) : Session :=
  { s with LastSellCanceledTime := t }

/-- The fields of `types.Market` read by the order lifecycle. -/
structure Market where
  Price : F64
deriving DecidableEq

/-- The fields of `types.Config` read by the order lifecycle and the node coordinator. -/
structure Config where
  SellWaitBeforeCancel : Int
  Debug : Bool
  DryRun : Bool
  NewSession : Bool
  ExchangeName : String
  TestNet : Bool
  Symbol : String
  SymbolFiat : String
deriving DecidableEq

/-- The logrus levels used by the source. -/
inductive LogLevel where
  | InfoLevel
  | DebugLevel
deriving DecidableEq

/-! ## Effects -/

/-- A call that leaves the package (or a write of the shared `Busy` flag), with its
arguments. `LoopPass` is a marker put at the start of every execution of the body of
the reconciliation loop `F` of `SellTicker`; it stands for no call. -/
inductive Event where
  | SetBusy (b : Bool)
  | BuyOrder (quantity : F64)
  | SellOrder (quantity : F64)
  | GetOrder (orderID : Int)
  | CancelOrder (orderID : Int)
  | SaveOrder (clientOrderID : String) (cumulativeQuoteQty executedQty : F64) (orderID : Int)
      (price : F64) (side status symbol : String) (transactTime : Int)
  | UpdateOrder (orderID : Int) (cumulativeQuoteQty executedQty price : F64) (status : String)
  | SaveThreadTransaction (orderID : Int) (cumulativeQuoteQty price executedQty : F64)
  | DeleteThreadTransactionByOrderID (orderID : Int)
  | DeleteSession
  | Remove (filename : String)
  | Sleep (millis : Int)
  | Logger (order : Order) (message : String) (level : LogLevel)
  | Exit (code : Int)
  | LoopPass
deriving DecidableEq

/-- How a run ends. `pollFuel`: a polling loop was still running when the fuel given to it
ran out. `busyWait`: `ExitThreadID` was still waiting for `Busy` when its fuel ran out. -/
inductive Outcome where
  | returned
  | exited (code : Int)
  | panicked
  | pollFuel
  | busyWait
deriving DecidableEq

/-- The collaborators the source calls but does not define, as they behave during one run.
`binanceGetOrder k` is the answer to the `k`-th status query of the run (from 0). The
`mysql` fields are the error each call returns. -/
structure World where
  binanceBuyOrder : F64 → Option Order × Option String
  binanceSellOrder : F64 → Option Order × Option String
  binanceGetOrder : Nat → Int → Option Order × Option String
  binanceCancelOrder : Int → Option Order × Option String
  SaveOrder : Option String
  UpdateOrder : Option String
  SaveThreadTransaction : Option String
  DeleteThreadTransactionByOrderID : Option String
  Remove : String → Option String
  Now : Int

/-- The result of running a function of the lifecycle engine. -/
structure Run where
  trace : List Event
  outcome : Outcome
  session : Session

/-! ## functions/functions.go -/

/-- The function `Float64ToStr`. -/
def Float64ToStr (value : F64) (prec : Nat) : F64 := FormatFloat value prec

/-! ## node/node.go, threads/threads.go -/

/-- The statement `if err := os.Remove(filename); err != nil { functions.Logger(...) }`
inside the function named `fn`: the file is removed, and a failure is logged at debug level
with the message `GetFunctionName() + " - " + err.Error()`. -/
def removeAndLog (w : World) (fn filename : String) : List Event :=
  Event.Remove filename ::
    (match w.Remove filename with
     | some e => [Event.Logger Order.zero (fn ++ " - " ++ e) LogLevel.DebugLevel]
     | none => [])

/-- The function `ReleaseRole`. -/
def ReleaseRole (w : World) (sessionData : Session) : List Event :=
  if sessionData.MasterNode then removeAndLog w "cryptopump/node.ReleaseRole" "master.lock"
  else []

/-- The function `unlockThreadID`. -/
def unlockThreadID (w : World) (sessionData : Session) : List Event :=
  removeAndLog w "cryptopump/threads.unlockThreadID" (sessionData.ThreadID ++ ".lock")

/-- The loop `for sessionData.Busy { time.Sleep(200ms) }` of `ExitThreadID`. `busy k` is the
value the `k`-th read of the flag returns; the result is the sleeps performed and whether
the loop was left. -/
def waitBusy (busy : Nat → Bool) : Nat → Nat → List Event × Bool
  | 0, _ => ([], false)
  | fuel + 1, k =>
    if busy k then
      let r := waitBusy busy fuel (k + 1)
      (Event.Sleep 200 :: r.1, r.2)
    else ([], true)

/-- The function `ExitThreadID`. It never returns: it ends in `os.Exit(1)`, or is still
waiting for `Busy` when the fuel runs out. -/
def ExitThreadID (w : World) (busy : Nat → Bool) (sessionData : Session) (xfuel : Nat) :
    List Event × Outcome :=
  let r := waitBusy busy xfuel 0
  if r.2 then
    (r.1 ++ (if sessionData.MasterNode then ReleaseRole w sessionData else [])
         ++ unlockThreadID w sessionData
         ++ [Event.DeleteSession,
             Event.Logger Order.zero "Clean Shutdown" LogLevel.InfoLevel,
             Event.Exit 1],
     Outcome.exited 1)
  else (r.1, Outcome.busyWait)

/-! ## exchange/exchange.go -/

/-- The function `getSellQuantity`, over exact arithmetic. -/
def getSellQuantity (order : Order) (sessionData : Session) : F64 :=
  F64.mul (mathRound (F64.div order.ExecutedQuantity sessionData.StepSize)) sessionData.StepSize

/-- The function `getBuyQuantity`, over exact arithmetic. -/
def getBuyQuantity (marketData : Market) (sessionData : Session) (fiatQuantity : F64) : F64 :=
  F64.mul (mathRound (F64.div (F64.div fiatQuantity marketData.Price) sessionData.StepSize))
    sessionData.StepSize

/-- The function `getSellQuantity` as the machine computes it: the quotient and the product
are each rounded to the nearest float64. -/
def getSellQuantity64 (order : Order) (sessionData : Session) : F64 :=
  F64.mul64 (mathRound (F64.div64 order.ExecutedQuantity sessionData.StepSize))
    sessionData.StepSize

/-- The function `getBuyQuantity` as the machine computes it: the two quotients and the
product are each rounded to the nearest float64. -/
def getBuyQuantity64 (marketData : Market) (sessionData : Session) (fiatQuantity : F64) :
    F64 :=
  F64.mul64
    (mathRound (F64.div64 (F64.div64 fiatQuantity marketData.Price) sessionData.StepSize))
    sessionData.StepSize

/-- The function `BuyOrder`: dispatch on the lower-cased exchange name. -/
def BuyOrder (w : World) (configData : Config) (quantity : F64) :
    Option Order × Option String :=
  if ToLower configData.ExchangeName = "binance" then w.binanceBuyOrder quantity
  else (none, none)

/-- The function `SellOrder`. -/
def SellOrder (w : World) (configData : Config) (quantity : F64) :
    Option Order × Option String :=
  if ToLower configData.ExchangeName = "binance" then w.binanceSellOrder quantity
  else (none, none)

/-- The function `GetOrder`; `k` counts the status queries of the run. -/
def GetOrder (w : World) (configData : Config) (k : Nat) (orderID : Int) :
    Option Order × Option String :=
  if ToLower configData.ExchangeName = "binance" then w.binanceGetOrder k orderID
  else (none, none)

/-- The function `CancelOrder`. -/
def CancelOrder (w : World) (configData : Config) (orderID : Int) :
    Option Order × Option String :=
  if ToLower configData.ExchangeName = "binance" then w.binanceCancelOrder orderID
  else (none, none)

/-- A call `threads.ExitThreadID(sessionData)` made from inside `BuyTicker` or `SellTicker`,
after the events `pre`. The flag is written only by these two functions (on entry and in
their deferred function), and the caller is inside one of them, so every read of the wait
loop returns the value the session holds at the call. -/
def exitFrom (w : World) (xfuel : Nat) (sessionData : Session) (pre : List Event) : Run :=
  let r := ExitThreadID w (fun _ => sessionData.Busy) sessionData xfuel
  { trace := pre ++ r.1, outcome := r.2, session := sessionData }

/-- The deferred function `func() { sessionData.Busy = false }` of `BuyTicker` and
`SellTicker`, wrapped around the rest of the function, which starts after
`sessionData.Busy = true`. Deferred functions run when the function returns or panics, and
do not run when the process exits. -/
def withBusy (body : Session → Run) (sessionData : Session) : Run :=
  let r := body (sessionData.setBusy true)
  match r.outcome with
  | Outcome.returned | Outcome.panicked =>
    { trace := Event.SetBusy true :: (r.trace ++ [Event.SetBusy false]),
      outcome := r.outcome,
      session := r.session.setBusy false }
  | _ => { r with trace := Event.SetBusy true :: r.trace }

/-- How the `for` statement of `case "NEW"` of `BuyTicker` is left. -/
inductive BuyPollExit where
  | done
  | breakS
  | fuel
deriving DecidableEq

/-- The `for` statement of `case "NEW"` of `BuyTicker`, after its init clause: `orderStatus`
and `err` are the results of the one `GetOrder` call of that clause, and neither the
condition nor the body assigns them. -/
def buyPoll (orderStatus : Option Order) (err : Option String) : Nat → List Event × BuyPollExit
  | 0 => ([], BuyPollExit.fuel)
  | fuel + 1 =>
    if (match orderStatus with
        | none => true
        | some o => decide (o.Status = "NEW")) then
      if err.isSome then ([], BuyPollExit.breakS)
      else
        let r := buyPoll orderStatus err fuel
        (Event.Sleep 3000 :: r.1, r.2)
    else ([], BuyPollExit.done)

/-- The end of `BuyTicker`, from `if !isCanceled` on. -/
def buySettle (w : World) (xfuel : Nat) (sessionData : Session) (orderResponse : Order)
    (orderPrice orderExecutedQuantity : F64) (isCanceled : Bool) (pre : List Event) : Run :=
  if !isCanceled then
    let pre := pre ++ [Event.SaveThreadTransaction orderResponse.OrderID
      orderResponse.CumulativeQuoteQuantity orderPrice orderExecutedQuantity]
    match w.SaveThreadTransaction with
    | some _ => exitFrom w xfuel sessionData pre
    | none =>
      { trace := pre ++ [Event.Logger
          { Order.zero with OrderID := orderResponse.OrderID, Price := orderPrice }
          "BUY" LogLevel.InfoLevel],
        outcome := Outcome.returned, session := sessionData }
  else
    { trace := pre ++ [Event.Logger
        { Order.zero with OrderID := orderResponse.OrderID, Price := orderPrice }
        "CANCELED" LogLevel.InfoLevel],
      outcome := Outcome.returned, session := sessionData }

/-- The statement of `BuyTicker` under "Check if result is nil and set as zero": the value
of `orderPrice` after
`if orderPrice = CumulativeQuoteQuantity / ExecutedQuantity; math.IsNaN(orderPrice)`. -/
def submittedPrice (orderResponse : Order) : F64 :=
  if mathIsNaN (F64.div orderResponse.CumulativeQuoteQuantity
        orderResponse.ExecutedQuantity) then F64.fin 0
  else F64.div orderResponse.CumulativeQuoteQuantity orderResponse.ExecutedQuantity

/-- The function `BuyTicker` after `sessionData.Busy = true`. -/
def BuyTickerBody (w : World) (fuel xfuel : Nat) (quantity : F64) (configData : Config)
    (marketData : Market) (sessionData : Session) : Run :=
  if configData.DryRun then
    { trace := [], outcome := Outcome.returned, session := sessionData }
  else
    let qty := Float64ToStr (getBuyQuantity marketData sessionData quantity) 4
    let t := [Event.BuyOrder qty]
    match (BuyOrder w configData qty).1 with
    | none => { trace := t, outcome := Outcome.returned, session := sessionData }
    | some orderResponse =>
      let orderPrice := submittedPrice orderResponse
      let orderExecutedQuantity := orderResponse.ExecutedQuantity
      let t := t ++ [Event.SaveOrder orderResponse.ClientOrderID
        orderResponse.CumulativeQuoteQuantity orderResponse.ExecutedQuantity
        orderResponse.OrderID orderPrice orderResponse.Side orderResponse.Status
        orderResponse.Symbol orderResponse.TransactTime]
      match w.SaveOrder with
      | some _ => exitFrom w xfuel sessionData t
      | none =>
        let sessionData := sessionData.setLastBuyTransactTime w.Now
        if orderResponse.Status = "FILLED" ∨ orderResponse.Status = "PARTIALLY_FILLED" then
          buySettle w xfuel sessionData orderResponse orderPrice orderExecutedQuantity false t
        else if orderResponse.Status = "CANCELED" then
          buySettle w xfuel sessionData orderResponse orderPrice orderExecutedQuantity true t
        else if orderResponse.Status = "NEW" then
          let got := GetOrder w configData 0 orderResponse.OrderID
          let t := t ++ [Event.GetOrder orderResponse.OrderID]
          let p := buyPoll got.1 got.2 fuel
          match p.2 with
          | BuyPollExit.fuel =>
            { trace := t ++ p.1, outcome := Outcome.pollFuel, session := sessionData }
          | BuyPollExit.breakS =>
            buySettle w xfuel sessionData orderResponse orderPrice orderExecutedQuantity false
              (t ++ p.1)
          | BuyPollExit.done =>
            match got.1 with
            | none =>
              { trace := t ++ p.1, outcome := Outcome.panicked, session := sessionData }
            | some orderStatus =>
              if orderStatus.Status = "FILLED" ∨ orderStatus.Status = "PARTIALLY_FILLED" then
                let orderPrice :=
                  F64.div orderStatus.CumulativeQuoteQuantity orderStatus.ExecutedQuantity
                let orderExecutedQuantity := orderStatus.ExecutedQuantity
                let t := t ++ p.1 ++ [Event.UpdateOrder orderResponse.OrderID
                  orderResponse.CumulativeQuoteQuantity orderResponse.ExecutedQuantity
                  orderPrice orderStatus.Status]
                match w.UpdateOrder with
                | some _ => exitFrom w xfuel sessionData t
                | none =>
                  buySettle w xfuel sessionData orderResponse orderPrice
                    orderExecutedQuantity false t
              else if orderStatus.Status = "CANCELED" then
                buySettle w xfuel sessionData orderResponse orderPrice orderExecutedQuantity
                  true (t ++ p.1)
              else
                buySettle w xfuel sessionData orderResponse orderPrice orderExecutedQuantity
                  false (t ++ p.1)
        else
          buySettle w xfuel sessionData orderResponse orderPrice orderExecutedQuantity false t

/-- The function `BuyTicker`. `fuel` bounds the passes of the polling loop and `xfuel` the
passes of the wait loop of `ExitThreadID`. -/
def BuyTicker (w : World) (fuel xfuel : Nat) (quantity : F64) (configData : Config)
    (marketData : Market) (sessionData : Session) : Run :=
  withBusy (BuyTickerBody w fuel xfuel quantity configData marketData) sessionData

/-- How the reconciliation loop `F` of `SellTicker` is left: by `break F` or by its
condition turning false (with the values of `orderStatus`, `isCanceled` and the session at
that point), by `break S`, or not at all (with the way the run ends instead). -/
inductive SellExit where
  | breakF (orderStatus : Option Order) (isCanceled : Bool) (sessionData : Session)
  | breakS (sessionData : Session)
  | stop (o : Outcome) (sessionData : Session)

/-- The `for` statement labelled `F` of `SellTicker`, after its init clause: `orderStatus` and
`err` are the results of the one `GetOrder` call of that clause; `i` is the iteration
counter. Every path that assigns `orderStatus`, `err` or `isCanceled` leaves the loop. -/
def sellLoop (w : World) (xfuel : Nat) (configData : Config) (marketData : Market)
    (sessionData : Session) (orderResponse : Order) (orderStatus : Option Order)
    (err : Option String) : Nat → Nat → List Event × SellExit
  | 0, _ => ([], SellExit.stop Outcome.pollFuel sessionData)
  | fuel + 1, i =>
    if (match orderStatus with
        | none => true
        | some o => decide (o.Status = "NEW") || decide (o.Status = "PARTIALLY_FILLED")) then
      match err with
      | some _ =>
        let r := exitFrom w xfuel sessionData [Event.LoopPass]
        (r.trace, SellExit.stop r.outcome sessionData)
      | none =>
        match orderStatus with
        | none => ([Event.LoopPass], SellExit.stop Outcome.panicked sessionData)
        | some os =>
          if os.Status = "FILLED" then
            ([Event.LoopPass], SellExit.breakF orderStatus false sessionData)
          else if os.Status = "CANCELED" then
            ([Event.LoopPass], SellExit.breakF orderStatus true sessionData)
          else
            let i := i + 1
            if i = 9 then
              let t := [Event.LoopPass, Event.CancelOrder orderResponse.OrderID]
              let canceled := CancelOrder w configData orderResponse.OrderID
              match canceled.2 with
              | some e =>
                if Contains e "-2010" || Contains e "-2011" then
                  let t := t ++ [Event.GetOrder orderResponse.OrderID]
                  let got := GetOrder w configData 1 orderResponse.OrderID
                  match got.2 with
                  | some _ =>
                    let r := exitFrom w xfuel sessionData t
                    (r.trace, SellExit.stop r.outcome sessionData)
                  | none => (t, SellExit.breakF got.1 false sessionData)
                else
                  (t ++ [Event.Logger { Order.zero with OrderID := orderResponse.OrderID } e
                           LogLevel.DebugLevel],
                   SellExit.breakS sessionData)
              | none =>
                match canceled.1 with
                | none => (t, SellExit.stop Outcome.panicked sessionData)
                | some cancelOrderResponse =>
                  if cancelOrderResponse.Status = "CANCELED" then
                    let sessionData := sessionData.setLastSellCanceledTime w.Now
                    let t := t ++ [Event.GetOrder orderResponse.OrderID]
                    let got := GetOrder w configData 1 orderResponse.OrderID
                    match got.2 with
                    | some _ =>
                      let r := exitFrom w xfuel sessionData t
                      (r.trace, SellExit.stop r.outcome sessionData)
                    | none => (t, SellExit.breakF got.1 true sessionData)
                  else
                    (t ++ [Event.Logger
                        { Order.zero with OrderID := orderResponse.OrderID,
                                          Price := marketData.Price }
                        "FAILED TO CANCEL ORDER" LogLevel.InfoLevel],
                     SellExit.breakF orderStatus false sessionData)
            else
              let r := sellLoop w xfuel configData marketData sessionData orderResponse
                orderStatus err fuel i
              (Event.LoopPass ::
                 Event.Sleep (Int.tdiv configData.SellWaitBeforeCancel 10 * 1000) :: r.1, r.2)
    else ([], SellExit.breakF orderStatus false sessionData)

/-- The end of `SellTicker`, from `if !isCanceled` on. -/
def sellSettle (w : World) (xfuel : Nat) (marketData : Market) (sessionData : Session)
    (order orderResponse : Order) (isCanceled : Bool) (pre : List Event) : Run :=
  if !isCanceled then
    let pre := pre ++ [Event.DeleteThreadTransactionByOrderID order.OrderID]
    match w.DeleteThreadTransactionByOrderID with
    | some _ => exitFrom w xfuel sessionData pre
    | none =>
      { trace := pre ++ [Event.Logger
          { Order.zero with OrderID := orderResponse.OrderID, Price := marketData.Price,
                            OrderIDSource := order.OrderID }
          "SELL" LogLevel.InfoLevel],
        outcome := Outcome.returned, session := sessionData }
  else
    { trace := pre ++ [Event.Logger
        { Order.zero with OrderID := orderResponse.OrderID, Price := marketData.Price,
                          OrderIDSource := order.OrderID }
        "CANCELED" LogLevel.InfoLevel],
      outcome := Outcome.returned, session := sessionData }

/-- The function `SellTicker` after `sessionData.Busy = true`. -/
def SellTickerBody (w : World) (fuel xfuel : Nat) (order : Order) (configData : Config)
    (marketData : Market) (sessionData : Session) : Run :=
  if configData.DryRun then
    { trace := [], outcome := Outcome.returned, session := sessionData }
  else
    let qty := Float64ToStr (getSellQuantity order sessionData) 6
    let t := [Event.SellOrder qty]
    match (SellOrder w configData qty).1 with
    | none => { trace := t, outcome := Outcome.returned, session := sessionData }
    | some orderResponse =>
      let t := t ++ [Event.SaveOrder orderResponse.ClientOrderID
        orderResponse.CumulativeQuoteQuantity orderResponse.ExecutedQuantity
        orderResponse.OrderID marketData.Price orderResponse.Side orderResponse.Status
        orderResponse.Symbol orderResponse.TransactTime]
      match w.SaveOrder with
      | some _ => exitFrom w xfuel sessionData t
      | none =>
        if orderResponse.Status = "FILLED" then
          sellSettle w xfuel marketData sessionData order orderResponse false t
        else if orderResponse.Status = "CANCELED" then
          sellSettle w xfuel marketData sessionData order orderResponse true t
        else if orderResponse.Status = "PARTIALLY_FILLED" ∨ orderResponse.Status = "NEW" then
          let t := t ++ [Event.Sleep 2000, Event.GetOrder orderResponse.OrderID]
          let got := GetOrder w configData 0 orderResponse.OrderID
          let l := sellLoop w xfuel configData marketData sessionData orderResponse
            got.1 got.2 fuel 0
          match l.2 with
          | SellExit.stop o sessionData =>
            { trace := t ++ l.1, outcome := o, session := sessionData }
          | SellExit.breakS sessionData =>
            sellSettle w xfuel marketData sessionData order orderResponse false (t ++ l.1)
          | SellExit.breakF orderStatus isCanceled sessionData =>
            match orderStatus with
            | none =>
              { trace := t ++ l.1, outcome := Outcome.panicked, session := sessionData }
            | some os =>
              let t := t ++ l.1 ++ [Event.UpdateOrder orderResponse.OrderID
                os.CumulativeQuoteQuantity os.ExecutedQuantity marketData.Price os.Status]
              match w.UpdateOrder with
              | some _ => exitFrom w xfuel sessionData t
              | none =>
                sellSettle w xfuel marketData sessionData order orderResponse isCanceled t
        else
          sellSettle w xfuel marketData sessionData order orderResponse false t

/-- The function `SellTicker`. `fuel` bounds the passes of the reconciliation loop and
`xfuel` the passes of the wait loop of `ExitThreadID`. -/
def SellTicker (w : World) (fuel xfuel : Nat) (order : Order) (configData : Config)
    (marketData : Market) (sessionData : Session) : Run :=
  withBusy (SellTickerBody w fuel xfuel order configData marketData) sessionData

/-! ## Scenarios -/

/-- A configuration with dry-run off and the Binance adapter selected. -/
def liveConfig : Config :=
  { SellWaitBeforeCancel := 100, Debug := false, DryRun := false, NewSession := false,
    ExchangeName := "binance", TestNet := false, Symbol := "BTCUSDT", SymbolFiat := "USDT" }

/-- A world in which the adapter returns no order and no error, and nothing fails. -/
def quietWorld : World :=
  { binanceBuyOrder := fun _ => (none, none),
    binanceSellOrder := fun _ => (none, none),
    binanceGetOrder := fun _ _ => (none, none),
    binanceCancelOrder := fun _ => (none, none),
    SaveOrder := none, UpdateOrder := none, SaveThreadTransaction := none,
    DeleteThreadTransactionByOrderID := none, Remove := fun _ => none, Now := 0 }

/-- An order numbered 7 on BTCUSDT with the given side and status, nothing executed. -/
def orderWith (side status : String) : Order :=
  { Order.zero with ClientOrderID := "c7", OrderID := 7, Side := side, Status := status,
                    Symbol := "BTCUSDT" }

/-- The buy submission is answered NEW, the first status query NEW, every later one
FILLED: the status sequence NEW, NEW, FILLED. -/
def slowFillWorld : World :=
  { quietWorld with
    binanceBuyOrder := fun _ => (some (orderWith "BUY" "NEW"), none),
    binanceGetOrder := fun k _ =>
      if k = 0 then (some (orderWith "BUY" "NEW"), none)
      else (some (orderWith "BUY" "FILLED"), none) }

/-- The buy submission is answered FILLED and the write of the order to the store fails. -/
def saveFailsWorld : World :=
  { quietWorld with
    binanceBuyOrder := fun _ => (some (orderWith "BUY" "FILLED"), none),
    SaveOrder := some "Error 2006: MySQL server has gone away" }

/-- The sell submission is answered NEW and the status query CANCELED. -/
def sellCanceledWorld : World :=
  { quietWorld with
    binanceSellOrder := fun _ => (some (orderWith "SELL" "NEW"), none),
    binanceGetOrder := fun _ _ => (some (orderWith "SELL" "CANCELED"), none) }

/-- The originating buy of the sell scenarios: order 3, executed quantity `0.01`. -/
def boughtOrder : Order :=
  { Order.zero with OrderID := 3, Side := "BUY", Status := "FILLED", Symbol := "BTCUSDT",
                    ExecutedQuantity := F64.fin (1 / 100),
                    CumulativeQuoteQuantity := F64.fin 500 }

/-- A session `abc` with step size `0.0001`. -/
def liveSession : Session :=
  { Session.zero with ThreadID := "abc", Symbol := "BTCUSDT", SymbolFiat := "USDT",
                      StepSize := F64.fin (1 / 10000) }

/-- The sell submission is answered NEW, every status query NEW, and the cancel request
succeeds with status CANCELED. -/
def sellTimesOutWorld : World :=
  { quietWorld with
    binanceSellOrder := fun _ => (some (orderWith "SELL" "NEW"), none),
    binanceGetOrder := fun _ _ => (some (orderWith "SELL" "NEW"), none),
    binanceCancelOrder := fun _ => (some (orderWith "SELL" "CANCELED"), none) }

/-- The sleep at the end of a pass of the reconciliation loop of `SellTicker`. -/
def tickSleep (configData : Config) : Event :=
  Event.Sleep (Int.tdiv configData.SellWaitBeforeCancel 10 * 1000)

/-- The events of `n` complete passes of the reconciliation loop that end in the tick
sleep. -/
def tickPasses (configData : Config) : Nat → List Event
  | 0 => []
  | n + 1 => Event.LoopPass :: tickSleep configData :: tickPasses configData n

/-- An event is a cancel request. -/
def isCancel : Event → Bool
  | Event.CancelOrder _ => true
  | _ => false

/-- An event is a deletion of a ThreadTransaction. -/
def isDelete : Event → Bool
  | Event.DeleteThreadTransactionByOrderID _ => true
  | _ => false

/-- The sell submission is answered NEW, every status query NEW, and the cancel request
fails with an error that carries neither race code. -/
def cancelFailsWorld : World :=
  { quietWorld with
    binanceSellOrder := fun _ => (some (orderWith "SELL" "NEW"), none),
    binanceGetOrder := fun _ _ => (some (orderWith "SELL" "NEW"), none),
    binanceCancelOrder := fun _ => (none, some "code=-1021, msg=Timestamp outside recvWindow") }

/-- An event is neither the start of a pass of the reconciliation loop nor a cancel
request. -/
def quiet : Event → Bool
  | Event.LoopPass => false
  | Event.CancelOrder _ => false
  | _ => true

/-- The shape of the events of the reconciliation loop when at most `k` passes can end in
the tick sleep: `n` such passes, followed by nothing, or by a last pass without a cancel
request (`n ≤ k`), or, after exactly `k` of them, by a last pass that starts with the
cancel request. -/
def LoopShape (configData : Config) (k : Nat) (t : List Event) : Prop :=
  ∃ n q, t = tickPasses configData n ++ q ∧
    ((n ≤ k ∧ (q = [] ∨ ∃ r, q = Event.LoopPass :: r ∧ ∀ e ∈ r, quiet e = true))
     ∨ (n = k ∧ ∃ id r, q = Event.LoopPass :: Event.CancelOrder id :: r
          ∧ ∀ e ∈ r, quiet e = true))

/-- A sell order is pending: its status is NEW or PARTIALLY_FILLED. -/
def pending (o : Order) : Prop := o.Status = "NEW" ∨ o.Status = "PARTIALLY_FILLED"

/-- The sell submission is answered NEW, the first status query NEW, every later status
query FILLED, and a cancel request fails with the race code -2011 (already filled). -/
def lateFillWorld : World :=
  { quietWorld with
    binanceSellOrder := fun _ => (some (orderWith "SELL" "NEW"), none),
    binanceGetOrder := fun k _ =>
      if k = 0 then (some (orderWith "SELL" "NEW"), none)
      else (some (orderWith "SELL" "FILLED"), none),
    binanceCancelOrder := fun _ => (none, some "code=-2011, msg=Unknown order sent.") }

/-- The buy submission is answered NEW and the status query fails with a transport error. -/
def pollErrorWorld : World :=
  { quietWorld with
    binanceBuyOrder := fun _ => (some (orderWith "BUY" "NEW"), none),
    binanceGetOrder := fun _ _ => (none, some "Get: context deadline exceeded") }

/-- Order 7 observed FILLED with executed quantity `0.01` for a cumulative quote of `500`. -/
def filledOrder : Order :=
  { orderWith "BUY" "FILLED" with ExecutedQuantity := F64.fin (1 / 100),
                                  CumulativeQuoteQuantity := F64.fin 500 }

/-- The buy submission is answered NEW and the status query FILLED with executed quantity
`0.01` and cumulative quote `500`. -/
def fillAfterPollWorld : World :=
  { quietWorld with
    binanceBuyOrder := fun _ => (some (orderWith "BUY" "NEW"), none),
    binanceGetOrder := fun _ _ => (some filledOrder, none) }

/-- The buy submission is answered FILLED with cumulative quote `500` and executed quantity
`0`. -/
def zeroExecutedWorld : World :=
  { quietWorld with
    binanceBuyOrder := fun _ =>
      (some { orderWith "BUY" "FILLED" with CumulativeQuoteQuantity := F64.fin 500 }, none) }

/-- The configuration `liveConfig` with dry-run on. -/
def dryConfig : Config := { liveConfig with DryRun := true }

/-- The value of `cumulativeQuote / executedQuantity` after the `math.IsNaN` guard of the
submission path of `BuyTicker`, for finite operands `c` and `e`. -/
def guardedQuotient (c e : ℚ) : F64 :=
  if e ≠ 0 then F64.fin (c / e)
  else if c = 0 then F64.fin 0
  else if 0 < c then F64.posInf else F64.negInf

/-- An event is the saving of a ThreadTransaction. -/
def isThreadTransaction : Event → Bool
  | Event.SaveThreadTransaction _ _ _ _ => true
  | _ => false

/-- An event is a call of `Logger` with the message `msg`. -/
def isLog (msg : String) : Event → Bool
  | Event.Logger _ m _ => decide (m = msg)
  | _ => false


/-! ## node/node.go: `GetRole` -/

/-- The assignment `sessionData.MasterNode = b`. -/
def Session.setMasterNode (s : Session) (b : Bool) : Session := { s with MasterNode := b }

/-- The errors of the `os` calls of `GetRole` that do not come from the state of
`master.lock` (missing permissions, a full disk); `none` where the call behaves. -/
structure OsFaults where
  Chtimes : Option String
  Stat : Option String
  Remove : Option String
  Create : Option String

/-- Every `os` call behaves. -/
def noFaults : OsFaults := { Chtimes := none, Stat := none, Remove := none, Create := none }

/-- The result of `os.Stat`: the file exists (with its modification time), it does not
exist, or the call failed otherwise. -/
inductive StatResult where
  | ok (modTime : Int)
  | notExist
  | failed (e : String)

/-- The call `os.Stat("master.lock")`; `lock` is the modification time of the file when it
exists. Times are in nanoseconds. -/
def osStat (f : OsFaults) (lock : Option Int) : StatResult :=
  match f.Stat with
  | some e => StatResult.failed e
  | none =>
    match lock with
    | some t => StatResult.ok t
    | none => StatResult.notExist

/-- The call `os.Chtimes("master.lock", now, now)`: the file after the call and the error. -/
def osChtimes (f : OsFaults) (now : Int) (lock : Option Int) : Option Int × Option String :=
  match f.Chtimes with
  | some e => (lock, some e)
  | none =>
    match lock with
    | some _ => (some now, none)
    | none => (none, some "chtimes master.lock: no such file or directory")

/-- The call `os.Remove("master.lock")`: the file after the call and the error. -/
def osRemove (f : OsFaults) (lock : Option Int) : Option Int × Option String :=
  match f.Remove with
  | some e => (lock, some e)
  | none =>
    match lock with
    | some _ => (none, none)
    | none => (none, some "remove master.lock: no such file or directory")

/-- The call `os.Create("master.lock")`: the file after the call and the error. -/
def osCreate (f : OsFaults) (now : Int) (lock : Option Int) : Option Int × Option String :=
  match f.Create with
  | some e => (lock, some e)
  | none => (some now, none)

/-- The value of `time.Duration(time.Since(file.ModTime()).Seconds())`: the age of the file
in seconds, converted from float64 to an integer type, which cuts the fraction off. -/
def ageSeconds (now modTime : Int) : Int := Int.tdiv (now - modTime) 1000000000

/-- The debug log entry `GetRole` writes for a failed `os` call. -/
def roleLog (err : Option String) : List Event :=
  match err with
  | some e => [Event.Logger Order.zero ("cryptopump/node.GetRole - " ++ e) LogLevel.DebugLevel]
  | none => []

/-- The function `GetRole`: the session, the file `master.lock` and the log entries after
the call at time `now`. -/
def GetRole (f : OsFaults) (now : Int) (configData : Config) (lock : Option Int)
    (sessionData : Session) : Session × Option Int × List Event :=
  if configData.TestNet then
    (sessionData.setMasterNode false, lock, [])
  else if sessionData.MasterNode then
    let r := osChtimes f now lock
    (sessionData, r.1, roleLog r.2)
  else
    match osStat f lock with
    | StatResult.ok modTime =>
      let sessionData := sessionData.setMasterNode false
      if ageSeconds now modTime > 100 then
        let r := osRemove f lock
        (sessionData, r.1, roleLog r.2)
      else (sessionData, lock, [])
    | StatResult.notExist =>
      let r := osCreate f now lock
      (sessionData.setMasterNode true, r.1, roleLog r.2)
    | StatResult.failed _ => (sessionData, lock, [])

/-- A session that is Slave. -/
def slaveSession : Session := { liveSession with MasterNode := false }

/-- A session that is Master. -/
def masterSession : Session := { liveSession with MasterNode := true }

/-- The configuration `liveConfig` on the test network. -/
def testNetConfig : Config := { liveConfig with TestNet := true }

/-! ## node/node.go: two processes, periodic role checks -/

/-- Two processes that share the working directory, and so the file `master.lock`: the
configuration and the session of each, and the modification time of the file when it
exists. -/
structure Cluster where
  configA : Config
  configB : Config
  sessionA : Session
  sessionB : Session
  lock : Option Int

/-- One `GetRole` call, taken as an atomic step, made at time `now` by the first process
(`who = true`) or by the second, the `os` calls behaving. -/
def Cluster.call (c : Cluster) (who : Bool) (now : Int) : Cluster :=
  if who then
    let r := GetRole noFaults now c.configA c.lock c.sessionA
    { c with sessionA := r.1, lock := r.2.1 }
  else
    let r := GetRole noFaults now c.configB c.lock c.sessionB
    { c with sessionB := r.1, lock := r.2.1 }

/-- The state after a schedule of `GetRole` calls, each with the process that calls and the
time of the call. -/
def Cluster.run (c : Cluster) : List (Bool × Int) → Cluster
  | [] => c
  | (who, now) :: rest => (c.call who now).run rest

/-- The call of `who` at time `now` is made by a Slave that finds `master.lock` stale (101 s
old or more) while the other process is Master. -/
def Cluster.reclaimsFromMaster (c : Cluster) (who : Bool) (now : Int) : Bool :=
  match c.lock with
  | some t =>
    decide (ageSeconds now t > 100) &&
      (if who then !c.sessionA.MasterNode && c.sessionB.MasterNode
       else !c.sessionB.MasterNode && c.sessionA.MasterNode)
  | none => false

/-- No call of the schedule is made by a Slave that finds the file of the other process,
which is Master, stale: every Master refreshes the file in time. -/
def Cluster.timely (c : Cluster) : List (Bool × Int) → Bool
  | [] => true
  | (who, now) :: rest => !c.reclaimsFromMaster who now && (c.call who now).timely rest

/-- The invariant of the election while every Master refreshes in time: both processes are
outside the test network, a Master implies the file, and the two are not both Master. -/
def Cluster.Safe (c : Cluster) : Prop :=
  c.configA.TestNet = false ∧ c.configB.TestNet = false ∧
  ((c.sessionA.MasterNode = true ∨ c.sessionB.MasterNode = true) → c.lock ≠ none) ∧
  ¬ (c.sessionA.MasterNode = true ∧ c.sessionB.MasterNode = true)

/-- Two Slaves outside the test network, and no file `master.lock`. -/
def twoSlaves : Cluster :=
  { configA := liveConfig, configB := liveConfig, sessionA := slaveSession,
    sessionB := slaveSession, lock := none }

/-- The role checks of one process: `node.GetRole` called at time `start` and then every
60 s (`scheduler.RunTaskAtInterval(..., time.Second*60, ...)`), `n` calls in all, while no
other process touches `master.lock`. Times are in nanoseconds. -/
def roleChecks (f : OsFaults) (configData : Config) :
    Nat → Int → Option Int → Session → Session × Option Int
  | 0, _, lock, sessionData => (sessionData, lock)
  | n + 1, start, lock, sessionData =>
    let r := GetRole f start configData lock sessionData
    roleChecks f configData n (start + 60000000000) r.2.1 r.1

/-! ## exchange/exchange.go: time slept by the reconciliation loop -/

/-- The milliseconds slept by the `time.Sleep` calls among the events. -/
def sleptMillis : List Event → Int
  | [] => 0
  | Event.Sleep ms :: rest => ms + sleptMillis rest
  | _ :: rest => sleptMillis rest

/-- An event is the submission of an order to the exchange. -/
def isSubmit : Event → Bool
  | Event.BuyOrder _ => true
  | Event.SellOrder _ => true
  | _ => false

/-! ## functions/functions.go: `Logger` and the error paths that call it -/

/-- The struct `LogEntry`; a pointer field is `none` when the pointer is nil. -/
structure LogEntry where
  Config : Option Config
  Market : Option Market
  Session : Option Session
  Order : Option Order
  Message : String
  LogLevel : LogLevel

/-- A line `Logger` writes: the log file, the field `threadID` and the message. -/
structure LogLine where
  filename : String
  threadID : String
  message : String
deriving DecidableEq

/-- The function `Logger`. `openErr` is the error of `os.OpenFile` on the log file, which
ends the process through `log.Fatal`. Reading a field through a nil pointer is a run-time
panic. At level Info the message selects the fields that are read; at level Debug the
fields are `LogEntry.Session.ThreadID` and `LogEntry.Order.OrderID`. -/
def Logger (openErr : Option String) (e : LogEntry) : List LogLine × Outcome :=
  match openErr with
  | some _ => ([], Outcome.exited 1)
  | none =>
    match e.LogLevel with
    | LogLevel.InfoLevel =>
      if e.Message = "UP" ∨ e.Message = "DOWN" ∨ e.Message = "INIT" then
        match e.Session, e.Market with
        | some s, some _ => ([⟨"cryptopump.log", s.ThreadID, e.Message⟩], Outcome.returned)
        | _, _ => ([], Outcome.panicked)
      else if e.Message = "BUY" ∨ e.Message = "SELL" then
        match e.Session, e.Order with
        | some s, some _ => ([⟨"cryptopump.log", s.ThreadID, e.Message⟩], Outcome.returned)
        | _, _ => ([], Outcome.panicked)
      else if e.Message = "CANCELED" then
        match e.Config with
        | none => ([], Outcome.panicked)
        | some c =>
          if c.Debug then
            match e.Session, e.Order with
            | some s, some _ =>
              ([⟨"cryptopump.log", s.ThreadID, e.Message⟩], Outcome.returned)
            | _, _ => ([], Outcome.panicked)
          else ([], Outcome.returned)
      else
        match e.Session with
        | some s => ([⟨"cryptopump.log", s.ThreadID, e.Message⟩], Outcome.returned)
        | none => ([], Outcome.panicked)
    | LogLevel.DebugLevel =>
      match e.Session, e.Order with
      | some s, some _ =>
        ([⟨"cryptopump_debug.log", s.ThreadID, e.Message⟩], Outcome.returned)
      | _, _ => ([], Outcome.panicked)

/-- The log entry built on the error paths of `stringToTime`, `ExecuteTemplate`,
`DeleteConfigFile`, `GetConfigData`, `getConfigTemplateList` and `LoadConfigTemplate`, in the
function named `fn` for the error `err`:
`&types.LogEntry{Config: nil, Market: nil, Session: nil, Order: &types.Order{},
Message: GetFunctionName() + " - " + err.Error(), LogLevel: log.DebugLevel}`. -/
def errorEntry (fn err : String) : LogEntry :=
  { Config := none, Market := none, Session := none, Order := some Order.zero,
    Message := fn ++ " - " ++ err, LogLevel := LogLevel.DebugLevel }

/-- The function `stringToTime`; `parsed` is what `time.Parse(time.Kitchen, str)` returns.
The result is the time returned, or how the call ended instead of returning. -/
def stringToTime (openErr : Option String) (parsed : Int × Option String) :
    Except Outcome Int :=
  match parsed.2 with
  | some err =>
    match (Logger openErr (errorEntry "cryptopump/functions.stringToTime" err)).2 with
    | Outcome.returned => Except.ok parsed.1
    | o => Except.error o
  | none => Except.ok parsed.1

/-- The function `DeleteConfigFile`; `removeErr` is the error `os.Remove` returns. -/
def DeleteConfigFile (openErr removeErr : Option String) (_sessionData : Session) : Outcome :=
  match removeErr with
  | some err => (Logger openErr (errorEntry "cryptopump/functions.DeleteConfigFile" err)).2
  | none => Outcome.returned

/-- The function `LockThreadID`: the result and the files of the working directory after the
call. A fault of `os.Stat` is an error other than the file being absent. -/
def LockThreadID (f : OsFaults) (files : List String) (threadID : String) :
    Bool × List String :=
  let filename := threadID ++ ".lock"
  match f.Stat with
  | some _ => (false, files)
  | none =>
    if filename ∈ files then (false, files)
    else
      match f.Create with
      | some _ => (false, files)
      | none => (true, filename :: files)

/-! ## main.go: identity resolution in `execution`, the join barrier -/

/-- The collaborators of the identity resolution that the source calls but does not define:
the two queries of the store (`mysql`), the configuration `GetConfigData` reads through
viper for a session, and the random identifier of `GetThreadID`. -/
structure Startup where
  GetThreadTransactionDistinct : String × String
  GetOrderSymbol : Session → String
  GetConfigData : Session → Config
  GetThreadID : String

/-- The slice expression `s[lo:hi]` on a string: `none` is the run-time panic "slice bounds
out of range". Symbols are ASCII, so that bytes and characters agree. -/
def sliceString (s : String) (lo hi : Nat) : Option String :=
  if lo ≤ hi ∧ hi ≤ s.data.length then some (String.mk ((s.data.drop lo).take (hi - lo)))
  else none

/-- The state after the identity resolution: the calls made, how the fragment ended
(`returned`: `execution` goes on), the session, the configuration in use, the files of the
working directory, and the calls of `LockThreadID` with their results. -/
structure Resolved where
  trace : List Event
  outcome : Outcome
  session : Session
  config : Config
  files : List String
  lockCalls : List (String × Bool)

/-- The assignment `sessionData.ThreadID = id`. -/
def Session.setThreadID (s : Session) (id : String) : Session := { s with ThreadID := id }

/-- The assignment `sessionData.Symbol = symbol`. -/
def Session.setSymbol (s : Session) (symbol : String) : Session := { s with Symbol := symbol }

/-- The assignment `sessionData.SymbolFiat = fiat`. -/
def Session.setSymbolFiat (s : Session) (fiat : String) : Session :=
  { s with SymbolFiat := fiat }

/-- The files after `os.Remove(name)` with the error `err`. -/
def removeFile (err : Option String) (name : String) (files : List String) : List String :=
  match err with
  | some _ => files
  | none => files.erase name

/-- The files after `ExitThreadID`: `master.lock` is removed by a Master, then the lock of
the identity. -/
def filesAfterExit (w : World) (sessionData : Session) (files : List String) : List String :=
  let files :=
    if sessionData.MasterNode then removeFile (w.Remove "master.lock") "master.lock" files
    else files
  removeFile (w.Remove (sessionData.ThreadID ++ ".lock")) (sessionData.ThreadID ++ ".lock")
    files

/-- The part "Routine to resume operations" of `execution`: from the query of the store to
the end of the `if`/`else` that resumes or initializes the session. -/
def resolveIdentity (env : Startup) (w : World) (f : OsFaults) (xfuel : Nat)
    (files : List String) (configData : Config) (sessionData : Session) : Resolved :=
  let sessionData := sessionData.setThreadID env.GetThreadTransactionDistinct.1
  if sessionData.ThreadID ≠ "" ∧ configData.NewSession = false then
    let configData := env.GetConfigData sessionData
    let sessionData := sessionData.setSymbol (env.GetOrderSymbol sessionData)
    if sessionData.Symbol = "" then
      let r := ExitThreadID w (fun _ => sessionData.Busy) sessionData xfuel
      { trace := Event.Logger Order.zero "sessionData.Symbol not found" LogLevel.DebugLevel
                   :: r.1,
        outcome := r.2, session := sessionData, config := configData,
        files := if r.2 = Outcome.exited 1 then filesAfterExit w sessionData files else files,
        lockCalls := [] }
    else
      match sliceString sessionData.Symbol 3 7 with
      | none =>
        { trace := [], outcome := Outcome.panicked, session := sessionData,
          config := configData, files := files, lockCalls := [] }
      | some fiat =>
        { trace := [Event.Logger Order.zero "Resuming" LogLevel.InfoLevel],
          outcome := Outcome.returned, session := sessionData.setSymbolFiat fiat,
          config := configData, files := files, lockCalls := [] }
  else
    let sessionData := sessionData.setThreadID env.GetThreadID
    let l := LockThreadID f files sessionData.ThreadID
    if l.1 = false then
      { trace := [Event.Exit 1], outcome := Outcome.exited 1, session := sessionData,
        config := configData, files := l.2, lockCalls := [(sessionData.ThreadID, false)] }
    else
      { trace := [Event.Logger Order.zero "Initializing" LogLevel.InfoLevel],
        outcome := Outcome.returned,
        session := (sessionData.setSymbol configData.Symbol).setSymbolFiat
                     configData.SymbolFiat,
        config := configData, files := l.2, lockCalls := [(sessionData.ThreadID, true)] }

/-- A store that holds the unresolved identity `abc` with the given symbol. -/
def storedIdentity (symbol : String) : Startup :=
  { GetThreadTransactionDistinct := ("abc", "1"), GetOrderSymbol := fun _ => symbol,
    GetConfigData := fun _ => liveConfig, GetThreadID := "c0ffee" }

/-- A store that holds no unresolved identity. -/
def emptyStore : Startup :=
  { GetThreadTransactionDistinct := ("", ""), GetOrderSymbol := fun _ => "",
    GetConfigData := fun _ => liveConfig, GetThreadID := "c0ffee" }

/-- The long-lived tasks a pass of the main loop of `execution` starts with `go`, each with
the wait group `wg` as argument. -/
inductive Goroutine where
  | CheckUpdates
  | WsKline
  | WsUserDataServe
  | WsBookTicker
deriving DecidableEq

/-- The tasks started by one pass of the main loop, in the order of the `go` statements. -/
def launched : List Goroutine :=
  [Goroutine.CheckUpdates, Goroutine.WsKline, Goroutine.WsUserDataServe,
   Goroutine.WsBookTicker]

/-- The method `Add` of `sync.WaitGroup` on the counter: `none` is the panic
"sync: negative WaitGroup counter". -/
def wgAdd (counter delta : Int) : Option Int :=
  if counter + delta < 0 then none else some (counter + delta)

/-- The method `Done`: `Add(-1)`. -/
def wgDone (counter : Int) : Option Int := wgAdd counter (-1)

/-- The counter of a wait group after the tasks `returned` have returned, in this order;
`signals t` tells whether task `t` calls `wg.Done()` when it returns. -/
def counterAfter (signals : Goroutine → Bool) : Option Int → List Goroutine → Option Int
  | c, [] => c
  | none, _ :: _ => none
  | some c, t :: rest => counterAfter signals (if signals t then wgDone c else some c) rest

/-- The counter of the wait group of a pass of the main loop, `wg := &sync.WaitGroup{}`
followed by `wg.Add(3)`, after the tasks `returned` have returned. -/
def barrierCounter (signals : Goroutine → Bool) (returned : List Goroutine) : Option Int :=
  counterAfter signals (wgAdd 0 3) returned

/-- The call `wg.Wait()` returns: the counter is zero. -/
def waitReturns (counter : Option Int) : Bool := counter == some 0

/-! ## Scenarios of the quantity correction and of the reconciliation loop -/

/-- The float64 nearest to `0.1`. -/
def tenth64 : ℚ := 3602879701896397 / 2 ^ 55

/-- The float64 nearest to `0.00003`. -/
def step64 : ℚ := 8854437155380585 / 2 ^ 68

/-- The float64 nearest to `0.0000003`. -/
def sellStep64 : ℚ := 2833419889721787 / 2 ^ 73

/-- The sell submission is answered NEW and the status query fails with a transport
error. -/
def sellPollErrorWorld : World :=
  { quietWorld with
    binanceSellOrder := fun _ => (some (orderWith "SELL" "NEW"), none),
    binanceGetOrder := fun _ _ => (none, some "Get: context deadline exceeded") }

/-- The world `sellTimesOutWorld` with the clock at `1700000000`. -/
def cancelClockWorld : World := { sellTimesOutWorld with Now := 1700000000 }

/-! ## Quantity correction -/

theorem roundHalfAway_intCast (n : ℤ) : roundHalfAway (n : ℚ) = n := by
  unfold roundHalfAway
  split
  · rw [Int.floor_eq_iff]; constructor <;> linarith
  · have : ⌊-(n : ℚ) + 1 / 2⌋ = -n := by
      rw [Int.floor_eq_iff]; push_cast; constructor <;> linarith
    rw [this]; simp

theorem roundHalfEven_intCast (n : ℤ) : roundHalfEven (n : ℚ) = n := by
  simp [roundHalfEven]

theorem getSellQuantity_fin (order : Order) (sessionData : Session) (x s : ℚ) (hs : s ≠ 0) :
    getSellQuantity { order with ExecutedQuantity := F64.fin x }
        { sessionData with StepSize := F64.fin s }
      = F64.fin (roundHalfAway (x / s) * s) := by
  simp [getSellQuantity, F64.div, F64.mul, mathRound, hs]

theorem getBuyQuantity_fin (sessionData : Session) (f p s : ℚ) (hp : p ≠ 0) (hs : s ≠ 0) :
    getBuyQuantity { Price := F64.fin p } { sessionData with StepSize := F64.fin s } (F64.fin f)
      = F64.fin (roundHalfAway (f / p / s) * s) := by
  simp [getBuyQuantity, F64.div, F64.mul, mathRound, hs, hp]

/-- C5: over exact arithmetic, for every step size `s > 0` and every quantity `x` (positive
or not), the correction `c(x)` computed by `getSellQuantity` is an integer multiple of `s`
and satisfies `c(c(x)) = c(x)`; `getBuyQuantity` computes the same correction of its raw
quantity `f / p`. -/
theorem C5_correction_idempotent (order : Order) (sessionData : Session)
    (x f p s : ℚ) (hs : 0 < s) (hp : 0 < p) :
    (∃ n : ℤ, getSellQuantity { order with ExecutedQuantity := F64.fin x }
        { sessionData with StepSize := F64.fin s } = F64.fin (n * s))
    ∧ getSellQuantity
        { order with ExecutedQuantity :=
            (getSellQuantity { order with ExecutedQuantity := F64.fin x }
              { sessionData with StepSize := F64.fin s }) }
        { sessionData with StepSize := F64.fin s }
      = getSellQuantity { order with ExecutedQuantity := F64.fin x }
          { sessionData with StepSize := F64.fin s }
    ∧ getBuyQuantity { Price := F64.fin p } { sessionData with StepSize := F64.fin s }
        (F64.fin f)
      = getSellQuantity { order with ExecutedQuantity := F64.fin (f / p) }
          { sessionData with StepSize := F64.fin s } := by
  have hs0 : s ≠ 0 := hs.ne'
  refine ⟨⟨roundHalfAway (x / s), getSellQuantity_fin order sessionData x s hs0⟩, ?_, ?_⟩
  · rw [getSellQuantity_fin order sessionData x s hs0]
    have h := getSellQuantity_fin order sessionData (roundHalfAway (x / s) * s) s hs0
    simp only [] at h ⊢
    rw [h, mul_div_assoc, div_self hs0, mul_one, roundHalfAway_intCast]
  · rw [getSellQuantity_fin order sessionData (f / p) s hs0,
      getBuyQuantity_fin sessionData f p s hp.ne' hs0]

/-- Witness of C5: executed quantity `0.0123456`, step size `0.0001`, fiat `50` at price
`40000`. -/
theorem C5_correction_idempotent_witness :
    (∃ n : ℤ, getSellQuantity { Order.zero with ExecutedQuantity := F64.fin (123456 / 10000000) }
        { Session.zero with StepSize := F64.fin (1 / 10000) } = F64.fin (n * (1 / 10000)))
    ∧ getSellQuantity
        { Order.zero with ExecutedQuantity :=
            (getSellQuantity { Order.zero with ExecutedQuantity := F64.fin (123456 / 10000000) }
              { Session.zero with StepSize := F64.fin (1 / 10000) }) }
        { Session.zero with StepSize := F64.fin (1 / 10000) }
      = getSellQuantity { Order.zero with ExecutedQuantity := F64.fin (123456 / 10000000) }
          { Session.zero with StepSize := F64.fin (1 / 10000) }
    ∧ getBuyQuantity { Price := F64.fin 40000 }
        { Session.zero with StepSize := F64.fin (1 / 10000) } (F64.fin 50)
      = getSellQuantity { Order.zero with ExecutedQuantity := F64.fin (50 / 40000) }
          { Session.zero with StepSize := F64.fin (1 / 10000) } :=
  C5_correction_idempotent Order.zero Session.zero (123456 / 10000000) 50 40000 (1 / 10000)
    (by norm_num) (by norm_num)

theorem exitFrom_starts (w : World) (xfuel : Nat) (s : Session) (pre : List Event) :
    pre <+: (exitFrom w xfuel s pre).trace := by
  simp [exitFrom]

theorem buySettle_starts (w : World) (xfuel : Nat) (s : Session) (o : Order) (p q : F64)
    (c : Bool) (pre : List Event) :
    pre <+: (buySettle w xfuel s o p q c pre).trace := by
  unfold buySettle
  split
  · split
    · exact (List.prefix_append _ _).trans (exitFrom_starts _ _ _ _)
    · simp
  · simp

theorem BuyTickerBody_starts (w : World) (fuel xfuel : Nat) (quantity : F64)
    (configData : Config) (marketData : Market) (sessionData : Session)
    (hdry : configData.DryRun = false) :
    [Event.BuyOrder (Float64ToStr (getBuyQuantity marketData sessionData quantity) 4)]
      <+: (BuyTickerBody w fuel xfuel quantity configData marketData sessionData).trace := by
  unfold BuyTickerBody
  rw [if_neg (by simp [hdry])]
  dsimp only
  cases (BuyOrder w configData (Float64ToStr (getBuyQuantity marketData sessionData quantity) 4)).1 with
  | none => simp
  | some orderResponse =>
    dsimp only
    cases w.SaveOrder with
    | some e => exact List.IsPrefix.trans (by simp) (exitFrom_starts _ _ _ _)
    | none =>
      dsimp only
      cases (buyPoll (GetOrder w configData 0 orderResponse.OrderID).1
          (GetOrder w configData 0 orderResponse.OrderID).2 fuel).2 <;>
      cases (GetOrder w configData 0 orderResponse.OrderID).1 <;>
      cases w.UpdateOrder <;>
      dsimp only <;>
      split_ifs <;>
      first
        | (refine List.IsPrefix.trans ?_ (buySettle_starts _ _ _ _ _ _ _ _); simp)
        | (refine List.IsPrefix.trans ?_ (exitFrom_starts _ _ _ _); simp)
        | simp

theorem sellSettle_starts (w : World) (xfuel : Nat) (m : Market) (s : Session) (o r : Order)
    (c : Bool) (pre : List Event) :
    pre <+: (sellSettle w xfuel m s o r c pre).trace := by
  unfold sellSettle
  split
  · split
    · exact (List.prefix_append _ _).trans (exitFrom_starts _ _ _ _)
    · simp
  · simp

theorem SellTickerBody_starts (w : World) (fuel xfuel : Nat) (order : Order)
    (configData : Config) (marketData : Market) (sessionData : Session)
    (hdry : configData.DryRun = false) :
    [Event.SellOrder (Float64ToStr (getSellQuantity order sessionData) 6)]
      <+: (SellTickerBody w fuel xfuel order configData marketData sessionData).trace := by
  unfold SellTickerBody
  rw [if_neg (by simp [hdry])]
  dsimp only
  cases (SellOrder w configData (Float64ToStr (getSellQuantity order sessionData) 6)).1 with
  | none => simp
  | some orderResponse =>
    dsimp only
    cases w.SaveOrder with
    | some e => exact List.IsPrefix.trans (by simp) (exitFrom_starts _ _ _ _)
    | none =>
      dsimp only
      cases (sellLoop w xfuel configData marketData sessionData orderResponse
          (GetOrder w configData 0 orderResponse.OrderID).1
          (GetOrder w configData 0 orderResponse.OrderID).2 fuel 0).2 with
      | stop o s1 =>
        dsimp only
        split_ifs <;>
        first
          | (refine List.IsPrefix.trans ?_ (sellSettle_starts _ _ _ _ _ _ _ _); simp)
          | simp
      | breakS s1 =>
        dsimp only
        split_ifs <;>
        (refine List.IsPrefix.trans ?_ (sellSettle_starts _ _ _ _ _ _ _ _); simp)
      | breakF os c s1 =>
        cases os <;> cases w.UpdateOrder <;> dsimp only <;> split_ifs <;>
        first
          | (refine List.IsPrefix.trans ?_ (sellSettle_starts _ _ _ _ _ _ _ _); simp)
          | (refine List.IsPrefix.trans ?_ (exitFrom_starts _ _ _ _); simp)
          | simp

theorem withBusy_trace (body : Session → Run) (s : Session) :
    ∃ tail, (withBusy body s).trace
      = Event.SetBusy true :: ((body (s.setBusy true)).trace ++ tail) := by
  unfold withBusy
  dsimp only
  generalize body (s.setBusy true) = r
  obtain ⟨t, o, ss⟩ := r
  cases o
  · exact ⟨[Event.SetBusy false], rfl⟩
  · exact ⟨[], by simp⟩
  · exact ⟨[Event.SetBusy false], rfl⟩
  · exact ⟨[], by simp⟩
  · exact ⟨[], by simp⟩

/-- The first two events of a `BuyTicker` run with dry-run off. -/
theorem BuyTicker_starts (w : World) (fuel xfuel : Nat) (quantity : F64)
    (configData : Config) (marketData : Market) (sessionData : Session)
    (hdry : configData.DryRun = false) :
    [Event.SetBusy true,
     Event.BuyOrder (Float64ToStr (getBuyQuantity marketData sessionData quantity) 4)]
      <+: (BuyTicker w fuel xfuel quantity configData marketData sessionData).trace := by
  obtain ⟨tail, ht⟩ := withBusy_trace
    (BuyTickerBody w fuel xfuel quantity configData marketData) sessionData
  obtain ⟨rest, hr⟩ := BuyTickerBody_starts w fuel xfuel quantity configData marketData
    (sessionData.setBusy true) hdry
  unfold BuyTicker
  rw [ht, ← hr]
  exact ⟨rest ++ tail, by simp [getBuyQuantity, Session.setBusy]⟩

/-- The first two events of a `SellTicker` run with dry-run off. -/
theorem SellTicker_starts (w : World) (fuel xfuel : Nat) (order : Order)
    (configData : Config) (marketData : Market) (sessionData : Session)
    (hdry : configData.DryRun = false) :
    [Event.SetBusy true,
     Event.SellOrder (Float64ToStr (getSellQuantity order sessionData) 6)]
      <+: (SellTicker w fuel xfuel order configData marketData sessionData).trace := by
  obtain ⟨tail, ht⟩ := withBusy_trace
    (SellTickerBody w fuel xfuel order configData marketData) sessionData
  obtain ⟨rest, hr⟩ := SellTickerBody_starts w fuel xfuel order configData marketData
    (sessionData.setBusy true) hdry
  unfold SellTicker
  rw [ht, ← hr]
  exact ⟨rest ++ tail, by simp [getSellQuantity, Session.setBusy]⟩

theorem ToLower_binance : ToLower "binance" = "binance" := by decide

@[simp] theorem getBuyQuantity_setBusy (m : Market) (s : Session) (b : Bool) (q : F64) :
    getBuyQuantity m (s.setBusy b) q = getBuyQuantity m s q := rfl

@[simp] theorem getSellQuantity_setBusy (o : Order) (s : Session) (b : Bool) :
    getSellQuantity o (s.setBusy b) = getSellQuantity o s := rfl

@[simp] theorem setBusy_Busy (s : Session) (b : Bool) : (s.setBusy b).Busy = b := rfl

@[simp] theorem setBusy_MasterNode (s : Session) (b : Bool) :
    (s.setBusy b).MasterNode = s.MasterNode := rfl

@[simp] theorem setBusy_ThreadID (s : Session) (b : Bool) :
    (s.setBusy b).ThreadID = s.ThreadID := rfl

@[simp] theorem setLastBuyTransactTime_Busy (s : Session) (t : Int) :
    (s.setLastBuyTransactTime t).Busy = s.Busy := rfl

@[simp] theorem setLastBuyTransactTime_MasterNode (s : Session) (t : Int) :
    (s.setLastBuyTransactTime t).MasterNode = s.MasterNode := rfl

@[simp] theorem setLastBuyTransactTime_ThreadID (s : Session) (t : Int) :
    (s.setLastBuyTransactTime t).ThreadID = s.ThreadID := rfl

@[simp] theorem setLastSellCanceledTime_Busy (s : Session) (t : Int) :
    (s.setLastSellCanceledTime t).Busy = s.Busy := rfl

@[simp] theorem setLastSellCanceledTime_MasterNode (s : Session) (t : Int) :
    (s.setLastSellCanceledTime t).MasterNode = s.MasterNode := rfl

@[simp] theorem setLastSellCanceledTime_ThreadID (s : Session) (t : Int) :
    (s.setLastSellCanceledTime t).ThreadID = s.ThreadID := rfl

/-! ## Teardown -/

theorem waitBusy_spec (busy : Nat → Bool) (fuel j : Nat) :
    ∃ n, (waitBusy busy fuel j).1 = List.replicate n (Event.Sleep 200)
      ∧ (∀ k, k < n → busy (j + k) = true)
      ∧ (((waitBusy busy fuel j).2 = true ∧ busy (j + n) = false ∧ n < fuel)
          ∨ ((waitBusy busy fuel j).2 = false ∧ n = fuel)) := by
  induction fuel generalizing j with
  | zero => exact ⟨0, by simp [waitBusy]⟩
  | succ fuel ih =>
    unfold waitBusy
    by_cases hb : busy j = true
    · obtain ⟨n, h1, h2, h3⟩ := ih (j + 1)
      refine ⟨n + 1, ?_, ?_, ?_⟩
      · simp [hb, h1, List.replicate_succ]
      · intro k hk
        cases k with
        | zero => simpa using hb
        | succ k =>
          have := h2 k (by omega)
          rwa [show j + (k + 1) = j + 1 + k by omega]
      · rw [show j + (n + 1) = j + 1 + n by omega]
        rcases h3 with ⟨a, b, c⟩ | ⟨a, b⟩
        · exact Or.inl ⟨by simp [hb, a], b, by omega⟩
        · exact Or.inr ⟨by simp [hb, a], by omega⟩
    · refine ⟨0, by simp [hb], by simp, Or.inl ⟨by simp [hb], by simpa using hb, by omega⟩⟩

theorem waitBusy_stuck (busy : Nat → Bool) (fuel j : Nat)
    (h : ∀ k, k < fuel → busy (j + k) = true) :
    waitBusy busy fuel j = (List.replicate fuel (Event.Sleep 200), false) := by
  induction fuel generalizing j with
  | zero => simp [waitBusy]
  | succ fuel ih =>
    have h0 : busy j = true := by simpa using h 0 (by omega)
    have := ih (j + 1) (fun k hk => by
      have := h (k + 1) (by omega)
      rwa [show j + (k + 1) = j + 1 + k by omega] at this)
    simp [waitBusy, h0, this, List.replicate_succ]

theorem waitBusy_done (busy : Nat → Bool) (fuel j n : Nat)
    (h : ∀ k, k < n → busy (j + k) = true) (hn : busy (j + n) = false) (hf : n < fuel) :
    waitBusy busy fuel j = (List.replicate n (Event.Sleep 200), true) := by
  induction fuel generalizing j n with
  | zero => omega
  | succ fuel ih =>
    cases n with
    | zero =>
      have h0 : busy j = false := by simpa using hn
      simp [waitBusy, h0]
    | succ n =>
      have h0 : busy j = true := by simpa using h 0 (by omega)
      have := ih (j + 1) n (fun k hk => by
          have := h (k + 1) (by omega)
          rwa [show j + (k + 1) = j + 1 + k by omega] at this)
        (by rwa [show j + (n + 1) = j + 1 + n by omega] at hn) (by omega)
      simp [waitBusy, h0, this, List.replicate_succ]

theorem ExitThreadID_done (w : World) (busy : Nat → Bool) (sessionData : Session)
    (xfuel n : Nat) (htrue : ∀ k, k < n → busy k = true) (hfalse : busy n = false)
    (hfuel : n < xfuel) :
    ExitThreadID w busy sessionData xfuel
      = (List.replicate n (Event.Sleep 200)
          ++ (if sessionData.MasterNode
              then removeAndLog w "cryptopump/node.ReleaseRole" "master.lock" else [])
          ++ removeAndLog w "cryptopump/threads.unlockThreadID" (sessionData.ThreadID ++ ".lock")
          ++ [Event.DeleteSession,
              Event.Logger Order.zero "Clean Shutdown" LogLevel.InfoLevel,
              Event.Exit 1],
         Outcome.exited 1) := by
  have h := waitBusy_done busy xfuel 0 n (by simpa using htrue) (by simpa using hfalse) hfuel
  unfold ExitThreadID
  simp only [h, if_true]
  by_cases hm : sessionData.MasterNode = true <;> simp [ReleaseRole, unlockThreadID, hm]

/-- C7: a run of `ExitThreadID` in which `Busy` is first read false at its `n`-th read
(counting from 0) completes, and its effects are exactly, in this order: `n` sleeps of
200 ms; the removal of `master.lock` if and only if the process is Master; the removal of
`<ThreadID>.lock`; the deletion of the session row; the "Clean Shutdown" log entry;
`os.Exit(1)`. (A failed removal adds a debug log entry right after it.) -/
theorem C7_teardown_order (w : World) (busy : Nat → Bool) (sessionData : Session)
    (xfuel n : Nat) (htrue : ∀ k, k < n → busy k = true) (hfalse : busy n = false)
    (hfuel : n < xfuel) :
    ExitThreadID w busy sessionData xfuel
      = (List.replicate n (Event.Sleep 200)
          ++ (if sessionData.MasterNode
              then removeAndLog w "cryptopump/node.ReleaseRole" "master.lock" else [])
          ++ removeAndLog w "cryptopump/threads.unlockThreadID" (sessionData.ThreadID ++ ".lock")
          ++ [Event.DeleteSession,
              Event.Logger Order.zero "Clean Shutdown" LogLevel.InfoLevel,
              Event.Exit 1],
         Outcome.exited 1) :=
  ExitThreadID_done w busy sessionData xfuel n htrue hfalse hfuel

/-- Witness of C7: a Master session `abc` whose `Busy` flag reads true twice and then
false. -/
theorem C7_teardown_order_witness :
    ExitThreadID quietWorld (fun k => decide (k < 2))
        { Session.zero with ThreadID := "abc", MasterNode := true } 5
      = ([Event.Sleep 200, Event.Sleep 200, Event.Remove "master.lock",
          Event.Remove "abc.lock", Event.DeleteSession,
          Event.Logger Order.zero "Clean Shutdown" LogLevel.InfoLevel, Event.Exit 1],
         Outcome.exited 1) := by
  have h := C7_teardown_order quietWorld (fun k => decide (k < 2))
    { Session.zero with ThreadID := "abc", MasterNode := true } 5 2
    (by intro k hk; simpa using hk) (by simp) (by omega)
  rw [h]
  simp [removeAndLog, quietWorld, List.replicate]

theorem ExitThreadID_stuck (w : World) (busy : Nat → Bool) (sessionData : Session)
    (xfuel : Nat) (h : ∀ k, k < xfuel → busy k = true) :
    ExitThreadID w busy sessionData xfuel
      = (List.replicate xfuel (Event.Sleep 200), Outcome.busyWait) := by
  unfold ExitThreadID
  simp [waitBusy_stuck busy xfuel 0 (by simpa using h)]

/-- C8: `ExitThreadID` performs no teardown effect while `Busy` is true. As long as every
read of `Busy` returns true it only sleeps (for every amount of fuel the run is a list of
200 ms sleeps and is still waiting); and every event of a run that is not that sleep comes
after a read of `Busy` that returned false: the reads before it returned true, and the
sleeps for them precede the event. -/
theorem C8_no_teardown_while_busy (w : World) (busy : Nat → Bool) (sessionData : Session)
    (xfuel : Nat) :
    ((∀ k, k < xfuel → busy k = true) →
        ExitThreadID w busy sessionData xfuel
          = (List.replicate xfuel (Event.Sleep 200), Outcome.busyWait))
    ∧ (∀ (a b : List Event) (e : Event),
        (ExitThreadID w busy sessionData xfuel).1 = a ++ e :: b → e ≠ Event.Sleep 200 →
        ∃ n, busy n = false ∧ (∀ k, k < n → busy k = true)
          ∧ List.replicate n (Event.Sleep 200) <+: a) := by
  refine ⟨ExitThreadID_stuck w busy sessionData xfuel, ?_⟩
  intro a b e hab he
  obtain ⟨n, h1, h2, h3⟩ := waitBusy_spec busy xfuel 0
  simp only [Nat.zero_add] at h2 h3
  rcases h3 with ⟨hd, hn, _⟩ | ⟨hd, _⟩
  · refine ⟨n, hn, h2, ?_⟩
    unfold ExitThreadID at hab
    simp only [hd, if_true, h1, List.append_assoc] at hab
    rcases List.append_eq_append_iff.mp hab with ⟨a', ha, _⟩ | ⟨c', hc, hr⟩
    · exact ⟨a', ha.symm⟩
    · cases c' with
      | nil => exact ⟨[], by simpa using hc⟩
      | cons c cs =>
        exfalso
        have hce : e = c := by
          have := congrArg List.head? hr
          simpa using this
        have hmem : c ∈ List.replicate n (Event.Sleep 200) := by
          rw [hc]; simp
        exact he (hce.trans (List.mem_replicate.mp hmem).2)
  · exfalso
    unfold ExitThreadID at hab
    simp only [hd, h1] at hab
    have hmem : e ∈ List.replicate n (Event.Sleep 200) := by
      simp only [Bool.false_eq_true, if_false] at hab
      rw [hab]; simp
    exact he (List.mem_replicate.mp hmem).2

/-- Witness of C8: with `Busy` read true at every read, three units of fuel give three
sleeps and nothing else; with `Busy` read true twice and then false, the removal of the
lock file comes after the two sleeps. -/
theorem C8_no_teardown_while_busy_witness :
    ExitThreadID quietWorld (fun _ => true) Session.zero 3
        = (List.replicate 3 (Event.Sleep 200), Outcome.busyWait)
    ∧ ∃ n, (fun k => decide (k < 2)) n = false ∧ (∀ k, k < n → (fun k => decide (k < 2)) k = true)
          ∧ List.replicate n (Event.Sleep 200) <+: [Event.Sleep 200, Event.Sleep 200] :=
  ⟨(C8_no_teardown_while_busy quietWorld (fun _ => true) Session.zero 3).1 (fun _ _ => rfl),
   (C8_no_teardown_while_busy quietWorld (fun k => decide (k < 2)) Session.zero 5).2
      [Event.Sleep 200, Event.Sleep 200]
      [Event.DeleteSession, Event.Logger Order.zero "Clean Shutdown" LogLevel.InfoLevel,
       Event.Exit 1]
      (Event.Remove ".lock")
      (by
        rw [ExitThreadID_done quietWorld (fun k => decide (k < 2)) Session.zero 5 2
          (by intro k hk; simpa using hk) (by simp) (by omega)]
        simp [removeAndLog, quietWorld, List.replicate, Session.zero])
      (by simp)⟩

/-! ## Teardown called from the lifecycle engine -/

theorem exitFrom_busy (w : World) (xfuel : Nat) (s : Session) (pre : List Event)
    (hb : s.Busy = true) :
    exitFrom w xfuel s pre
      = { trace := pre ++ List.replicate xfuel (Event.Sleep 200),
          outcome := Outcome.busyWait, session := s } := by
  unfold exitFrom
  rw [ExitThreadID_stuck w (fun _ => s.Busy) s xfuel (fun _ _ => hb)]

theorem buyPoll_new (o : Order) (fuel : Nat) (h : o.Status = "NEW") :
    buyPoll (some o) none fuel = (List.replicate fuel (Event.Sleep 3000), BuyPollExit.fuel) := by
  induction fuel with
  | zero => simp [buyPoll]
  | succ fuel ih => simp [buyPoll, h, ih, List.replicate_succ]

/-- C2 fails on the code: with dry-run off, a buy answered FILLED and a failing `SaveOrder`,
`BuyTicker` calls `ExitThreadID` while it still holds `Busy` (its deferred release has not
run), so for every amount of fuel the run consists of the submission, the failed write and
sleeps of 200 ms, and is still waiting: no lock file is removed, no session row deleted, no
exit. -/
theorem C2_teardown_waits_on_own_busy (fuel xfuel : Nat) :
    BuyTicker saveFailsWorld fuel xfuel (F64.fin 50) liveConfig { Price := F64.fin 40000 }
        liveSession
      = { trace :=
            [Event.SetBusy true,
             Event.BuyOrder (Float64ToStr
               (getBuyQuantity { Price := F64.fin 40000 } liveSession (F64.fin 50)) 4),
             Event.SaveOrder "c7" (F64.fin 0) (F64.fin 0) 7 (F64.fin 0) "BUY" "FILLED"
               "BTCUSDT" 0]
            ++ List.replicate xfuel (Event.Sleep 200),
          outcome := Outcome.busyWait,
          session := liveSession.setBusy true } := by
  have hB : ∀ q, (BuyOrder saveFailsWorld liveConfig q).1 = some (orderWith "BUY" "FILLED") := by
    intro q; simp [BuyOrder, liveConfig, ToLower_binance, saveFailsWorld]
  have hS : saveFailsWorld.SaveOrder = some "Error 2006: MySQL server has gone away" := rfl
  have hp : submittedPrice (orderWith "BUY" "FILLED") = F64.fin 0 := by
    simp [submittedPrice, orderWith, Order.zero, F64.div, mathIsNaN]
  have hd : liveConfig.DryRun = false := rfl
  simp only [BuyTicker, withBusy, BuyTickerBody, hd, hB, hS, hp, getBuyQuantity_setBusy]
  rw [exitFrom_busy _ _ _ _ (by simp)]
  simp [orderWith, Order.zero]

/-! ## The buy and sell state machines at the failing inputs -/

/-- C1 fails on the code: for the status sequence NEW, NEW, FILLED (submission answered NEW,
first status query NEW, every later query FILLED) `BuyTicker` does not terminate. The
status is queried once, in the init clause of the polling loop, and never again, so for
every amount of fuel the run is the submission, the write of the order, that one query and
sleeps of 3 s, and the loop is still running; no ThreadTransaction is saved although the
last status is FILLED. -/
theorem C1_buy_poll_never_refetches (fuel xfuel : Nat) :
    BuyTicker slowFillWorld fuel xfuel (F64.fin 50) liveConfig { Price := F64.fin 40000 }
        liveSession
      = { trace :=
            [Event.SetBusy true,
             Event.BuyOrder (Float64ToStr
               (getBuyQuantity { Price := F64.fin 40000 } liveSession (F64.fin 50)) 4),
             Event.SaveOrder "c7" (F64.fin 0) (F64.fin 0) 7 (F64.fin 0) "BUY" "NEW"
               "BTCUSDT" 0,
             Event.GetOrder 7]
            ++ List.replicate fuel (Event.Sleep 3000),
          outcome := Outcome.pollFuel,
          session := (liveSession.setBusy true).setLastBuyTransactTime 0 } := by
  have hB : ∀ q, (BuyOrder slowFillWorld liveConfig q).1 = some (orderWith "BUY" "NEW") := by
    intro q; simp [BuyOrder, liveConfig, ToLower_binance, slowFillWorld]
  have hG : GetOrder slowFillWorld liveConfig 0 7 = (some (orderWith "BUY" "NEW"), none) := by
    simp [GetOrder, liveConfig, ToLower_binance, slowFillWorld]
  have hS : slowFillWorld.SaveOrder = none := rfl
  have hN : slowFillWorld.Now = 0 := rfl
  have hp : submittedPrice (orderWith "BUY" "NEW") = F64.fin 0 := by
    simp [submittedPrice, orderWith, Order.zero, F64.div, mathIsNaN]
  have hd : liveConfig.DryRun = false := rfl
  have hst : (orderWith "BUY" "NEW").Status = "NEW" := rfl
  have hid : (orderWith "BUY" "NEW").OrderID = 7 := rfl
  simp only [BuyTicker, withBusy, BuyTickerBody, hd, hB, hS, hN, hp, getBuyQuantity_setBusy,
    hst, hid, hG, buyPoll_new _ fuel hst]
  simp [orderWith, Order.zero]

/-- A sell answered NEW whose status query returns CANCELED leaves the loop condition false
at once, so the `case "CANCELED"` inside the loop body never runs and `isCanceled` stays
false: `SellTicker` persists status CANCELED with `UpdateOrder`, then deletes the
ThreadTransaction of the originating buy (order 3) and logs SELL. -/
theorem SellTicker_canceled_by_poll (fuel xfuel : Nat) :
    SellTicker sellCanceledWorld (fuel + 1) xfuel boughtOrder liveConfig
        { Price := F64.fin 40000 } liveSession
      = { trace :=
            [Event.SetBusy true,
             Event.SellOrder (Float64ToStr (getSellQuantity boughtOrder liveSession) 6),
             Event.SaveOrder "c7" (F64.fin 0) (F64.fin 0) 7 (F64.fin 40000) "SELL" "NEW"
               "BTCUSDT" 0,
             Event.Sleep 2000,
             Event.GetOrder 7,
             Event.UpdateOrder 7 (F64.fin 0) (F64.fin 0) (F64.fin 40000) "CANCELED",
             Event.DeleteThreadTransactionByOrderID 3,
             Event.Logger { Order.zero with OrderID := 7, Price := F64.fin 40000,
                                            OrderIDSource := 3 } "SELL" LogLevel.InfoLevel,
             Event.SetBusy false],
          outcome := Outcome.returned,
          session := liveSession.setBusy false } := by
  have hB : ∀ q, (SellOrder sellCanceledWorld liveConfig q).1
      = some (orderWith "SELL" "NEW") := by
    intro q; simp [SellOrder, liveConfig, ToLower_binance, sellCanceledWorld]
  have hG : GetOrder sellCanceledWorld liveConfig 0 7
      = (some (orderWith "SELL" "CANCELED"), none) := by
    simp [GetOrder, liveConfig, ToLower_binance, sellCanceledWorld]
  have hd : liveConfig.DryRun = false := rfl
  have hid : (orderWith "SELL" "NEW").OrderID = 7 := rfl
  simp only [SellTicker, withBusy, SellTickerBody, hd, hB, getSellQuantity_setBusy, hid, hG,
    sellLoop]
  simp [orderWith, Order.zero, sellCanceledWorld, quietWorld, sellSettle, boughtOrder,
    Session.setBusy]

/-! ## The reconciliation loop of `SellTicker` -/

theorem removeAndLog_quiet (w : World) (fn filename : String) :
    ∀ e ∈ removeAndLog w fn filename, quiet e = true := by
  intro e he
  unfold removeAndLog at he
  cases h : w.Remove filename with
  | none =>
    simp only [h, List.mem_cons, List.mem_nil_iff, or_false] at he
    subst he; rfl
  | some x =>
    simp only [h, List.mem_cons, List.mem_nil_iff, or_false] at he
    rcases he with rfl | rfl <;> rfl

theorem ReleaseRole_quiet (w : World) (s : Session) :
    ∀ e ∈ ReleaseRole w s, quiet e = true := by
  intro e he
  unfold ReleaseRole at he
  by_cases hm : s.MasterNode = true
  · rw [if_pos hm] at he
    exact removeAndLog_quiet _ _ _ e he
  · rw [if_neg hm] at he
    simp at he

theorem ExitThreadID_quiet (w : World) (busy : Nat → Bool) (s : Session) (xfuel : Nat) :
    ∀ e ∈ (ExitThreadID w busy s xfuel).1, quiet e = true := by
  intro e he
  obtain ⟨n, h1, _, _⟩ := waitBusy_spec busy xfuel 0
  unfold ExitThreadID at he
  by_cases hd : (waitBusy busy xfuel 0).2 = true
  · simp only [hd, if_true, h1, List.mem_append, List.mem_replicate] at he
    rcases he with ((⟨_, rfl⟩ | he) | he) | he
    · rfl
    · by_cases hm : s.MasterNode = true
      · rw [if_pos hm] at he
        exact ReleaseRole_quiet _ _ e he
      · rw [if_neg hm] at he
        simp at he
    · exact removeAndLog_quiet _ _ _ e he
    · simp only [List.mem_cons, List.mem_nil_iff, or_false] at he
      rcases he with rfl | rfl | rfl <;> rfl
  · simp only [hd, h1] at he
    simp only [Bool.false_eq_true, if_false, List.mem_replicate] at he
    rw [he.2]; rfl

theorem ExitThreadID_outcome (w : World) (busy : Nat → Bool) (s : Session) (xfuel : Nat) :
    (ExitThreadID w busy s xfuel).2 ≠ Outcome.pollFuel
    ∧ (ExitThreadID w busy s xfuel).2 ≠ Outcome.returned := by
  unfold ExitThreadID
  by_cases hd : (waitBusy busy xfuel 0).2 = true
  · simp [hd]
  · simp [hd]

theorem exitFrom_quiet (w : World) (xfuel : Nat) (s : Session) (pre : List Event) :
    ∃ post, (exitFrom w xfuel s pre).trace = pre ++ post ∧ ∀ e ∈ post, quiet e = true :=
  ⟨_, rfl, ExitThreadID_quiet w _ s xfuel⟩

theorem exitFrom_outcome (w : World) (xfuel : Nat) (s : Session) (pre : List Event) :
    (exitFrom w xfuel s pre).outcome ≠ Outcome.pollFuel
    ∧ (exitFrom w xfuel s pre).outcome ≠ Outcome.returned :=
  ExitThreadID_outcome w _ s xfuel

theorem quiet_cons {a : Event} {l : List Event} (ha : quiet a = true)
    (hl : ∀ e ∈ l, quiet e = true) : ∀ e ∈ a :: l, quiet e = true := by
  intro e he
  rcases List.mem_cons.mp he with rfl | he
  · exact ha
  · exact hl e he

theorem quiet_nil : ∀ e ∈ ([] : List Event), quiet e = true := by
  intro e he; simp at he

theorem LoopShape.nil (c : Config) (k : Nat) : LoopShape c k [] :=
  ⟨0, [], rfl, Or.inl ⟨Nat.zero_le _, Or.inl rfl⟩⟩

theorem LoopShape.last (c : Config) (k : Nat) (r : List Event)
    (hr : ∀ e ∈ r, quiet e = true) : LoopShape c k (Event.LoopPass :: r) :=
  ⟨0, Event.LoopPass :: r, rfl, Or.inl ⟨Nat.zero_le _, Or.inr ⟨r, rfl, hr⟩⟩⟩

theorem LoopShape.cancel (c : Config) (id : Int) (r : List Event)
    (hr : ∀ e ∈ r, quiet e = true) :
    LoopShape c 0 (Event.LoopPass :: Event.CancelOrder id :: r) :=
  ⟨0, _, rfl, Or.inr ⟨rfl, id, r, rfl, hr⟩⟩

theorem LoopShape.step (c : Config) (k : Nat) (t : List Event) (h : LoopShape c k t) :
    LoopShape c (k + 1) (Event.LoopPass :: tickSleep c :: t) := by
  obtain ⟨n, q, rfl, h⟩ := h
  refine ⟨n + 1, q, rfl, ?_⟩
  rcases h with ⟨hn, hq⟩ | ⟨hn, hq⟩
  · exact Or.inl ⟨by omega, hq⟩
  · exact Or.inr ⟨by omega, hq⟩

theorem sellLoop_shape (w : World) (xfuel : Nat) (c : Config) (m : Market) (s : Session)
    (r : Order) (os : Option Order) (err : Option String) (fuel : Nat) :
    ∀ i, i ≤ 8 →
      LoopShape c (8 - i) (sellLoop w xfuel c m s r os err fuel i).1
      ∧ (9 - i ≤ fuel → ∀ o1 s1,
          (sellLoop w xfuel c m s r os err fuel i).2 = SellExit.stop o1 s1 →
          o1 ≠ Outcome.pollFuel) := by
  induction fuel with
  | zero =>
    intro i hi
    exact ⟨by simpa [sellLoop] using LoopShape.nil c _, fun h => absurd h (by omega)⟩
  | succ fuel ih =>
    intro i hi
    unfold sellLoop
    cases err with
    | some e =>
      cases os with
      | none =>
        obtain ⟨post, hp, hq⟩ := exitFrom_quiet w xfuel s [Event.LoopPass]
        have ho := exitFrom_outcome w xfuel s [Event.LoopPass]
        simp only [if_true, hp]
        exact ⟨LoopShape.last c _ post hq, fun _ o1 s1 h => by cases h; exact ho.1⟩
      | some o =>
        obtain ⟨post, hp, hq⟩ := exitFrom_quiet w xfuel s [Event.LoopPass]
        have ho := exitFrom_outcome w xfuel s [Event.LoopPass]
        split_ifs
        · simp only [hp]
          exact ⟨LoopShape.last c _ post hq, fun _ o1 s1 h => by cases h; exact ho.1⟩
        · exact ⟨LoopShape.nil c _, fun _ o1 s1 h => by cases h⟩
    | none =>
      cases os with
      | none =>
        simp only [if_true]
        exact ⟨LoopShape.last c _ [] (by simp), fun _ o1 s1 h => by cases h; simp⟩
      | some o =>
        have hx := ExitThreadID_quiet w (fun _ => s.Busy) s xfuel
        have ho := ExitThreadID_outcome w (fun _ => s.Busy) s xfuel
        generalize CancelOrder w c r.OrderID = canceled
        generalize GetOrder w c 1 r.OrderID = got
        obtain ⟨c1, c2⟩ := canceled
        obtain ⟨g1, g2⟩ := got
        by_cases h9 : i + 1 = 9
        · have hi8 : i = 8 := by omega
          subst hi8
          cases c1 <;> cases c2 <;> cases g2 <;>
          simp only [exitFrom, List.cons_append, List.nil_append, List.append_assoc] <;>
          split_ifs <;>
          first
            | exact ⟨LoopShape.nil c _, fun _ o1 s1 h => by cases h⟩
            | exact ⟨LoopShape.last c _ [] quiet_nil, fun _ o1 s1 h => by cases h⟩
            | exact ⟨LoopShape.cancel c _ _ quiet_nil, fun _ o1 s1 h => by cases h; simp⟩
            | exact ⟨LoopShape.cancel c _ _ (quiet_cons rfl quiet_nil), fun _ o1 s1 h => by cases h⟩
            | exact ⟨LoopShape.cancel c _ _ (quiet_cons rfl hx),
                fun _ o1 s1 h => by cases h; exact ho.1⟩
        · have ih1 := ih (i + 1) (by omega)
          simp only [if_neg h9]
          split_ifs
          · exact ⟨LoopShape.last c _ [] (by simp), fun _ o1 s1 h => by cases h⟩
          · exact ⟨LoopShape.last c _ [] (by simp), fun _ o1 s1 h => by cases h⟩
          · refine ⟨?_, fun hf => ih1.2 (by omega)⟩
            have := LoopShape.step c _ _ ih1.1
            rwa [show 8 - (i + 1) + 1 = 8 - i by omega] at this
          · exact ⟨LoopShape.nil c _, fun _ o1 s1 h => by cases h⟩

theorem sellSettle_quiet (w : World) (xfuel : Nat) (m : Market) (s : Session) (o r : Order)
    (c : Bool) (pre : List Event) :
    (∃ post, (sellSettle w xfuel m s o r c pre).trace = pre ++ post
        ∧ ∀ e ∈ post, quiet e = true)
    ∧ (sellSettle w xfuel m s o r c pre).outcome ≠ Outcome.pollFuel := by
  have hx := ExitThreadID_quiet w (fun _ => s.Busy) s xfuel
  have ho := ExitThreadID_outcome w (fun _ => s.Busy) s xfuel
  unfold sellSettle
  cases c <;> cases w.DeleteThreadTransactionByOrderID <;>
  simp only [exitFrom, List.append_assoc, List.cons_append, List.nil_append] <;>
  first
    | exact ⟨⟨_, rfl, quiet_cons rfl quiet_nil⟩, by simp⟩
    | exact ⟨⟨_, rfl, quiet_cons rfl (quiet_cons rfl quiet_nil)⟩, by simp⟩
    | exact ⟨⟨_, rfl, quiet_cons rfl hx⟩, ho.1⟩

/-- The shape of the events of a `SellTicker` run: events around the reconciliation loop
that are neither passes nor cancel requests, and in between the events of the loop. -/
theorem SellTickerBody_shape (w : World) (fuel xfuel : Nat) (order : Order) (c : Config)
    (m : Market) (s : Session) :
    (∃ pre t post, (SellTickerBody w fuel xfuel order c m s).trace = pre ++ t ++ post
      ∧ (∀ e ∈ pre, quiet e = true) ∧ (∀ e ∈ post, quiet e = true) ∧ LoopShape c 8 t)
    ∧ (9 ≤ fuel → (SellTickerBody w fuel xfuel order c m s).outcome ≠ Outcome.pollFuel) := by
  have happ : ∀ {l₁ l₂ : List Event}, (∀ e ∈ l₁, quiet e = true) → (∀ e ∈ l₂, quiet e = true) →
      ∀ e ∈ l₁ ++ l₂, quiet e = true := by
    intro l₁ l₂ h1 h2 e he
    rcases List.mem_append.mp he with he | he
    · exact h1 e he
    · exact h2 e he
  -- a run that never enters the loop
  have flat : ∀ (r : Run) (pre post : List Event), r.trace = pre ++ post →
      (∀ e ∈ pre, quiet e = true) → (∀ e ∈ post, quiet e = true) →
      r.outcome ≠ Outcome.pollFuel →
      (∃ pre t post, r.trace = pre ++ t ++ post
        ∧ (∀ e ∈ pre, quiet e = true) ∧ (∀ e ∈ post, quiet e = true) ∧ LoopShape c 8 t)
      ∧ (9 ≤ fuel → r.outcome ≠ Outcome.pollFuel) :=
    fun r pre post h h1 h2 h3 =>
      ⟨⟨pre, [], post, by simpa using h, h1, h2, LoopShape.nil c 8⟩, fun _ => h3⟩
  unfold SellTickerBody
  by_cases hdry : c.DryRun = true
  · rw [if_pos hdry]
    exact flat _ [] [] rfl quiet_nil quiet_nil (by simp)
  rw [if_neg hdry]
  dsimp only
  cases (SellOrder w c (Float64ToStr (getSellQuantity order s) 6)).1 with
  | none =>
    exact flat _ [Event.SellOrder (Float64ToStr (getSellQuantity order s) 6)] [] rfl
      (quiet_cons rfl quiet_nil) quiet_nil (by simp)
  | some r =>
    dsimp only
    have hpre2 : ∀ e ∈ [Event.SellOrder (Float64ToStr (getSellQuantity order s) 6)] ++
        [Event.SaveOrder r.ClientOrderID r.CumulativeQuoteQuantity r.ExecutedQuantity
          r.OrderID m.Price r.Side r.Status r.Symbol r.TransactTime], quiet e = true :=
      quiet_cons rfl (quiet_cons rfl quiet_nil)
    have hset : ∀ (isC : Bool), _ :=
      fun isC => sellSettle_quiet w xfuel m s order r isC
        ([Event.SellOrder (Float64ToStr (getSellQuantity order s) 6)] ++
          [Event.SaveOrder r.ClientOrderID r.CumulativeQuoteQuantity r.ExecutedQuantity
            r.OrderID m.Price r.Side r.Status r.Symbol r.TransactTime])
    cases w.SaveOrder with
    | some e =>
      dsimp only
      exact flat _ _ _ rfl hpre2 (ExitThreadID_quiet _ _ _ _) (exitFrom_outcome _ _ _ _).1
    | none =>
      dsimp only
      split_ifs with h1 h2 h3
      · obtain ⟨⟨post, hp, hq⟩, ho⟩ := hset false
        exact flat _ _ post hp hpre2 hq ho
      · obtain ⟨⟨post, hp, hq⟩, ho⟩ := hset true
        exact flat _ _ post hp hpre2 hq ho
      · have hl := sellLoop_shape w xfuel c m s r (GetOrder w c 0 r.OrderID).1
          (GetOrder w c 0 r.OrderID).2 fuel 0 (by omega)
        generalize sellLoop w xfuel c m s r (GetOrder w c 0 r.OrderID).1
          (GetOrder w c 0 r.OrderID).2 fuel 0 = l at hl ⊢
        obtain ⟨lt, le⟩ := l
        obtain ⟨hshape, hfuel⟩ := hl
        simp only [Nat.sub_zero] at hshape hfuel
        have hpre4 : ∀ e ∈ [Event.SellOrder (Float64ToStr (getSellQuantity order s) 6)] ++
            [Event.SaveOrder r.ClientOrderID r.CumulativeQuoteQuantity r.ExecutedQuantity
              r.OrderID m.Price r.Side r.Status r.Symbol r.TransactTime] ++
            [Event.Sleep 2000, Event.GetOrder r.OrderID], quiet e = true :=
          quiet_cons rfl (quiet_cons rfl (quiet_cons rfl (quiet_cons rfl quiet_nil)))
        cases le with
        | stop o s1 =>
          dsimp only
          exact ⟨⟨_, lt, [], by simp, hpre4, quiet_nil, hshape⟩,
            fun hf => hfuel hf o s1 rfl⟩
        | breakS s1 =>
          dsimp only
          obtain ⟨⟨post, hp, hq⟩, ho⟩ := sellSettle_quiet w xfuel m s1 order r false
            ([Event.SellOrder (Float64ToStr (getSellQuantity order s) 6)] ++
              [Event.SaveOrder r.ClientOrderID r.CumulativeQuoteQuantity r.ExecutedQuantity
                r.OrderID m.Price r.Side r.Status r.Symbol r.TransactTime] ++
              [Event.Sleep 2000, Event.GetOrder r.OrderID] ++ lt)
          exact ⟨⟨_, lt, post, hp, hpre4, hq, hshape⟩, fun _ => ho⟩
        | breakF os isC s1 =>
          cases os with
          | none =>
            dsimp only
            exact ⟨⟨_, lt, [], by simp, hpre4, quiet_nil, hshape⟩, fun _ => by simp⟩
          | some o =>
            dsimp only
            cases w.UpdateOrder with
            | some e =>
              dsimp only
              refine ⟨⟨_, lt, [Event.UpdateOrder r.OrderID o.CumulativeQuoteQuantity o.ExecutedQuantity
                  m.Price o.Status] ++
                  (ExitThreadID w (fun _ => s1.Busy) s1 xfuel).1, ?_, hpre4,
                happ (quiet_cons rfl quiet_nil) (ExitThreadID_quiet _ _ _ _), hshape⟩,
                fun _ => (exitFrom_outcome _ _ _ _).1⟩
              simp [exitFrom]
            | none =>
              dsimp only
              obtain ⟨⟨post, hp, hq⟩, ho⟩ := sellSettle_quiet w xfuel m s1 order r isC
                ([Event.SellOrder (Float64ToStr (getSellQuantity order s) 6)] ++
                  [Event.SaveOrder r.ClientOrderID r.CumulativeQuoteQuantity r.ExecutedQuantity
                    r.OrderID m.Price r.Side r.Status r.Symbol r.TransactTime] ++
                  [Event.Sleep 2000, Event.GetOrder r.OrderID] ++ lt ++
                  [Event.UpdateOrder r.OrderID o.CumulativeQuoteQuantity o.ExecutedQuantity
                    m.Price o.Status])
              refine ⟨⟨_, lt, [Event.UpdateOrder r.OrderID o.CumulativeQuoteQuantity o.ExecutedQuantity
                  m.Price o.Status] ++ post, ?_, hpre4,
                happ (quiet_cons rfl quiet_nil) hq, hshape⟩, fun _ => ho⟩
              rw [hp]; simp
      · obtain ⟨⟨post, hp, hq⟩, ho⟩ := hset false
        exact flat _ _ post hp hpre2 hq ho

theorem quiet_not_cancel {e : Event} (h : quiet e = true) : isCancel e = false := by
  cases e <;> simp_all [quiet, isCancel]

theorem quiet_not_pass {e : Event} (h : quiet e = true) : e ≠ Event.LoopPass := by
  rintro rfl; simp [quiet] at h

theorem count_pass_quiet {l : List Event} (h : ∀ e ∈ l, quiet e = true) :
    l.count Event.LoopPass = 0 :=
  List.count_eq_zero.mpr (fun hm => quiet_not_pass (h _ hm) rfl)

theorem countP_cancel_zero {l : List Event} (h : ∀ e ∈ l, isCancel e = false) :
    l.countP isCancel = 0 :=
  List.countP_eq_zero.mpr (fun e he => by simp [h e he])

theorem tickPasses_count (c : Config) (n : Nat) :
    (tickPasses c n).count Event.LoopPass = n := by
  induction n with
  | zero => rfl
  | succ n ih => simp [tickPasses, tickSleep, ih]

theorem tickPasses_noCancel (c : Config) (n : Nat) :
    ∀ e ∈ tickPasses c n, isCancel e = false := by
  induction n with
  | zero => intro e he; simp [tickPasses] at he
  | succ n ih =>
    intro e he
    simp only [tickPasses, List.mem_cons] at he
    rcases he with rfl | rfl | he
    · rfl
    · rfl
    · exact ih e he

theorem cancel_split_unique {X Y a b : List Event} {x y : Event}
    (hy : isCancel y = true) (hX : ∀ e ∈ X, isCancel e = false)
    (hY : ∀ e ∈ Y, isCancel e = false) (h : X ++ x :: Y = a ++ y :: b) : a = X := by
  rcases List.append_eq_append_iff.mp h with ⟨a', ha, h2⟩ | ⟨x', hx, h2⟩
  · cases a' with
    | nil => simpa using ha
    | cons z zs =>
      exfalso
      have hY2 : Y = zs ++ y :: b := by
        have := congrArg List.tail h2
        simpa using this
      have := hY y (by rw [hY2]; simp)
      simp [hy] at this
  · cases x' with
    | nil => simpa using hx.symm
    | cons z zs =>
      exfalso
      have hz : y = z := by
        have := congrArg List.head? h2
        simpa using this
      have := hX y (by rw [hx, hz]; simp)
      simp [hy] at this

/-- What the shape of a run gives: at most 9 passes, at most one cancel request, and the
cancel request, if any, in the 9th pass, after 8 passes that ended in the tick sleep. -/
theorem shape_bounds (c : Config) (T pre t post : List Event) (hT : T = pre ++ t ++ post)
    (hpre : ∀ e ∈ pre, quiet e = true) (hpost : ∀ e ∈ post, quiet e = true)
    (ht : LoopShape c 8 t) :
    T.count Event.LoopPass ≤ 9
    ∧ T.countP isCancel ≤ 1
    ∧ (∀ a b id, T = a ++ Event.CancelOrder id :: b →
        ∃ p, a = p ++ tickPasses c 8 ++ [Event.LoopPass] ∧ ∀ e ∈ p, quiet e = true) := by
  obtain ⟨n, q, rfl, hq⟩ := ht
  have nc : ∀ {l : List Event}, (∀ e ∈ l, quiet e = true) → ∀ e ∈ l, isCancel e = false :=
    fun h e he => quiet_not_cancel (h e he)
  have napp : ∀ {l₁ l₂ : List Event}, (∀ e ∈ l₁, isCancel e = false) →
      (∀ e ∈ l₂, isCancel e = false) → ∀ e ∈ l₁ ++ l₂, isCancel e = false := by
    intro l₁ l₂ h1 h2 e he
    rcases List.mem_append.mp he with he | he
    · exact h1 e he
    · exact h2 e he
  subst hT
  rcases hq with ⟨hn, rfl | ⟨r, rfl, hr⟩⟩ | ⟨hn, id0, r, rfl, hr⟩
  · have hall : ∀ e ∈ pre ++ (tickPasses c n ++ []) ++ post, isCancel e = false :=
      napp (napp (nc hpre) (napp (tickPasses_noCancel c n) (by simp))) (nc hpost)
    refine ⟨?_, ?_, ?_⟩
    · simp only [List.count_append, count_pass_quiet hpre, count_pass_quiet hpost,
        tickPasses_count, List.count_nil]
      omega
    · rw [countP_cancel_zero hall]; omega
    · intro a b id h
      have := hall (Event.CancelOrder id) (by rw [h]; simp)
      simp [isCancel] at this
  · have hall : ∀ e ∈ pre ++ (tickPasses c n ++ Event.LoopPass :: r) ++ post,
        isCancel e = false :=
      napp (napp (nc hpre) (napp (tickPasses_noCancel c n)
        (by intro e he
            rcases List.mem_cons.mp he with rfl | he
            · rfl
            · exact nc hr e he))) (nc hpost)
    refine ⟨?_, ?_, ?_⟩
    · simp only [List.count_append, count_pass_quiet hpre, count_pass_quiet hpost,
        tickPasses_count, List.count_cons_self, count_pass_quiet hr]
      omega
    · rw [countP_cancel_zero hall]; omega
    · intro a b id h
      have := hall (Event.CancelOrder id) (by rw [h]; simp)
      simp [isCancel] at this
  · subst hn
    refine ⟨?_, ?_, ?_⟩
    · have h1 : (Event.CancelOrder id0 :: r).count Event.LoopPass = 0 :=
        List.count_eq_zero.mpr (by
          intro hm
          rcases List.mem_cons.mp hm with h | h
          · cases h
          · exact quiet_not_pass (hr _ h) rfl)
      simp only [List.count_append, count_pass_quiet hpre, count_pass_quiet hpost,
        tickPasses_count, List.count_cons_self, h1]
      omega
    · simp only [List.countP_append, List.countP_cons, countP_cancel_zero (nc hpre),
        countP_cancel_zero (nc hpost), countP_cancel_zero (tickPasses_noCancel c 8),
        countP_cancel_zero (nc hr), isCancel]
      simp
    · intro a b id h
      refine ⟨pre, ?_, hpre⟩
      have h' : (pre ++ tickPasses c 8 ++ [Event.LoopPass]) ++ Event.CancelOrder id0 :: (r ++ post)
          = a ++ Event.CancelOrder id :: b := by
        rw [← h]; simp
      exact cancel_split_unique (y := Event.CancelOrder id) rfl
        (napp (napp (nc hpre) (tickPasses_noCancel c 8)) (by simp [isCancel]))
        (napp (nc hr) (nc hpost)) h'


theorem withBusy_trace_quiet (body : Session → Run) (s : Session) :
    ∃ tail, (withBusy body s).trace
        = Event.SetBusy true :: ((body (s.setBusy true)).trace ++ tail)
      ∧ ∀ e ∈ tail, quiet e = true := by
  unfold withBusy
  dsimp only
  generalize body (s.setBusy true) = r
  obtain ⟨t, o, ss⟩ := r
  cases o
  · exact ⟨[Event.SetBusy false], rfl, quiet_cons rfl quiet_nil⟩
  · exact ⟨[], by simp, quiet_nil⟩
  · exact ⟨[Event.SetBusy false], rfl, quiet_cons rfl quiet_nil⟩
  · exact ⟨[], by simp, quiet_nil⟩
  · exact ⟨[], by simp, quiet_nil⟩

theorem withBusy_outcome (body : Session → Run) (s : Session) :
    (withBusy body s).outcome = (body (s.setBusy true)).outcome := by
  unfold withBusy
  dsimp only
  generalize body (s.setBusy true) = r
  obtain ⟨t, o, ss⟩ := r
  cases o <;> rfl

theorem withBusy_returned (body : Session → Run) (s : Session)
    (h : (withBusy body s).outcome = Outcome.returned) :
    (withBusy body s).session.Busy = false
    ∧ (withBusy body s).trace.getLast? = some (Event.SetBusy false) := by
  unfold withBusy at h ⊢
  dsimp only at h ⊢
  generalize body (s.setBusy true) = r at h ⊢
  obtain ⟨t, o, ss⟩ := r
  cases o <;> simp_all
  rw [← List.cons_append, List.getLast?_append]
  simp

/-- The bounds of the reconciliation loop: for every behaviour of the exchange and of the
store, in a run of `SellTicker` the body of the loop is entered at most 9 times;
`CancelOrder` is called at most once; wherever it is called, what precedes it is events
outside the loop, then 8 passes that each ended in the tick sleep, then the start of the 9th
pass; and with fuel for 9 passes the loop never asks for a tenth pass. -/
theorem SellTicker_bounded (w : World) (fuel xfuel : Nat) (order : Order)
    (configData : Config) (marketData : Market) (sessionData : Session) :
    (SellTicker w fuel xfuel order configData marketData sessionData).trace.count
        Event.LoopPass ≤ 9
    ∧ (SellTicker w fuel xfuel order configData marketData sessionData).trace.countP
        isCancel ≤ 1
    ∧ (∀ a b id,
        (SellTicker w fuel xfuel order configData marketData sessionData).trace
          = a ++ Event.CancelOrder id :: b →
        ∃ p, a = p ++ tickPasses configData 8 ++ [Event.LoopPass]
          ∧ ∀ e ∈ p, quiet e = true)
    ∧ (9 ≤ fuel →
        (SellTicker w fuel xfuel order configData marketData sessionData).outcome
          ≠ Outcome.pollFuel) := by
  obtain ⟨tail, htr, htail⟩ := withBusy_trace_quiet
    (SellTickerBody w fuel xfuel order configData marketData) sessionData
  obtain ⟨⟨pre, t, post, hb, hpre, hpost, hshape⟩, hfuel⟩ :=
    SellTickerBody_shape w fuel xfuel order configData marketData (sessionData.setBusy true)
  have hT : (SellTicker w fuel xfuel order configData marketData sessionData).trace
      = (Event.SetBusy true :: pre) ++ t ++ (post ++ tail) := by
    unfold SellTicker
    rw [htr, hb]; simp
  have hpost2 : ∀ e ∈ post ++ tail, quiet e = true := by
    intro e he
    rcases List.mem_append.mp he with he | he
    · exact hpost e he
    · exact htail e he
  obtain ⟨h1, h2, h3⟩ := shape_bounds configData _ _ t _ hT (quiet_cons rfl hpre) hpost2 hshape
  refine ⟨h1, h2, h3, fun hf => ?_⟩
  unfold SellTicker
  rw [withBusy_outcome]
  exact hfuel hf

theorem SellTicker_timesOut :
    SellTicker sellTimesOutWorld 9 1 boughtOrder liveConfig { Price := F64.fin 40000 }
        liveSession
      = { trace :=
            [Event.SetBusy true,
             Event.SellOrder (Float64ToStr (getSellQuantity boughtOrder liveSession) 6),
             Event.SaveOrder "c7" (F64.fin 0) (F64.fin 0) 7 (F64.fin 40000) "SELL" "NEW"
               "BTCUSDT" 0,
             Event.Sleep 2000,
             Event.GetOrder 7]
            ++ tickPasses liveConfig 8
            ++ [Event.LoopPass,
                Event.CancelOrder 7,
                Event.GetOrder 7,
                Event.UpdateOrder 7 (F64.fin 0) (F64.fin 0) (F64.fin 40000) "NEW",
                Event.Logger { Order.zero with OrderID := 7, Price := F64.fin 40000,
                                               OrderIDSource := 3 }
                  "CANCELED" LogLevel.InfoLevel,
                Event.SetBusy false],
          outcome := Outcome.returned,
          session := (liveSession.setLastSellCanceledTime 0).setBusy false } := by
  have hB : ∀ q, (SellOrder sellTimesOutWorld liveConfig q).1
      = some (orderWith "SELL" "NEW") := by
    intro q; simp [SellOrder, liveConfig, ToLower_binance, sellTimesOutWorld]
  have hG : ∀ k, GetOrder sellTimesOutWorld liveConfig k 7
      = (some (orderWith "SELL" "NEW"), none) := by
    intro k; simp [GetOrder, liveConfig, ToLower_binance, sellTimesOutWorld]
  have hC : CancelOrder sellTimesOutWorld liveConfig 7
      = (some (orderWith "SELL" "CANCELED"), none) := by
    simp [CancelOrder, liveConfig, ToLower_binance, sellTimesOutWorld]
  have hd : liveConfig.DryRun = false := rfl
  have hid : (orderWith "SELL" "NEW").OrderID = 7 := rfl
  simp only [SellTicker, withBusy, SellTickerBody, hd, hB, getSellQuantity_setBusy, hid, hG,
    sellLoop, hC]
  simp [orderWith, Order.zero, sellTimesOutWorld, quietWorld, sellSettle, boughtOrder,
    Session.setBusy, Session.setLastSellCanceledTime, tickPasses, tickSleep]

/-- The bounds at a sell answered NEW whose status stays NEW and whose cancel request
succeeds: the cancel request comes after the five events before the loop, 8 passes ending in
the tick sleep, and the start of the 9th pass. -/
theorem SellTicker_bounded_timesOut :
    (SellTicker sellTimesOutWorld 9 1 boughtOrder liveConfig { Price := F64.fin 40000 }
        liveSession).trace.count Event.LoopPass ≤ 9
    ∧ (SellTicker sellTimesOutWorld 9 1 boughtOrder liveConfig { Price := F64.fin 40000 }
        liveSession).trace.countP isCancel ≤ 1
    ∧ (∃ p, [Event.SetBusy true,
             Event.SellOrder (Float64ToStr (getSellQuantity boughtOrder liveSession) 6),
             Event.SaveOrder "c7" (F64.fin 0) (F64.fin 0) 7 (F64.fin 40000) "SELL" "NEW"
               "BTCUSDT" 0,
             Event.Sleep 2000,
             Event.GetOrder 7] ++ tickPasses liveConfig 8 ++ [Event.LoopPass]
          = p ++ tickPasses liveConfig 8 ++ [Event.LoopPass]
          ∧ ∀ e ∈ p, quiet e = true)
    ∧ (SellTicker sellTimesOutWorld 9 1 boughtOrder liveConfig { Price := F64.fin 40000 }
        liveSession).outcome ≠ Outcome.pollFuel :=
  ⟨(SellTicker_bounded sellTimesOutWorld 9 1 boughtOrder liveConfig
      { Price := F64.fin 40000 } liveSession).1,
   (SellTicker_bounded sellTimesOutWorld 9 1 boughtOrder liveConfig
      { Price := F64.fin 40000 } liveSession).2.1,
   (SellTicker_bounded sellTimesOutWorld 9 1 boughtOrder liveConfig
      { Price := F64.fin 40000 } liveSession).2.2.1
      ([Event.SetBusy true,
        Event.SellOrder (Float64ToStr (getSellQuantity boughtOrder liveSession) 6),
        Event.SaveOrder "c7" (F64.fin 0) (F64.fin 0) 7 (F64.fin 40000) "SELL" "NEW"
          "BTCUSDT" 0,
        Event.Sleep 2000,
        Event.GetOrder 7] ++ tickPasses liveConfig 8 ++ [Event.LoopPass])
      [Event.GetOrder 7,
       Event.UpdateOrder 7 (F64.fin 0) (F64.fin 0) (F64.fin 40000) "NEW",
       Event.Logger { Order.zero with OrderID := 7, Price := F64.fin 40000,
                                      OrderIDSource := 3 }
         "CANCELED" LogLevel.InfoLevel,
       Event.SetBusy false]
      7 (by rw [SellTicker_timesOut]; simp),
   (SellTicker_bounded sellTimesOutWorld 9 1 boughtOrder liveConfig
      { Price := F64.fin 40000 } liveSession).2.2.2 (le_refl 9)⟩

/-! ## Exclusivity -/

/-- C9: `BuyTicker` and `SellTicker` write `Busy = true` before anything else (the write is
the first event of every run, so it precedes every exchange and persistence call), and on
every path on which they return, `Busy` is false at return, the write `Busy = false` being
the last event. -/
theorem C9_busy_bracket (w : World) (fuel xfuel : Nat) (quantity : F64) (order : Order)
    (configData : Config) (marketData : Market) (sessionData : Session) :
    (∃ rest, (BuyTicker w fuel xfuel quantity configData marketData sessionData).trace
        = Event.SetBusy true :: rest)
    ∧ (∃ rest, (SellTicker w fuel xfuel order configData marketData sessionData).trace
        = Event.SetBusy true :: rest)
    ∧ ((BuyTicker w fuel xfuel quantity configData marketData sessionData).outcome
          = Outcome.returned →
        (BuyTicker w fuel xfuel quantity configData marketData sessionData).session.Busy = false
        ∧ (BuyTicker w fuel xfuel quantity configData marketData sessionData).trace.getLast?
            = some (Event.SetBusy false))
    ∧ ((SellTicker w fuel xfuel order configData marketData sessionData).outcome
          = Outcome.returned →
        (SellTicker w fuel xfuel order configData marketData sessionData).session.Busy = false
        ∧ (SellTicker w fuel xfuel order configData marketData sessionData).trace.getLast?
            = some (Event.SetBusy false)) := by
  refine ⟨?_, ?_, ?_, ?_⟩
  · obtain ⟨tail, h⟩ := withBusy_trace
      (BuyTickerBody w fuel xfuel quantity configData marketData) sessionData
    exact ⟨_, h⟩
  · obtain ⟨tail, h⟩ := withBusy_trace
      (SellTickerBody w fuel xfuel order configData marketData) sessionData
    exact ⟨_, h⟩
  · exact withBusy_returned _ _
  · exact withBusy_returned _ _

/-- Witness of C9: a buy to which the adapter returns no order, and the sell that times out
and is canceled, both return with `Busy` false. -/
theorem C9_busy_bracket_witness :
    ((BuyTicker quietWorld 1 1 (F64.fin 50) liveConfig { Price := F64.fin 40000 }
        liveSession).session.Busy = false
      ∧ (BuyTicker quietWorld 1 1 (F64.fin 50) liveConfig { Price := F64.fin 40000 }
          liveSession).trace.getLast? = some (Event.SetBusy false))
    ∧ ((SellTicker sellTimesOutWorld 9 1 boughtOrder liveConfig { Price := F64.fin 40000 }
        liveSession).session.Busy = false
      ∧ (SellTicker sellTimesOutWorld 9 1 boughtOrder liveConfig { Price := F64.fin 40000 }
          liveSession).trace.getLast? = some (Event.SetBusy false)) :=
  ⟨(C9_busy_bracket quietWorld 1 1 (F64.fin 50) boughtOrder liveConfig
      { Price := F64.fin 40000 } liveSession).2.2.1
      (by simp [BuyTicker, withBusy, BuyTickerBody, BuyOrder, quietWorld, liveConfig,
            ToLower_binance]),
   (C9_busy_bracket sellTimesOutWorld 9 1 (F64.fin 50) boughtOrder liveConfig
      { Price := F64.fin 40000 } liveSession).2.2.2
      (by rw [SellTicker_timesOut])⟩


/-! ## Deletion of the ThreadTransaction -/

theorem Contains_no_race_code :
    (Contains "code=-1021, msg=Timestamp outside recvWindow" "-2010"
      || Contains "code=-1021, msg=Timestamp outside recvWindow" "-2011") = false := by
  decide

theorem SellTicker_cancelFails :
    SellTicker cancelFailsWorld 9 1 boughtOrder liveConfig { Price := F64.fin 40000 }
        liveSession
      = { trace :=
            [Event.SetBusy true,
             Event.SellOrder (Float64ToStr (getSellQuantity boughtOrder liveSession) 6),
             Event.SaveOrder "c7" (F64.fin 0) (F64.fin 0) 7 (F64.fin 40000) "SELL" "NEW"
               "BTCUSDT" 0,
             Event.Sleep 2000,
             Event.GetOrder 7]
            ++ tickPasses liveConfig 8
            ++ [Event.LoopPass,
                Event.CancelOrder 7,
                Event.Logger { Order.zero with OrderID := 7 }
                  "code=-1021, msg=Timestamp outside recvWindow" LogLevel.DebugLevel,
                Event.DeleteThreadTransactionByOrderID 3,
                Event.Logger { Order.zero with OrderID := 7, Price := F64.fin 40000,
                                               OrderIDSource := 3 }
                  "SELL" LogLevel.InfoLevel,
                Event.SetBusy false],
          outcome := Outcome.returned,
          session := liveSession.setBusy false } := by
  have hB : ∀ q, (SellOrder cancelFailsWorld liveConfig q).1
      = some (orderWith "SELL" "NEW") := by
    intro q; simp [SellOrder, liveConfig, ToLower_binance, cancelFailsWorld]
  have hG : ∀ k, GetOrder cancelFailsWorld liveConfig k 7
      = (some (orderWith "SELL" "NEW"), none) := by
    intro k; simp [GetOrder, liveConfig, ToLower_binance, cancelFailsWorld]
  have hC : CancelOrder cancelFailsWorld liveConfig 7
      = (none, some "code=-1021, msg=Timestamp outside recvWindow") := by
    simp [CancelOrder, liveConfig, ToLower_binance, cancelFailsWorld]
  have hd : liveConfig.DryRun = false := rfl
  have hid : (orderWith "SELL" "NEW").OrderID = 7 := rfl
  simp only [SellTicker, withBusy, SellTickerBody, hd, hB, getSellQuantity_setBusy, hid, hG,
    sellLoop, hC, Contains_no_race_code]
  simp [orderWith, Order.zero, cancelFailsWorld, quietWorld, sellSettle, boughtOrder,
    Session.setBusy, tickPasses, tickSleep]

theorem quiet_ne_cancel {e : Event} (h : quiet e = true) (id : Int) :
    e ≠ Event.CancelOrder id := by
  rintro rfl; simp [quiet] at h

theorem removeAndLog_noDelete (w : World) (fn filename : String) :
    ∀ e ∈ removeAndLog w fn filename, isDelete e = false := by
  intro e he
  unfold removeAndLog at he
  cases h : w.Remove filename with
  | none =>
    simp only [h, List.mem_cons, List.mem_nil_iff, or_false] at he
    subst he; rfl
  | some x =>
    simp only [h, List.mem_cons, List.mem_nil_iff, or_false] at he
    rcases he with rfl | rfl <;> rfl

theorem ExitThreadID_noDelete (w : World) (busy : Nat → Bool) (s : Session) (xfuel : Nat) :
    ∀ e ∈ (ExitThreadID w busy s xfuel).1, isDelete e = false := by
  intro e he
  obtain ⟨n, h1, _, _⟩ := waitBusy_spec busy xfuel 0
  unfold ExitThreadID at he
  by_cases hd : (waitBusy busy xfuel 0).2 = true
  · simp only [hd, if_true, h1, List.mem_append, List.mem_replicate] at he
    rcases he with ((⟨_, rfl⟩ | he) | he) | he
    · rfl
    · by_cases hm : s.MasterNode = true
      · rw [if_pos hm] at he
        unfold ReleaseRole at he
        rw [if_pos hm] at he
        exact removeAndLog_noDelete _ _ _ e he
      · rw [if_neg hm] at he
        simp at he
    · exact removeAndLog_noDelete _ _ _ e he
    · simp only [List.mem_cons, List.mem_nil_iff, or_false] at he
      rcases he with rfl | rfl | rfl <;> rfl
  · simp only [hd, h1] at he
    simp only [Bool.false_eq_true, if_false, List.mem_replicate] at he
    rw [he.2]; rfl

theorem noDelete_cons {a : Event} {l : List Event} (ha : isDelete a = false)
    (hl : ∀ e ∈ l, isDelete e = false) : ∀ e ∈ a :: l, isDelete e = false := by
  intro e he
  rcases List.mem_cons.mp he with rfl | he
  · exact ha
  · exact hl e he

theorem noDelete_nil : ∀ e ∈ ([] : List Event), isDelete e = false := by
  intro e he; simp at he

theorem noDelete_append {l₁ l₂ : List Event} (h1 : ∀ e ∈ l₁, isDelete e = false)
    (h2 : ∀ e ∈ l₂, isDelete e = false) : ∀ e ∈ l₁ ++ l₂, isDelete e = false := by
  intro e he
  rcases List.mem_append.mp he with he | he
  · exact h1 e he
  · exact h2 e he

/-- The reconciliation loop deletes nothing; and when the cancel request succeeds with
status CANCELED, a loop that issued it is left with `isCanceled` set, or not at all. -/
theorem sellLoop_marks (w : World) (xfuel : Nat) (c : Config) (m : Market) (s : Session)
    (r : Order) (os : Option Order) (err : Option String) (fuel : Nat) :
    ∀ i l, sellLoop w xfuel c m s r os err fuel i = l →
      (∀ e ∈ l.1, isDelete e = false)
      ∧ (∀ cr, CancelOrder w c r.OrderID = (some cr, none) → cr.Status = "CANCELED" →
          Event.CancelOrder r.OrderID ∈ l.1 →
          (∀ s1, l.2 ≠ SellExit.breakS s1) ∧ (∀ o1 s1, l.2 ≠ SellExit.breakF o1 false s1)) := by
  induction fuel with
  | zero =>
    intro i l hl
    subst hl
    simp [sellLoop]
  | succ fuel ih =>
    intro i l hl
    have hxq := ExitThreadID_quiet w (fun _ => s.Busy) s xfuel
    have hxd := ExitThreadID_noDelete w (fun _ => s.Busy) s xfuel
    have nocancel : ¬ Event.CancelOrder r.OrderID
        ∈ Event.LoopPass :: (ExitThreadID w (fun _ => s.Busy) s xfuel).1 := by
      intro hm
      rcases List.mem_cons.mp hm with h | h
      · cases h
      · exact quiet_ne_cancel (hxq _ h) _ rfl
    unfold sellLoop at hl
    cases err with
    | some e =>
      cases os with
      | none =>
        simp only [if_true, exitFrom, List.cons_append, List.nil_append] at hl
        subst hl
        exact ⟨noDelete_cons rfl hxd, fun _ _ _ hm => absurd hm nocancel⟩
      | some o =>
        split_ifs at hl
        · simp only [exitFrom, List.cons_append, List.nil_append] at hl
          subst hl
          exact ⟨noDelete_cons rfl hxd, fun _ _ _ hm => absurd hm nocancel⟩
        · subst hl
          exact ⟨noDelete_nil, fun _ _ _ hm => by simp at hm⟩
    | none =>
      cases os with
      | none =>
        simp only [if_true] at hl
        subst hl
        exact ⟨noDelete_cons rfl noDelete_nil, fun _ _ _ hm => by simp at hm⟩
      | some o =>
        by_cases h9 : i + 1 = 9
        · generalize hcan : CancelOrder w c r.OrderID = canceled at hl ⊢
          generalize GetOrder w c 1 r.OrderID = got at hl
          obtain ⟨c1, c2⟩ := canceled
          obtain ⟨g1, g2⟩ := got
          simp only [if_pos h9] at hl
          clear ih hcan
          cases c1 <;> cases c2 <;> cases g2 <;>
          simp only [exitFrom, List.cons_append, List.nil_append, List.append_assoc] at hl <;>
          split_ifs at hl <;>
          subst hl <;>
          refine ⟨by dsimp only; repeat (first | exact noDelete_nil | exact hxd | refine noDelete_cons (by rfl) ?_),
            fun cr hc hs hm => ?_⟩ <;>
          have hc' := Prod.mk.inj hc <;>
          first
            | exact Option.noConfusion hc'.2
            | exact Option.noConfusion hc'.1
            | (simp at hm; done)
            | (have hx := Option.some.inj hc'.1
               subst hx
               first
                 | exact absurd hs ‹_›
                 | exact ⟨fun _ h => by simp at h, fun _ _ h => by simp at h⟩)
        · simp only [if_neg h9] at hl
          split_ifs at hl
          · subst hl
            exact ⟨noDelete_cons rfl noDelete_nil, fun _ _ _ hm => by simp at hm⟩
          · subst hl
            exact ⟨noDelete_cons rfl noDelete_nil, fun _ _ _ hm => by simp at hm⟩
          · have ih1 := ih (i + 1) _ rfl
            subst hl
            refine ⟨noDelete_cons rfl (noDelete_cons rfl ih1.1), fun cr hc hs hm => ?_⟩
            refine ih1.2 cr hc hs ?_
            simpa using hm
          · subst hl
            exact ⟨noDelete_nil, fun _ _ _ hm => by simp at hm⟩

theorem sellSettle_canceled_noDelete (w : World) (xfuel : Nat) (m : Market) (s : Session)
    (o r : Order) (pre : List Event) (hpre : ∀ e ∈ pre, isDelete e = false) :
    ∀ e ∈ (sellSettle w xfuel m s o r true pre).trace, isDelete e = false := by
  unfold sellSettle
  simp only [Bool.not_true, Bool.false_eq_true, if_false]
  exact noDelete_append hpre (noDelete_cons rfl noDelete_nil)

theorem exitFrom_noDelete (w : World) (xfuel : Nat) (s : Session) (pre : List Event)
    (hpre : ∀ e ∈ pre, isDelete e = false) :
    ∀ e ∈ (exitFrom w xfuel s pre).trace, isDelete e = false :=
  noDelete_append hpre (ExitThreadID_noDelete w _ s xfuel)

theorem cancel_mem_middle {pre t post : List Event} {id : Int}
    (hpre : ∀ e ∈ pre, quiet e = true) (hpost : ∀ e ∈ post, quiet e = true)
    (h : Event.CancelOrder id ∈ pre ++ t ++ post) : Event.CancelOrder id ∈ t := by
  rcases List.mem_append.mp h with h | h
  · rcases List.mem_append.mp h with h | h
    · exact absurd rfl (quiet_ne_cancel (hpre _ h) id)
    · exact h
  · exact absurd rfl (quiet_ne_cancel (hpost _ h) id)

/-- In a run of the body of `SellTicker` that deletes the ThreadTransaction, the submission
was not answered CANCELED, and no cancel request that succeeded with status CANCELED was
issued. -/
theorem SellTickerBody_delete (w : World) (fuel xfuel : Nat) (order : Order) (c : Config)
    (m : Market) (s : Session) (r : Order)
    (hr : (SellOrder w c (Float64ToStr (getSellQuantity order s) 6)).1 = some r)
    (b : Run) (hb : SellTickerBody w fuel xfuel order c m s = b)
    (id : Int) (hdel : Event.DeleteThreadTransactionByOrderID id ∈ b.trace) :
    r.Status ≠ "CANCELED"
    ∧ ∀ cr, CancelOrder w c r.OrderID = (some cr, none) → cr.Status = "CANCELED" →
        Event.CancelOrder r.OrderID ∉ b.trace := by
  have nd : ∀ {l : List Event}, (∀ e ∈ l, isDelete e = false) →
      Event.DeleteThreadTransactionByOrderID id ∈ l → False := by
    intro l hl hm
    have := hl _ hm
    simp [isDelete] at this
  unfold SellTickerBody at hb
  by_cases hdry : c.DryRun = true
  · rw [if_pos hdry] at hb
    subst hb
    simp at hdel
  rw [if_neg hdry] at hb
  simp only [hr] at hb
  have hpre2 : ∀ e ∈ [Event.SellOrder (Float64ToStr (getSellQuantity order s) 6)] ++
      [Event.SaveOrder r.ClientOrderID r.CumulativeQuoteQuantity r.ExecutedQuantity
        r.OrderID m.Price r.Side r.Status r.Symbol r.TransactTime], quiet e = true :=
    quiet_cons rfl (quiet_cons rfl quiet_nil)
  have hnd2 : ∀ e ∈ [Event.SellOrder (Float64ToStr (getSellQuantity order s) 6)] ++
      [Event.SaveOrder r.ClientOrderID r.CumulativeQuoteQuantity r.ExecutedQuantity
        r.OrderID m.Price r.Side r.Status r.Symbol r.TransactTime], isDelete e = false :=
    noDelete_cons rfl (noDelete_cons rfl noDelete_nil)
  -- a run that settles without entering the loop issues no cancel request
  have flat : ∀ (isC : Bool), Event.CancelOrder r.OrderID ∉
      (sellSettle w xfuel m s order r isC
        ([Event.SellOrder (Float64ToStr (getSellQuantity order s) 6)] ++
          [Event.SaveOrder r.ClientOrderID r.CumulativeQuoteQuantity r.ExecutedQuantity
            r.OrderID m.Price r.Side r.Status r.Symbol r.TransactTime])).trace := by
    intro isC hm
    obtain ⟨⟨post, hp, hq⟩, _⟩ := sellSettle_quiet w xfuel m s order r isC
      ([Event.SellOrder (Float64ToStr (getSellQuantity order s) 6)] ++
        [Event.SaveOrder r.ClientOrderID r.CumulativeQuoteQuantity r.ExecutedQuantity
          r.OrderID m.Price r.Side r.Status r.Symbol r.TransactTime])
    rw [hp] at hm
    have : Event.CancelOrder r.OrderID ∈ ([] : List Event) :=
      cancel_mem_middle hpre2 hq (by simpa using hm)
    simp at this
  cases hs : w.SaveOrder with
  | some e =>
    simp only [hs] at hb
    subst hb
    exact (nd (exitFrom_noDelete _ _ _ _ hnd2) hdel).elim
  | none =>
    simp only [hs] at hb
    split_ifs at hb with h1 h2 h3
    · subst hb
      exact ⟨by rw [h1]; decide, fun _ _ _ => flat false⟩
    · subst hb
      exact (nd (sellSettle_canceled_noDelete _ _ _ _ _ _ _ hnd2) hdel).elim
    · have hl := sellLoop_marks w xfuel c m s r (GetOrder w c 0 r.OrderID).1
        (GetOrder w c 0 r.OrderID).2 fuel 0 _ rfl
      generalize sellLoop w xfuel c m s r (GetOrder w c 0 r.OrderID).1
        (GetOrder w c 0 r.OrderID).2 fuel 0 = l at hl hb
      obtain ⟨lt, le⟩ := l
      obtain ⟨hlnd, hmark⟩ := hl
      dsimp only at hlnd hmark hb
      have hpre4 : ∀ e ∈ [Event.SellOrder (Float64ToStr (getSellQuantity order s) 6)] ++
          [Event.SaveOrder r.ClientOrderID r.CumulativeQuoteQuantity r.ExecutedQuantity
            r.OrderID m.Price r.Side r.Status r.Symbol r.TransactTime] ++
          [Event.Sleep 2000, Event.GetOrder r.OrderID], quiet e = true :=
        quiet_cons rfl (quiet_cons rfl (quiet_cons rfl (quiet_cons rfl quiet_nil)))
      have hnd4 : ∀ e ∈ [Event.SellOrder (Float64ToStr (getSellQuantity order s) 6)] ++
          [Event.SaveOrder r.ClientOrderID r.CumulativeQuoteQuantity r.ExecutedQuantity
            r.OrderID m.Price r.Side r.Status r.Symbol r.TransactTime] ++
          [Event.Sleep 2000, Event.GetOrder r.OrderID] ++ lt, isDelete e = false :=
        noDelete_append
          (noDelete_cons rfl (noDelete_cons rfl (noDelete_cons rfl (noDelete_cons rfl
            noDelete_nil)))) hlnd
      cases le with
      | stop o s1 =>
        dsimp only at hb
        subst hb
        exact (nd hnd4 hdel).elim
      | breakS s1 =>
        dsimp only at hb
        subst hb
        refine ⟨h2, fun cr hc hst hm => ?_⟩
        obtain ⟨⟨post, hp, hq⟩, _⟩ := sellSettle_quiet w xfuel m s1 order r false
          ([Event.SellOrder (Float64ToStr (getSellQuantity order s) 6)] ++
            [Event.SaveOrder r.ClientOrderID r.CumulativeQuoteQuantity r.ExecutedQuantity
              r.OrderID m.Price r.Side r.Status r.Symbol r.TransactTime] ++
            [Event.Sleep 2000, Event.GetOrder r.OrderID] ++ lt)
        rw [hp] at hm
        exact (hmark cr hc hst (cancel_mem_middle hpre4 hq hm)).1 s1 rfl
      | breakF os isC s1 =>
        cases os with
        | none =>
          dsimp only at hb
          subst hb
          exact (nd hnd4 hdel).elim
        | some o =>
          dsimp only at hb
          have hnd5 : ∀ e ∈ [Event.SellOrder (Float64ToStr (getSellQuantity order s) 6)] ++
              [Event.SaveOrder r.ClientOrderID r.CumulativeQuoteQuantity r.ExecutedQuantity
                r.OrderID m.Price r.Side r.Status r.Symbol r.TransactTime] ++
              [Event.Sleep 2000, Event.GetOrder r.OrderID] ++ lt ++
              [Event.UpdateOrder r.OrderID o.CumulativeQuoteQuantity o.ExecutedQuantity
                m.Price o.Status], isDelete e = false :=
            noDelete_append hnd4 (noDelete_cons rfl noDelete_nil)
          cases hu : w.UpdateOrder with
          | some e =>
            simp only [hu] at hb
            subst hb
            exact (nd (exitFrom_noDelete _ _ _ _ hnd5) hdel).elim
          | none =>
            simp only [hu] at hb
            subst hb
            cases isC with
            | true => exact (nd (sellSettle_canceled_noDelete _ _ _ _ _ _ _ hnd5) hdel).elim
            | false =>
              refine ⟨h2, fun cr hc hst hm => ?_⟩
              obtain ⟨⟨post, hp, hq⟩, _⟩ := sellSettle_quiet w xfuel m s1 order r false
                ([Event.SellOrder (Float64ToStr (getSellQuantity order s) 6)] ++
                  [Event.SaveOrder r.ClientOrderID r.CumulativeQuoteQuantity r.ExecutedQuantity
                    r.OrderID m.Price r.Side r.Status r.Symbol r.TransactTime] ++
                  [Event.Sleep 2000, Event.GetOrder r.OrderID] ++ lt ++
                  [Event.UpdateOrder r.OrderID o.CumulativeQuoteQuantity o.ExecutedQuantity
                    m.Price o.Status])
              rw [hp] at hm
              have hm2 : Event.CancelOrder r.OrderID ∈
                  ([Event.SellOrder (Float64ToStr (getSellQuantity order s) 6)] ++
                    [Event.SaveOrder r.ClientOrderID r.CumulativeQuoteQuantity
                      r.ExecutedQuantity r.OrderID m.Price r.Side r.Status r.Symbol
                      r.TransactTime] ++
                    [Event.Sleep 2000, Event.GetOrder r.OrderID]) ++ lt ++
                  ([Event.UpdateOrder r.OrderID o.CumulativeQuoteQuantity o.ExecutedQuantity
                    m.Price o.Status] ++ post) := by
                simpa using hm
              have hq2 : ∀ e ∈ [Event.UpdateOrder r.OrderID o.CumulativeQuoteQuantity
                  o.ExecutedQuantity m.Price o.Status] ++ post, quiet e = true :=
                quiet_cons rfl hq
              exact (hmark cr hc hst (cancel_mem_middle hpre4 hq2 hm2)).2 (some o) s1 rfl
    · subst hb
      exact ⟨h2, fun _ _ _ => flat false⟩

theorem withBusy_trace_cases (body : Session → Run) (s : Session) :
    (withBusy body s).trace = Event.SetBusy true :: (body (s.setBusy true)).trace
    ∨ (withBusy body s).trace
        = Event.SetBusy true :: ((body (s.setBusy true)).trace ++ [Event.SetBusy false]) := by
  unfold withBusy
  dsimp only
  generalize body (s.setBusy true) = r
  obtain ⟨t, o, ss⟩ := r
  cases o
  · exact Or.inr rfl
  · exact Or.inl rfl
  · exact Or.inr rfl
  · exact Or.inl rfl
  · exact Or.inl rfl

/-- C3, as amended: in every run of `SellTicker`, whatever the exchange and the store do, the
ThreadTransaction of the originating buy is deleted only if the sell was not marked
canceled: if `DeleteThreadTransactionByOrderID` is called, the submission was not answered
CANCELED, and no cancel request that succeeded with status CANCELED was issued. -/
theorem C3_deleted_only_if_not_marked_canceled (w : World) (fuel xfuel : Nat) (order : Order)
    (configData : Config) (marketData : Market) (sessionData : Session) (r : Order) (id : Int)
    (hr : (SellOrder w configData
            (Float64ToStr (getSellQuantity order sessionData) 6)).1 = some r)
    (hdel : Event.DeleteThreadTransactionByOrderID id
      ∈ (SellTicker w fuel xfuel order configData marketData sessionData).trace) :
    r.Status ≠ "CANCELED"
    ∧ ∀ cr, CancelOrder w configData r.OrderID = (some cr, none) → cr.Status = "CANCELED" →
        Event.CancelOrder r.OrderID
          ∉ (SellTicker w fuel xfuel order configData marketData sessionData).trace := by
  have hcases := withBusy_trace_cases
    (SellTickerBody w fuel xfuel order configData marketData) sessionData
  have hdel' : Event.DeleteThreadTransactionByOrderID id
      ∈ (SellTickerBody w fuel xfuel order configData marketData
          (sessionData.setBusy true)).trace := by
    unfold SellTicker at hdel
    rcases hcases with h | h <;> rw [h] at hdel <;> simpa using hdel
  obtain ⟨h1, h2⟩ := SellTickerBody_delete w fuel xfuel order configData marketData
    (sessionData.setBusy true) r (by simpa using hr) _ rfl id hdel'
  refine ⟨h1, fun cr hc hs hm => h2 cr hc hs ?_⟩
  unfold SellTicker at hm
  rcases hcases with h | h <;> rw [h] at hm <;> simpa using hm

/-- Witness of C3 as amended: the run in which the cancel request fails deletes the
ThreadTransaction of order 3; its submission was answered NEW. -/
theorem C3_deleted_only_if_not_marked_canceled_witness :
    (orderWith "SELL" "NEW").Status ≠ "CANCELED"
    ∧ ∀ cr, CancelOrder cancelFailsWorld liveConfig (orderWith "SELL" "NEW").OrderID
          = (some cr, none) → cr.Status = "CANCELED" →
        Event.CancelOrder (orderWith "SELL" "NEW").OrderID
          ∉ (SellTicker cancelFailsWorld 9 1 boughtOrder liveConfig { Price := F64.fin 40000 }
              liveSession).trace :=
  C3_deleted_only_if_not_marked_canceled cancelFailsWorld 9 1 boughtOrder liveConfig
    { Price := F64.fin 40000 } liveSession (orderWith "SELL" "NEW") 3
    (by simp [SellOrder, liveConfig, ToLower_binance, cancelFailsWorld])
    (by rw [SellTicker_cancelFails]; simp)

/-- C3 as stated fails: the sell is answered NEW, every status query answers NEW and the
cancel request of the 9th pass fails with an error that carries no race code;
reconciliation is abandoned, and `SellTicker` deletes the ThreadTransaction of the
originating buy (order 3) and logs SELL although the last status observed for the sell
order is NEW. -/
theorem C3_deleted_while_new_counterexample :
    (∀ q, ((SellOrder cancelFailsWorld liveConfig q).1.map Order.Status) = some "NEW")
    ∧ (∀ k, ((GetOrder cancelFailsWorld liveConfig k 7).1.map Order.Status) = some "NEW")
    ∧ (CancelOrder cancelFailsWorld liveConfig 7).1 = none
    ∧ Event.DeleteThreadTransactionByOrderID 3
        ∈ (SellTicker cancelFailsWorld 9 1 boughtOrder liveConfig { Price := F64.fin 40000 }
            liveSession).trace
    ∧ (SellTicker cancelFailsWorld 9 1 boughtOrder liveConfig { Price := F64.fin 40000 }
        liveSession).outcome = Outcome.returned := by
  refine ⟨?_, ?_, ?_, ?_, ?_⟩
  · intro q; simp [SellOrder, liveConfig, ToLower_binance, cancelFailsWorld, orderWith]
  · intro k; simp [GetOrder, liveConfig, ToLower_binance, cancelFailsWorld, orderWith]
  · simp [CancelOrder, liveConfig, ToLower_binance, cancelFailsWorld]
  · rw [SellTicker_cancelFails]; simp
  · rw [SellTicker_cancelFails]


/-! ## The sell state machine: the cancel request -/

theorem sellLoop_tick (w : World) (xfuel : Nat) (c : Config) (m : Market) (s : Session)
    (r os : Order) (fuel i : Nat) (h : pending os) (hi : i + 1 ≠ 9) :
    sellLoop w xfuel c m s r (some os) none (fuel + 1) i
      = (Event.LoopPass :: tickSleep c :: (sellLoop w xfuel c m s r (some os) none fuel (i + 1)).1,
         (sellLoop w xfuel c m s r (some os) none fuel (i + 1)).2) := by
  rw [sellLoop]
  rcases h with h | h <;> simp [h, hi, tickSleep]

theorem sellLoop_ticks (w : World) (xfuel : Nat) (c : Config) (m : Market) (s : Session)
    (r os : Order) (fuel : Nat) (h : pending os) (n : Nat) :
    ∀ i, i + n ≤ 8 →
      sellLoop w xfuel c m s r (some os) none (fuel + n) i
        = (tickPasses c n ++ (sellLoop w xfuel c m s r (some os) none fuel (i + n)).1,
           (sellLoop w xfuel c m s r (some os) none fuel (i + n)).2) := by
  induction n with
  | zero => intro i _; simp [tickPasses]
  | succ n ih =>
    intro i hi
    rw [show fuel + (n + 1) = (fuel + n) + 1 by omega,
      sellLoop_tick w xfuel c m s r os (fuel + n) i h (by omega), ih (i + 1) (by omega)]
    simp [tickPasses, show i + 1 + n = i + (n + 1) by omega]

theorem sellLoop_cancel_ok (w : World) (xfuel : Nat) (c : Config) (m : Market) (s : Session)
    (r os cr : Order) (g : Option Order) (fuel : Nat) (h : pending os)
    (hc : CancelOrder w c r.OrderID = (some cr, none)) (hcr : cr.Status = "CANCELED")
    (hg : GetOrder w c 1 r.OrderID = (g, none)) :
    sellLoop w xfuel c m s r (some os) none (fuel + 1) 8
      = ([Event.LoopPass, Event.CancelOrder r.OrderID, Event.GetOrder r.OrderID],
         SellExit.breakF g true (s.setLastSellCanceledTime w.Now)) := by
  rw [sellLoop]
  rcases h with h | h <;> simp [h, hc, hcr, hg]

theorem sellLoop_cancel_race (w : World) (xfuel : Nat) (c : Config) (m : Market) (s : Session)
    (r os : Order) (x g : Option Order) (e : String) (fuel : Nat) (h : pending os)
    (hc : CancelOrder w c r.OrderID = (x, some e))
    (he : (Contains e "-2010" || Contains e "-2011") = true)
    (hg : GetOrder w c 1 r.OrderID = (g, none)) :
    sellLoop w xfuel c m s r (some os) none (fuel + 1) 8
      = ([Event.LoopPass, Event.CancelOrder r.OrderID, Event.GetOrder r.OrderID],
         SellExit.breakF g false s) := by
  rw [sellLoop]
  rcases h with h | h <;> simp [h, hc, hg, he]

/-- A sell answered NEW that stays pending until the cancel request, which fails with a race
code; the re-fetch returns the order `final`, and the store succeeds. -/
theorem SellTicker_race (w : World) (fuel xfuel : Nat) (order : Order)
    (configData : Config) (marketData : Market) (sessionData : Session)
    (r os final : Order) (x : Option Order) (e : String)
    (hdry : configData.DryRun = false)
    (hsell : (SellOrder w configData
        (Float64ToStr (getSellQuantity order sessionData) 6)).1 = some r)
    (hr : r.Status = "NEW") (hsave : w.SaveOrder = none)
    (hget : GetOrder w configData 0 r.OrderID = (some os, none)) (hos : pending os)
    (hcancel : CancelOrder w configData r.OrderID = (x, some e))
    (hrace : Contains e "-2011" = true ∨ Contains e "-2010" = true)
    (hre : GetOrder w configData 1 r.OrderID = (some final, none))
    (hupd : w.UpdateOrder = none) (hdel : w.DeleteThreadTransactionByOrderID = none) :
    SellTicker w (fuel + 9) xfuel order configData marketData sessionData
      = { trace :=
            [Event.SetBusy true,
             Event.SellOrder (Float64ToStr (getSellQuantity order sessionData) 6),
             Event.SaveOrder r.ClientOrderID r.CumulativeQuoteQuantity r.ExecutedQuantity
               r.OrderID marketData.Price r.Side r.Status r.Symbol r.TransactTime,
             Event.Sleep 2000,
             Event.GetOrder r.OrderID]
            ++ tickPasses configData 8
            ++ [Event.LoopPass,
                Event.CancelOrder r.OrderID,
                Event.GetOrder r.OrderID,
                Event.UpdateOrder r.OrderID final.CumulativeQuoteQuantity
                  final.ExecutedQuantity marketData.Price final.Status,
                Event.DeleteThreadTransactionByOrderID order.OrderID,
                Event.Logger { Order.zero with OrderID := r.OrderID, Price := marketData.Price,
                                               OrderIDSource := order.OrderID }
                  "SELL" LogLevel.InfoLevel,
                Event.SetBusy false],
          outcome := Outcome.returned,
          session := (sessionData.setBusy true).setBusy false } := by
  have he : (Contains e "-2010" || Contains e "-2011") = true := by
    rcases hrace with h | h <;> simp [h]
  have hloop := sellLoop_ticks w xfuel configData marketData (sessionData.setBusy true) r os
    (fuel + 1) hos 8 0 (by omega)
  rw [show 0 + 8 = 8 by rfl, sellLoop_cancel_race w xfuel configData marketData
    (sessionData.setBusy true) r os x (some final) e fuel hos hcancel he hre] at hloop
  simp only [SellTicker, withBusy, SellTickerBody, hdry, getSellQuantity_setBusy, hsell, hsave,
    hget, show fuel + 9 = fuel + 1 + 8 by omega, hloop, hupd, sellSettle, hdel]
  simp [hr]

/-- C13: if the sell submission returns NEW, the order is still pending when the cancel
request is made, the cancel request fails with an error whose text contains the race code
-2011 or -2010, and the re-fetch returns FILLED (the store succeeding), then `SellTicker`
persists status FILLED with `UpdateOrder`, deletes the ThreadTransaction of the originating
buy and logs SELL; it logs no CANCELED event. -/
theorem C13_race_settles_filled (w : World) (fuel xfuel : Nat) (order : Order)
    (configData : Config) (marketData : Market) (sessionData : Session)
    (r os final : Order) (x : Option Order) (e : String)
    (hdry : configData.DryRun = false)
    (hsell : (SellOrder w configData
        (Float64ToStr (getSellQuantity order sessionData) 6)).1 = some r)
    (hr : r.Status = "NEW") (hsave : w.SaveOrder = none)
    (hget : GetOrder w configData 0 r.OrderID = (some os, none)) (hos : pending os)
    (hcancel : CancelOrder w configData r.OrderID = (x, some e))
    (hrace : Contains e "-2011" = true ∨ Contains e "-2010" = true)
    (hre : GetOrder w configData 1 r.OrderID = (some final, none))
    (hfinal : final.Status = "FILLED")
    (hupd : w.UpdateOrder = none) (hdel : w.DeleteThreadTransactionByOrderID = none) :
    (SellTicker w (fuel + 9) xfuel order configData marketData sessionData).trace
      = [Event.SetBusy true,
         Event.SellOrder (Float64ToStr (getSellQuantity order sessionData) 6),
         Event.SaveOrder r.ClientOrderID r.CumulativeQuoteQuantity r.ExecutedQuantity
           r.OrderID marketData.Price r.Side r.Status r.Symbol r.TransactTime,
         Event.Sleep 2000,
         Event.GetOrder r.OrderID]
        ++ tickPasses configData 8
        ++ [Event.LoopPass,
            Event.CancelOrder r.OrderID,
            Event.GetOrder r.OrderID,
            Event.UpdateOrder r.OrderID final.CumulativeQuoteQuantity
              final.ExecutedQuantity marketData.Price "FILLED",
            Event.DeleteThreadTransactionByOrderID order.OrderID,
            Event.Logger { Order.zero with OrderID := r.OrderID, Price := marketData.Price,
                                           OrderIDSource := order.OrderID }
              "SELL" LogLevel.InfoLevel,
            Event.SetBusy false]
    ∧ (SellTicker w (fuel + 9) xfuel order configData marketData sessionData).trace.filter
        (isLog "CANCELED") = []
    ∧ (SellTicker w (fuel + 9) xfuel order configData marketData sessionData).outcome
        = Outcome.returned := by
  have hno : ∀ n, (tickPasses configData n).filter (isLog "CANCELED") = [] := by
    intro n
    induction n with
    | zero => rfl
    | succ n ih => simp [tickPasses, tickSleep, isLog, ih]
  rw [SellTicker_race w fuel xfuel order configData marketData sessionData r os final x e
    hdry hsell hr hsave hget hos hcancel hrace hre hupd hdel, hfinal]
  refine ⟨rfl, ?_, rfl⟩
  simp [List.filter_append, hno, isLog]

/-- Witness of C13: the sell of order 7 that is filled while the cancel request is under
way. -/
theorem C13_race_settles_filled_witness :
    (SellTicker lateFillWorld (0 + 9) 1 boughtOrder liveConfig { Price := F64.fin 40000 }
        liveSession).trace.filter (isLog "CANCELED") = []
    ∧ (SellTicker lateFillWorld (0 + 9) 1 boughtOrder liveConfig { Price := F64.fin 40000 }
        liveSession).outcome = Outcome.returned :=
  (C13_race_settles_filled lateFillWorld 0 1 boughtOrder liveConfig
    { Price := F64.fin 40000 } liveSession (orderWith "SELL" "NEW") (orderWith "SELL" "NEW")
    (orderWith "SELL" "FILLED") none "code=-2011, msg=Unknown order sent." rfl
    (by simp [SellOrder, liveConfig, ToLower_binance, lateFillWorld]) rfl rfl
    (by simp [GetOrder, liveConfig, ToLower_binance, lateFillWorld, orderWith])
    (Or.inl rfl)
    (by simp [CancelOrder, liveConfig, ToLower_binance, lateFillWorld])
    (Or.inl (by decide))
    (by simp [GetOrder, liveConfig, ToLower_binance, lateFillWorld, orderWith])
    rfl rfl rfl).2

/-- C11 fails on the code: the status is fetched once, before the loop, and not in the
iterations. With the submission answered NEW, the first status query NEW and every later
status query FILLED, the loop does not stop at the second query: it makes 8 passes without
a query, issues the cancel request in the 9th, and learns of the fill only from the re-fetch
after that request failed. And with the status query answered CANCELED the sell is not
marked canceled: the ThreadTransaction is deleted and SELL is logged. -/
theorem C11_status_fetched_once (fuel xfuel : Nat) :
    SellTicker lateFillWorld (fuel + 9) xfuel boughtOrder liveConfig
        { Price := F64.fin 40000 } liveSession
      = { trace :=
            [Event.SetBusy true,
             Event.SellOrder (Float64ToStr (getSellQuantity boughtOrder liveSession) 6),
             Event.SaveOrder "c7" (F64.fin 0) (F64.fin 0) 7 (F64.fin 40000) "SELL" "NEW"
               "BTCUSDT" 0,
             Event.Sleep 2000,
             Event.GetOrder 7]
            ++ tickPasses liveConfig 8
            ++ [Event.LoopPass,
                Event.CancelOrder 7,
                Event.GetOrder 7,
                Event.UpdateOrder 7 (F64.fin 0) (F64.fin 0) (F64.fin 40000) "FILLED",
                Event.DeleteThreadTransactionByOrderID 3,
                Event.Logger { Order.zero with OrderID := 7, Price := F64.fin 40000,
                                               OrderIDSource := 3 }
                  "SELL" LogLevel.InfoLevel,
                Event.SetBusy false],
          outcome := Outcome.returned,
          session := (liveSession.setBusy true).setBusy false }
    ∧ (SellTicker sellCanceledWorld (fuel + 1) xfuel boughtOrder liveConfig
        { Price := F64.fin 40000 } liveSession).trace
      = [Event.SetBusy true,
         Event.SellOrder (Float64ToStr (getSellQuantity boughtOrder liveSession) 6),
         Event.SaveOrder "c7" (F64.fin 0) (F64.fin 0) 7 (F64.fin 40000) "SELL" "NEW"
           "BTCUSDT" 0,
         Event.Sleep 2000,
         Event.GetOrder 7,
         Event.UpdateOrder 7 (F64.fin 0) (F64.fin 0) (F64.fin 40000) "CANCELED",
         Event.DeleteThreadTransactionByOrderID 3,
         Event.Logger { Order.zero with OrderID := 7, Price := F64.fin 40000,
                                        OrderIDSource := 3 } "SELL" LogLevel.InfoLevel,
         Event.SetBusy false] := by
  constructor
  · rw [SellTicker_race lateFillWorld fuel xfuel boughtOrder liveConfig
      { Price := F64.fin 40000 } liveSession (orderWith "SELL" "NEW") (orderWith "SELL" "NEW")
      (orderWith "SELL" "FILLED") none "code=-2011, msg=Unknown order sent." rfl
      (by simp [SellOrder, liveConfig, ToLower_binance, lateFillWorld]) rfl rfl
      (by simp [GetOrder, liveConfig, ToLower_binance, lateFillWorld, orderWith])
      (Or.inl rfl)
      (by simp [CancelOrder, liveConfig, ToLower_binance, lateFillWorld])
      (Or.inl (by decide))
      (by simp [GetOrder, liveConfig, ToLower_binance, lateFillWorld, orderWith])
      rfl rfl]
    simp [orderWith, Order.zero, boughtOrder]
  · rw [SellTicker_canceled_by_poll fuel xfuel]

theorem buyPoll_done (o : Order) (err : Option String) (fuel : Nat) (h : o.Status ≠ "NEW") :
    buyPoll (some o) err (fuel + 1) = ([], BuyPollExit.done) := by
  simp [buyPoll, h]

theorem buyPoll_error (e : String) (fuel : Nat) :
    buyPoll none (some e) (fuel + 1) = ([], BuyPollExit.breakS) := by
  simp [buyPoll]

/-- A buy submitted as NEW whose status query returns an order that is FILLED or
PARTIALLY_FILLED, the store succeeding. -/
theorem BuyTicker_polled_settled (w : World) (fuel xfuel : Nat) (quantity : F64)
    (configData : Config) (marketData : Market) (sessionData : Session) (r os : Order)
    (err : Option String)
    (hdry : configData.DryRun = false)
    (hbuy : (BuyOrder w configData
        (Float64ToStr (getBuyQuantity marketData sessionData quantity) 4)).1 = some r)
    (hr : r.Status = "NEW") (hsave : w.SaveOrder = none)
    (hget : GetOrder w configData 0 r.OrderID = (some os, err))
    (hos : os.Status = "FILLED" ∨ os.Status = "PARTIALLY_FILLED")
    (hupd : w.UpdateOrder = none) (htt : w.SaveThreadTransaction = none) :
    BuyTicker w (fuel + 1) xfuel quantity configData marketData sessionData
      = { trace :=
            [Event.SetBusy true,
             Event.BuyOrder (Float64ToStr (getBuyQuantity marketData sessionData quantity) 4),
             Event.SaveOrder r.ClientOrderID r.CumulativeQuoteQuantity r.ExecutedQuantity
               r.OrderID (submittedPrice r) r.Side r.Status r.Symbol r.TransactTime,
             Event.GetOrder r.OrderID,
             Event.UpdateOrder r.OrderID r.CumulativeQuoteQuantity r.ExecutedQuantity
               (F64.div os.CumulativeQuoteQuantity os.ExecutedQuantity) os.Status,
             Event.SaveThreadTransaction r.OrderID r.CumulativeQuoteQuantity
               (F64.div os.CumulativeQuoteQuantity os.ExecutedQuantity) os.ExecutedQuantity,
             Event.Logger
               { Order.zero with
                 OrderID := r.OrderID,
                 Price := F64.div os.CumulativeQuoteQuantity os.ExecutedQuantity }
               "BUY" LogLevel.InfoLevel,
             Event.SetBusy false],
          outcome := Outcome.returned,
          session := ((sessionData.setBusy true).setLastBuyTransactTime w.Now).setBusy false } := by
  have hnew : os.Status ≠ "NEW" := by rcases hos with h | h <;> rw [h] <;> decide
  have hp := buyPoll_done os err fuel hnew
  simp only [BuyTicker, withBusy, BuyTickerBody, hdry, getBuyQuantity_setBusy, hbuy, hsave,
    hget, hp, hupd, buySettle, htt]
  simp [hr, hos]

/-- A buy whose submission is answered FILLED or PARTIALLY_FILLED, the store succeeding. -/
theorem BuyTicker_submitted_settled (w : World) (fuel xfuel : Nat) (quantity : F64)
    (configData : Config) (marketData : Market) (sessionData : Session) (r : Order)
    (hdry : configData.DryRun = false)
    (hbuy : (BuyOrder w configData
        (Float64ToStr (getBuyQuantity marketData sessionData quantity) 4)).1 = some r)
    (hr : r.Status = "FILLED" ∨ r.Status = "PARTIALLY_FILLED") (hsave : w.SaveOrder = none)
    (htt : w.SaveThreadTransaction = none) :
    BuyTicker w fuel xfuel quantity configData marketData sessionData
      = { trace :=
            [Event.SetBusy true,
             Event.BuyOrder (Float64ToStr (getBuyQuantity marketData sessionData quantity) 4),
             Event.SaveOrder r.ClientOrderID r.CumulativeQuoteQuantity r.ExecutedQuantity
               r.OrderID (submittedPrice r) r.Side r.Status r.Symbol r.TransactTime,
             Event.SaveThreadTransaction r.OrderID r.CumulativeQuoteQuantity
               (submittedPrice r) r.ExecutedQuantity,
             Event.Logger { Order.zero with OrderID := r.OrderID, Price := submittedPrice r }
               "BUY" LogLevel.InfoLevel,
             Event.SetBusy false],
          outcome := Outcome.returned,
          session := ((sessionData.setBusy true).setLastBuyTransactTime w.Now).setBusy false } := by
  simp only [BuyTicker, withBusy, BuyTickerBody, hdry, getBuyQuantity_setBusy, hbuy, hsave,
    buySettle, htt]
  simp [hr]

theorem submittedPrice_fin (r : Order) (c e : ℚ) (hc : r.CumulativeQuoteQuantity = F64.fin c)
    (he : r.ExecutedQuantity = F64.fin e) : submittedPrice r = guardedQuotient c e := by
  unfold submittedPrice guardedQuotient
  rw [hc, he]
  by_cases h0 : e = 0
  · by_cases hc0 : c = 0
    · simp [F64.div, h0, hc0, mathIsNaN]
    · by_cases hpos : 0 < c <;> simp [F64.div, h0, hc0, hpos, mathIsNaN]
  · simp [F64.div, h0, mathIsNaN]

/-! ## The buy state machine: settlement -/

/-- C14 fails on the code: a buy answered NEW whose status query returns an adapter error
leaves the polling loop by `break S` with `isCanceled` still false, so `BuyTicker` settles
it with the values of the submission: it saves a ThreadTransaction (quote amount, price and
executed quantity all 0) and logs BUY. -/
theorem C14_poll_error_still_settles (fuel xfuel : Nat) :
    BuyTicker pollErrorWorld (fuel + 1) xfuel (F64.fin 50) liveConfig
        { Price := F64.fin 40000 } liveSession
      = { trace :=
            [Event.SetBusy true,
             Event.BuyOrder (Float64ToStr
               (getBuyQuantity { Price := F64.fin 40000 } liveSession (F64.fin 50)) 4),
             Event.SaveOrder "c7" (F64.fin 0) (F64.fin 0) 7 (F64.fin 0) "BUY" "NEW"
               "BTCUSDT" 0,
             Event.GetOrder 7,
             Event.SaveThreadTransaction 7 (F64.fin 0) (F64.fin 0) (F64.fin 0),
             Event.Logger { Order.zero with OrderID := 7 } "BUY" LogLevel.InfoLevel,
             Event.SetBusy false],
          outcome := Outcome.returned,
          session := ((liveSession.setBusy true).setLastBuyTransactTime 0).setBusy false } := by
  have hB : ∀ q, (BuyOrder pollErrorWorld liveConfig q).1 = some (orderWith "BUY" "NEW") := by
    intro q; simp [BuyOrder, liveConfig, ToLower_binance, pollErrorWorld]
  have hG : GetOrder pollErrorWorld liveConfig 0 7
      = (none, some "Get: context deadline exceeded") := by
    simp [GetOrder, liveConfig, ToLower_binance, pollErrorWorld]
  have hp : submittedPrice (orderWith "BUY" "NEW") = F64.fin 0 := by
    simp [submittedPrice, orderWith, Order.zero, F64.div, mathIsNaN]
  have hd : liveConfig.DryRun = false := rfl
  have hid : (orderWith "BUY" "NEW").OrderID = 7 := rfl
  simp only [BuyTicker, withBusy, BuyTickerBody, hd, hB, hp, getBuyQuantity_setBusy, hid, hG,
    buyPoll_error, buySettle]
  simp [orderWith, Order.zero, pollErrorWorld, quietWorld]

theorem BuyTicker_fillAfterPoll (fuel xfuel : Nat) :
    BuyTicker fillAfterPollWorld (fuel + 1) xfuel (F64.fin 50) liveConfig
        { Price := F64.fin 40000 } liveSession
      = { trace :=
            [Event.SetBusy true,
             Event.BuyOrder (Float64ToStr
               (getBuyQuantity { Price := F64.fin 40000 } liveSession (F64.fin 50)) 4),
             Event.SaveOrder "c7" (F64.fin 0) (F64.fin 0) 7 (F64.fin 0) "BUY" "NEW"
               "BTCUSDT" 0,
             Event.GetOrder 7,
             Event.UpdateOrder 7 (F64.fin 0) (F64.fin 0) (F64.fin 50000) "FILLED",
             Event.SaveThreadTransaction 7 (F64.fin 0) (F64.fin 50000) (F64.fin (1 / 100)),
             Event.Logger { Order.zero with OrderID := 7, Price := F64.fin 50000 }
               "BUY" LogLevel.InfoLevel,
             Event.SetBusy false],
          outcome := Outcome.returned,
          session := ((liveSession.setBusy true).setLastBuyTransactTime 0).setBusy false } := by
  have h := BuyTicker_polled_settled fillAfterPollWorld fuel xfuel (F64.fin 50) liveConfig
    { Price := F64.fin 40000 } liveSession (orderWith "BUY" "NEW") filledOrder none rfl
    (by simp [BuyOrder, liveConfig, ToLower_binance, fillAfterPollWorld]) rfl rfl
    (by simp [GetOrder, liveConfig, ToLower_binance, fillAfterPollWorld, orderWith])
    (Or.inl rfl) rfl rfl
  rw [h]
  have hp : submittedPrice (orderWith "BUY" "NEW") = F64.fin 0 := by
    simp [submittedPrice, orderWith, Order.zero, F64.div, mathIsNaN]
  have hq : F64.div filledOrder.CumulativeQuoteQuantity filledOrder.ExecutedQuantity
      = F64.fin 50000 := by
    simp [filledOrder, F64.div]; norm_num
  rw [hp, hq]
  simp [orderWith, Order.zero, filledOrder, fillAfterPollWorld, quietWorld]

/-- C16 fails on the code: a buy answered NEW and then observed FILLED with executed quantity
`0.01` and cumulative quote `500` is persisted with the quantities of the submission:
`UpdateOrder` receives cumulative quote `0` and executed quantity `0` (with the final price
`50000` and status FILLED), and the ThreadTransaction is saved with quote amount `0` (price
`50000`, executed quantity `0.01`). -/
theorem C16_settlement_keeps_submitted_quantities (fuel xfuel : Nat) :
    (BuyTicker fillAfterPollWorld (fuel + 1) xfuel (F64.fin 50) liveConfig
        { Price := F64.fin 40000 } liveSession).trace
      = [Event.SetBusy true,
         Event.BuyOrder (Float64ToStr
           (getBuyQuantity { Price := F64.fin 40000 } liveSession (F64.fin 50)) 4),
         Event.SaveOrder "c7" (F64.fin 0) (F64.fin 0) 7 (F64.fin 0) "BUY" "NEW" "BTCUSDT" 0,
         Event.GetOrder 7,
         Event.UpdateOrder 7 (F64.fin 0) (F64.fin 0) (F64.fin 50000) "FILLED",
         Event.SaveThreadTransaction 7 (F64.fin 0) (F64.fin 50000) (F64.fin (1 / 100)),
         Event.Logger { Order.zero with OrderID := 7, Price := F64.fin 50000 }
           "BUY" LogLevel.InfoLevel,
         Event.SetBusy false]
    ∧ (GetOrder fillAfterPollWorld liveConfig 0 7).1.map Order.CumulativeQuoteQuantity
        = some (F64.fin 500)
    ∧ (GetOrder fillAfterPollWorld liveConfig 0 7).1.map Order.ExecutedQuantity
        = some (F64.fin (1 / 100)) := by
  refine ⟨by rw [BuyTicker_fillAfterPoll], ?_, ?_⟩ <;>
  simp [GetOrder, liveConfig, ToLower_binance, fillAfterPollWorld, quietWorld, filledOrder]


/-- C17: with dry-run off, if the buy submission returns NEW and the status query returns
FILLED with executed quantity `0.01` and cumulative quote `500` (the store succeeding),
`BuyTicker` returns, the effective price it computes is `50000`, the one ThreadTransaction
it saves carries price `50000` and executed quantity `0.01`, and it logs exactly one BUY
event and no CANCELED event. -/
theorem C17_scenario_A (w : World) (fuel xfuel : Nat) (quantity : F64)
    (configData : Config) (marketData : Market) (sessionData : Session) (r os : Order)
    (err : Option String)
    (hdry : configData.DryRun = false)
    (hbuy : (BuyOrder w configData
        (Float64ToStr (getBuyQuantity marketData sessionData quantity) 4)).1 = some r)
    (hr : r.Status = "NEW") (hsave : w.SaveOrder = none)
    (hget : GetOrder w configData 0 r.OrderID = (some os, err))
    (hos : os.Status = "FILLED")
    (hexec : os.ExecutedQuantity = F64.fin (1 / 100))
    (hcum : os.CumulativeQuoteQuantity = F64.fin 500)
    (hupd : w.UpdateOrder = none) (htt : w.SaveThreadTransaction = none) :
    (BuyTicker w (fuel + 1) xfuel quantity configData marketData sessionData).outcome
      = Outcome.returned
    ∧ (BuyTicker w (fuel + 1) xfuel quantity configData marketData sessionData).trace.filter
        isThreadTransaction
      = [Event.SaveThreadTransaction r.OrderID r.CumulativeQuoteQuantity (F64.fin 50000)
          (F64.fin (1 / 100))]
    ∧ (BuyTicker w (fuel + 1) xfuel quantity configData marketData sessionData).trace.filter
        (isLog "BUY")
      = [Event.Logger { Order.zero with OrderID := r.OrderID, Price := F64.fin 50000 }
          "BUY" LogLevel.InfoLevel]
    ∧ (BuyTicker w (fuel + 1) xfuel quantity configData marketData sessionData).trace.filter
        (isLog "CANCELED") = [] := by
  have hq : F64.div os.CumulativeQuoteQuantity os.ExecutedQuantity = F64.fin 50000 := by
    rw [hcum, hexec]; simp [F64.div]; norm_num
  rw [BuyTicker_polled_settled w fuel xfuel quantity configData marketData sessionData r os err
    hdry hbuy hr hsave hget (Or.inl hos) hupd htt, hq, hexec]
  simp [isThreadTransaction, isLog]

/-- Witness of C17: the buy of order 7, answered NEW and then FILLED. -/
theorem C17_scenario_A_witness :
    (BuyTicker fillAfterPollWorld (0 + 1) 1 (F64.fin 50) liveConfig { Price := F64.fin 40000 }
        liveSession).outcome = Outcome.returned
    ∧ (BuyTicker fillAfterPollWorld (0 + 1) 1 (F64.fin 50) liveConfig
        { Price := F64.fin 40000 } liveSession).trace.filter isThreadTransaction
      = [Event.SaveThreadTransaction (orderWith "BUY" "NEW").OrderID
          (orderWith "BUY" "NEW").CumulativeQuoteQuantity (F64.fin 50000) (F64.fin (1 / 100))]
    ∧ (BuyTicker fillAfterPollWorld (0 + 1) 1 (F64.fin 50) liveConfig
        { Price := F64.fin 40000 } liveSession).trace.filter (isLog "BUY")
      = [Event.Logger { Order.zero with OrderID := (orderWith "BUY" "NEW").OrderID,
                                        Price := F64.fin 50000 }
          "BUY" LogLevel.InfoLevel]
    ∧ (BuyTicker fillAfterPollWorld (0 + 1) 1 (F64.fin 50) liveConfig
        { Price := F64.fin 40000 } liveSession).trace.filter (isLog "CANCELED") = [] :=
  C17_scenario_A fillAfterPollWorld 0 1 (F64.fin 50) liveConfig { Price := F64.fin 40000 }
    liveSession (orderWith "BUY" "NEW") filledOrder none rfl
    (by simp [BuyOrder, liveConfig, ToLower_binance, fillAfterPollWorld]) rfl rfl
    (by simp [GetOrder, liveConfig, ToLower_binance, fillAfterPollWorld, orderWith])
    rfl rfl rfl rfl rfl

/-- C15, as amended: for a buy that `BuyTicker` settles with the store succeeding, on the
path where the submission is answered FILLED or PARTIALLY_FILLED with cumulative quote `c`
and executed quantity `e`, the price it records (in `SaveOrder`, in the ThreadTransaction
and in the BUY event) is `c / e` when `e` is not 0, `0` when `c` and `e` are both 0, and
`+Inf` or `-Inf` when `e` is 0 and `c` is not; on the path that polled from NEW and observed
FILLED or PARTIALLY_FILLED with cumulative quote `c` and executed quantity `e` not 0, the
price it records (in `UpdateOrder`, in the ThreadTransaction and in the BUY event) is
`c / e`. -/
theorem C15_effective_price (w : World) (fuel xfuel : Nat) (quantity : F64)
    (configData : Config) (marketData : Market) (sessionData : Session) (r os : Order)
    (err : Option String) (c e : ℚ)
    (hdry : configData.DryRun = false)
    (hbuy : (BuyOrder w configData
        (Float64ToStr (getBuyQuantity marketData sessionData quantity) 4)).1 = some r)
    (hsave : w.SaveOrder = none) (hupd : w.UpdateOrder = none)
    (htt : w.SaveThreadTransaction = none) :
    ((r.Status = "FILLED" ∨ r.Status = "PARTIALLY_FILLED") →
      r.CumulativeQuoteQuantity = F64.fin c → r.ExecutedQuantity = F64.fin e →
      (BuyTicker w fuel xfuel quantity configData marketData sessionData).trace
        = [Event.SetBusy true,
           Event.BuyOrder (Float64ToStr (getBuyQuantity marketData sessionData quantity) 4),
           Event.SaveOrder r.ClientOrderID (F64.fin c) (F64.fin e) r.OrderID
             (guardedQuotient c e) r.Side r.Status r.Symbol r.TransactTime,
           Event.SaveThreadTransaction r.OrderID (F64.fin c) (guardedQuotient c e) (F64.fin e),
           Event.Logger { Order.zero with OrderID := r.OrderID, Price := guardedQuotient c e }
             "BUY" LogLevel.InfoLevel,
           Event.SetBusy false])
    ∧ (r.Status = "NEW" → GetOrder w configData 0 r.OrderID = (some os, err) →
      (os.Status = "FILLED" ∨ os.Status = "PARTIALLY_FILLED") →
      os.CumulativeQuoteQuantity = F64.fin c → os.ExecutedQuantity = F64.fin e → e ≠ 0 →
      (BuyTicker w (fuel + 1) xfuel quantity configData marketData sessionData).trace
        = [Event.SetBusy true,
           Event.BuyOrder (Float64ToStr (getBuyQuantity marketData sessionData quantity) 4),
           Event.SaveOrder r.ClientOrderID r.CumulativeQuoteQuantity r.ExecutedQuantity
             r.OrderID (submittedPrice r) r.Side r.Status r.Symbol r.TransactTime,
           Event.GetOrder r.OrderID,
           Event.UpdateOrder r.OrderID r.CumulativeQuoteQuantity r.ExecutedQuantity
             (F64.fin (c / e)) os.Status,
           Event.SaveThreadTransaction r.OrderID r.CumulativeQuoteQuantity (F64.fin (c / e))
             (F64.fin e),
           Event.Logger { Order.zero with OrderID := r.OrderID, Price := F64.fin (c / e) }
             "BUY" LogLevel.InfoLevel,
           Event.SetBusy false]) := by
  constructor
  · intro hr hc he
    rw [BuyTicker_submitted_settled w fuel xfuel quantity configData marketData sessionData r
      hdry hbuy hr hsave htt, submittedPrice_fin r c e hc he, hc, he]
  · intro hr hget hos hc he h0
    have hq : F64.div os.CumulativeQuoteQuantity os.ExecutedQuantity = F64.fin (c / e) := by
      rw [hc, he]; simp [F64.div, h0]
    rw [BuyTicker_polled_settled w fuel xfuel quantity configData marketData sessionData r os
      err hdry hbuy hr hsave hget hos hupd htt, hq, he]


/-- Witness of C15 as amended: a submission answered FILLED with cumulative quote `500` and
executed quantity `0` records `+Inf`; a buy that polled from NEW and observed cumulative
quote `500` for executed quantity `0.01` records `500 / 0.01`. -/
theorem C15_effective_price_witness :
    (BuyTicker zeroExecutedWorld 1 1 (F64.fin 50) liveConfig { Price := F64.fin 40000 }
        liveSession).trace
      = [Event.SetBusy true,
         Event.BuyOrder (Float64ToStr
           (getBuyQuantity { Price := F64.fin 40000 } liveSession (F64.fin 50)) 4),
         Event.SaveOrder "c7" (F64.fin 500) (F64.fin 0) 7 (guardedQuotient 500 0) "BUY"
           "FILLED" "BTCUSDT" 0,
         Event.SaveThreadTransaction 7 (F64.fin 500) (guardedQuotient 500 0) (F64.fin 0),
         Event.Logger { Order.zero with OrderID := 7, Price := guardedQuotient 500 0 }
           "BUY" LogLevel.InfoLevel,
         Event.SetBusy false]
    ∧ (BuyTicker fillAfterPollWorld (0 + 1) 1 (F64.fin 50) liveConfig
        { Price := F64.fin 40000 } liveSession).trace
      = [Event.SetBusy true,
         Event.BuyOrder (Float64ToStr
           (getBuyQuantity { Price := F64.fin 40000 } liveSession (F64.fin 50)) 4),
         Event.SaveOrder "c7" (F64.fin 0) (F64.fin 0) 7
           (submittedPrice (orderWith "BUY" "NEW")) "BUY" "NEW" "BTCUSDT" 0,
         Event.GetOrder 7,
         Event.UpdateOrder 7 (F64.fin 0) (F64.fin 0) (F64.fin (500 / (1 / 100))) "FILLED",
         Event.SaveThreadTransaction 7 (F64.fin 0) (F64.fin (500 / (1 / 100)))
           (F64.fin (1 / 100)),
         Event.Logger { Order.zero with OrderID := 7, Price := F64.fin (500 / (1 / 100)) }
           "BUY" LogLevel.InfoLevel,
         Event.SetBusy false] :=
  ⟨(C15_effective_price zeroExecutedWorld 1 1 (F64.fin 50) liveConfig
      { Price := F64.fin 40000 } liveSession
      { orderWith "BUY" "FILLED" with CumulativeQuoteQuantity := F64.fin 500 } Order.zero none
      500 0 rfl (by simp [BuyOrder, liveConfig, ToLower_binance, zeroExecutedWorld])
      rfl rfl rfl).1 (Or.inl rfl) rfl rfl,
   (C15_effective_price fillAfterPollWorld 0 1 (F64.fin 50) liveConfig
      { Price := F64.fin 40000 } liveSession (orderWith "BUY" "NEW") filledOrder none
      500 (1 / 100) rfl (by simp [BuyOrder, liveConfig, ToLower_binance, fillAfterPollWorld])
      rfl rfl rfl).2 rfl
      (by simp [GetOrder, liveConfig, ToLower_binance, fillAfterPollWorld, orderWith])
      (Or.inl rfl) rfl rfl (by norm_num)⟩

/-- C15 as stated fails: a submission answered FILLED with cumulative quote `500` and
executed quantity `0` has the non-finite quotient `+Inf`; the guard of `BuyTicker` tests
`math.IsNaN` only, so the price recorded in the ThreadTransaction and in the BUY event is
`+Inf`, not `0`. -/
theorem C15_infinite_price_counterexample :
    (BuyTicker zeroExecutedWorld 1 1 (F64.fin 50) liveConfig { Price := F64.fin 40000 }
        liveSession).trace
      = [Event.SetBusy true,
         Event.BuyOrder (Float64ToStr
           (getBuyQuantity { Price := F64.fin 40000 } liveSession (F64.fin 50)) 4),
         Event.SaveOrder "c7" (F64.fin 500) (F64.fin 0) 7 F64.posInf "BUY" "FILLED"
           "BTCUSDT" 0,
         Event.SaveThreadTransaction 7 (F64.fin 500) F64.posInf (F64.fin 0),
         Event.Logger { Order.zero with OrderID := 7, Price := F64.posInf }
           "BUY" LogLevel.InfoLevel,
         Event.SetBusy false]
    ∧ F64.posInf ≠ F64.fin 0 := by
  refine ⟨?_, by decide⟩
  rw [BuyTicker_submitted_settled zeroExecutedWorld 1 1 (F64.fin 50) liveConfig
    { Price := F64.fin 40000 } liveSession
    { orderWith "BUY" "FILLED" with CumulativeQuoteQuantity := F64.fin 500 } rfl
    (by simp [BuyOrder, liveConfig, ToLower_binance, zeroExecutedWorld]) (Or.inl rfl) rfl rfl,
    submittedPrice_fin _ 500 0 rfl rfl]
  simp [guardedQuotient, orderWith, Order.zero]

/-! ## Dry run -/

/-- C18: with `DryRun` configured, `BuyTicker` and `SellTicker` return after the two writes
of `Busy` and nothing else (no exchange call, no store call, no log entry), and the session
they leave is the one they were given with `Busy` false: every other field is unchanged. -/
theorem C18_dry_run (w : World) (fuel xfuel : Nat) (quantity : F64) (order : Order)
    (configData : Config) (marketData : Market) (sessionData : Session)
    (hdry : configData.DryRun = true) :
    BuyTicker w fuel xfuel quantity configData marketData sessionData
      = { trace := [Event.SetBusy true, Event.SetBusy false], outcome := Outcome.returned,
          session := { sessionData with Busy := false } }
    ∧ SellTicker w fuel xfuel order configData marketData sessionData
      = { trace := [Event.SetBusy true, Event.SetBusy false], outcome := Outcome.returned,
          session := { sessionData with Busy := false } } := by
  constructor
  · simp [BuyTicker, withBusy, BuyTickerBody, hdry, Session.setBusy]
  · simp [SellTicker, withBusy, SellTickerBody, hdry, Session.setBusy]

/-- Witness of C18: the dry-run configuration, in a world in which a live buy would be
answered and its write to the store would fail. -/
theorem C18_dry_run_witness :
    BuyTicker saveFailsWorld 1 1 (F64.fin 50) dryConfig { Price := F64.fin 40000 } liveSession
      = { trace := [Event.SetBusy true, Event.SetBusy false], outcome := Outcome.returned,
          session := { liveSession with Busy := false } }
    ∧ SellTicker saveFailsWorld 1 1 boughtOrder dryConfig { Price := F64.fin 40000 }
        liveSession
      = { trace := [Event.SetBusy true, Event.SetBusy false], outcome := Outcome.returned,
          session := { liveSession with Busy := false } } :=
  C18_dry_run saveFailsWorld 1 1 (F64.fin 50) boughtOrder dryConfig
    { Price := F64.fin 40000 } liveSession rfl

/-! ## Master election -/

theorem ageSeconds_stale (now t : Int) :
    100 < ageSeconds now t ↔ 101000000000 ≤ now - t := by
  unfold ageSeconds
  by_cases h : 0 ≤ now - t
  · rw [Int.tdiv_eq_ediv h (by norm_num)]
    omega
  · have hneg : (now - t).tdiv 1000000000 ≤ 0 := by
      have h1 : 0 ≤ (-(now - t)).tdiv 1000000000 :=
        Int.tdiv_nonneg (by omega) (by norm_num)
      rw [Int.neg_tdiv] at h1
      omega
    omega

theorem GetRole_slave_present (now t : Int) (c : Config) (s : Session)
    (hnet : c.TestNet = false) (hs : s.MasterNode = false) :
    GetRole noFaults now c (some t) s
      = if 101000000000 ≤ now - t then (s.setMasterNode false, none, [])
        else (s.setMasterNode false, some t, []) := by
  have hst := ageSeconds_stale now t
  unfold GetRole
  by_cases h : 101000000000 ≤ now - t
  · simp [hnet, hs, osStat, noFaults, osRemove, roleLog, hst.mpr h, h]
  · have h2 : ¬ 100 < ageSeconds now t := fun hh => h (hst.mp hh)
    simp [hnet, hs, osStat, noFaults, h2, h]

/-- C19: one `GetRole` call, the `os` calls behaving. With `TestNet` set, `MasterNode`
becomes false and `master.lock` is untouched. Otherwise: a Master stays Master and the file,
if it exists, gets the current time as modification time (nothing else changes); a Slave
that finds the file with an age of at most 100 s stays Slave and leaves it untouched; a
Slave that finds it with an age of 101 s or more deletes it and stays Slave; a Slave that
finds no file creates it and becomes Master. -/
theorem C19_role_transition (now t : Int) (configData : Config) (lock : Option Int)
    (sessionData : Session) :
    (configData.TestNet = true →
      GetRole noFaults now configData lock sessionData
        = (sessionData.setMasterNode false, lock, []))
    ∧ (configData.TestNet = false → sessionData.MasterNode = true →
      (GetRole noFaults now configData lock sessionData).1 = sessionData
      ∧ (GetRole noFaults now configData lock sessionData).2.1 = lock.map (fun _ => now))
    ∧ (configData.TestNet = false → sessionData.MasterNode = false →
      now - t ≤ 100000000000 →
      GetRole noFaults now configData (some t) sessionData
        = (sessionData.setMasterNode false, some t, []))
    ∧ (configData.TestNet = false → sessionData.MasterNode = false →
      101000000000 ≤ now - t →
      GetRole noFaults now configData (some t) sessionData
        = (sessionData.setMasterNode false, none, []))
    ∧ (configData.TestNet = false → sessionData.MasterNode = false →
      GetRole noFaults now configData none sessionData
        = (sessionData.setMasterNode true, some now, [])) := by
  refine ⟨?_, ?_, ?_, ?_, ?_⟩
  · intro hnet
    simp [GetRole, hnet]
  · intro hnet hs
    cases lock <;> simp [GetRole, hnet, hs, osChtimes, noFaults]
  · intro hnet hs hage
    rw [GetRole_slave_present now t configData sessionData hnet hs, if_neg (by omega)]
  · intro hnet hs hage
    rw [GetRole_slave_present now t configData sessionData hnet hs, if_pos hage]
  · intro hnet hs
    simp [GetRole, hnet, hs, osStat, osCreate, noFaults, roleLog]

/-- Witness of C19: the five transitions at the time 200 s, for a file last modified at
150 s (fresh) or at 50 s (stale). -/
theorem C19_role_transition_witness :
    GetRole noFaults 200000000000 testNetConfig (some 150000000000) masterSession
        = (masterSession.setMasterNode false, some 150000000000, [])
    ∧ ((GetRole noFaults 200000000000 liveConfig (some 150000000000) masterSession).1
          = masterSession
        ∧ (GetRole noFaults 200000000000 liveConfig (some 150000000000) masterSession).2.1
          = (some 150000000000).map (fun _ => 200000000000))
    ∧ GetRole noFaults 200000000000 liveConfig (some 150000000000) slaveSession
        = (slaveSession.setMasterNode false, some 150000000000, [])
    ∧ GetRole noFaults 200000000000 liveConfig (some 50000000000) slaveSession
        = (slaveSession.setMasterNode false, none, [])
    ∧ GetRole noFaults 200000000000 liveConfig none slaveSession
        = (slaveSession.setMasterNode true, some 200000000000, []) :=
  ⟨(C19_role_transition 200000000000 150000000000 testNetConfig (some 150000000000)
      masterSession).1 rfl,
   (C19_role_transition 200000000000 150000000000 liveConfig (some 150000000000)
      masterSession).2.1 rfl rfl,
   (C19_role_transition 200000000000 150000000000 liveConfig none
      slaveSession).2.2.1 rfl rfl (by norm_num),
   (C19_role_transition 200000000000 50000000000 liveConfig none
      slaveSession).2.2.2.1 rfl rfl (by norm_num),
   (C19_role_transition 200000000000 0 liveConfig none slaveSession).2.2.2.2 rfl rfl⟩

/-- C20, as amended: a Slave's `GetRole` call (outside the test network, the `os` calls
behaving) deletes `master.lock` exactly when the whole seconds of its age exceed 100, that
is, when the age is 101 s or more; for every age below 101 s (100.5 s for example) the file
is kept. -/
theorem C20_stale_from_101_seconds (now t : Int) (configData : Config) (sessionData : Session)
    (hnet : configData.TestNet = false) (hs : sessionData.MasterNode = false) :
    ((GetRole noFaults now configData (some t) sessionData).2.1 = none
        ↔ 101000000000 ≤ now - t)
    ∧ ((GetRole noFaults now configData (some t) sessionData).2.1 = some t
        ↔ now - t < 101000000000) := by
  rw [GetRole_slave_present now t configData sessionData hnet hs]
  by_cases h : 101000000000 ≤ now - t
  · simp [h]
  · simp [h]; omega

/-- Witness of C20 as amended: a file of age 101 s is deleted and a file of age 100.5 s is
kept. -/
theorem C20_stale_from_101_seconds_witness :
    (GetRole noFaults 101000000000 liveConfig (some 0) slaveSession).2.1 = none
    ∧ (GetRole noFaults 100500000000 liveConfig (some 0) slaveSession).2.1 = some 0 :=
  ⟨(C20_stale_from_101_seconds 101000000000 0 liveConfig slaveSession rfl rfl).1.mpr
      (by norm_num),
   (C20_stale_from_101_seconds 100500000000 0 liveConfig slaveSession rfl rfl).2.mpr
      (by norm_num)⟩

/-- C20 as stated fails: a Slave that finds `master.lock` with an age of 100.5 s, which is
strictly above 100 s, keeps it, because the age is compared after its fraction is cut
off. -/
theorem C20_age_100_5_counterexample :
    GetRole noFaults 100500000000 liveConfig (some 0) slaveSession
      = (slaveSession.setMasterNode false, some 0, [])
    ∧ (100000000000 : Int) < 100500000000 - 0 := by
  refine ⟨?_, by norm_num⟩
  rw [GetRole_slave_present 100500000000 0 liveConfig slaveSession rfl rfl, if_neg (by norm_num)]

/-! ## Master election: two processes, failing creation, periodic checks -/

theorem setMasterNode_MasterNode (s : Session) (b : Bool) :
    (s.setMasterNode b).MasterNode = b := rfl

theorem setMasterNode_self (s : Session) (b : Bool) (h : s.MasterNode = b) :
    s.setMasterNode b = s := by
  cases s
  simp only [Session.setMasterNode] at *
  simp [h]

theorem GetRole_slave_absent (now : Int) (c : Config) (s : Session)
    (hnet : c.TestNet = false) (hs : s.MasterNode = false) :
    GetRole noFaults now c none s = (s.setMasterNode true, some now, []) := by
  simp [GetRole, hnet, hs, osStat, noFaults, osCreate, roleLog]

theorem GetRole_master (now : Int) (c : Config) (s : Session) (t : Int)
    (hnet : c.TestNet = false) (hs : s.MasterNode = true) :
    GetRole noFaults now c (some t) s = (s, some now, []) := by
  simp [GetRole, hnet, hs, noFaults, osChtimes, roleLog]

theorem Cluster.Safe_call (c : Cluster) (who : Bool) (now : Int) (h : c.Safe)
    (ht : c.reclaimsFromMaster who now = false) : (c.call who now).Safe := by
  obtain ⟨hA, hB, hl, hm⟩ := h
  obtain ⟨cA, cB, sA, sB, lock⟩ := c
  simp only at hA hB hl hm
  cases who
  · -- the second process calls
    simp only [Cluster.call, Bool.false_eq_true, if_false]
    cases hb : sB.MasterNode
    · cases lock with
      | none =>
        rw [GetRole_slave_absent now cB sB hB hb]
        refine ⟨hA, hB, fun _ => by simp, ?_⟩
        rintro ⟨ha, _⟩
        exact hl (Or.inl ha) rfl
      | some t =>
        rw [GetRole_slave_present now t cB sB hB hb]
        by_cases hst : 101000000000 ≤ now - t
        · have hage := (ageSeconds_stale now t).mpr hst
          have ha : sA.MasterNode = false := by
            cases ha : sA.MasterNode
            · rfl
            · simp [Cluster.reclaimsFromMaster, hage, hb, ha] at ht
          simp only [hst, if_true]
          refine ⟨hA, hB, ?_, ?_⟩
          · simp [ha, setMasterNode_MasterNode]
          · simp [ha]
        · simp only [hst, if_false]
          refine ⟨hA, hB, fun _ => by simp, ?_⟩
          simp [setMasterNode_MasterNode]
    · have hlock : lock ≠ none := hl (Or.inr hb)
      obtain ⟨t, rfl⟩ := Option.ne_none_iff_exists'.mp hlock
      rw [GetRole_master now cB sB t hB hb]
      exact ⟨hA, hB, fun _ => by simp, hm⟩
  · -- the first process calls
    simp only [Cluster.call, if_true]
    cases ha : sA.MasterNode
    · cases lock with
      | none =>
        rw [GetRole_slave_absent now cA sA hA ha]
        refine ⟨hA, hB, fun _ => by simp, ?_⟩
        rintro ⟨_, hb⟩
        exact hl (Or.inr hb) rfl
      | some t =>
        rw [GetRole_slave_present now t cA sA hA ha]
        by_cases hst : 101000000000 ≤ now - t
        · have hage := (ageSeconds_stale now t).mpr hst
          have hb : sB.MasterNode = false := by
            cases hb : sB.MasterNode
            · rfl
            · simp [Cluster.reclaimsFromMaster, hage, hb, ha] at ht
          simp only [hst, if_true]
          refine ⟨hA, hB, ?_, ?_⟩
          · simp [hb, setMasterNode_MasterNode]
          · simp [hb]
        · simp only [hst, if_false]
          refine ⟨hA, hB, fun _ => by simp, ?_⟩
          simp [setMasterNode_MasterNode]
    · have hlock : lock ≠ none := hl (Or.inl ha)
      obtain ⟨t, rfl⟩ := Option.ne_none_iff_exists'.mp hlock
      rw [GetRole_master now cA sA t hA ha]
      exact ⟨hA, hB, fun _ => by simp, hm⟩

theorem Cluster.Safe_run (sched : List (Bool × Int)) :
    ∀ c : Cluster, c.Safe → c.timely sched = true → (c.run sched).Safe := by
  induction sched with
  | nil => intro c h _; exact h
  | cons x rest ih =>
    intro c h ht
    obtain ⟨who, now⟩ := x
    simp only [Cluster.timely, Bool.and_eq_true, Bool.not_eq_true'] at ht
    exact ih _ (Cluster.Safe_call c who now h ht.1) ht.2

/-- C21, the counterexample: the first process becomes Master at time 0 and does not call
`GetRole` again for 161 s; the second finds the file 101 s old and removes it, and 60 s
later finds no file, creates it and becomes Master. Both are Master. -/
theorem C21_two_masters_counterexample :
    (twoSlaves.run
          [(true, 0), (false, 101000000000), (false, 161000000000)]).sessionA.MasterNode
        = true
      ∧ (twoSlaves.run
          [(true, 0), (false, 101000000000), (false, 161000000000)]).sessionB.MasterNode
        = true := by
  have h1 : twoSlaves.call true 0
      = { twoSlaves with sessionA := slaveSession.setMasterNode true, lock := some 0 } := by
    simp only [Cluster.call, if_true, twoSlaves]
    rw [GetRole_slave_absent 0 liveConfig slaveSession rfl rfl]
  have h2 : ({ twoSlaves with sessionA := slaveSession.setMasterNode true,
                              lock := some 0 } : Cluster).call false 101000000000
      = { twoSlaves with sessionA := slaveSession.setMasterNode true,
                         sessionB := slaveSession.setMasterNode false, lock := none } := by
    simp only [Cluster.call, Bool.false_eq_true, if_false, twoSlaves]
    rw [GetRole_slave_present 101000000000 0 liveConfig slaveSession rfl rfl]
    simp
  have h3 : ({ twoSlaves with sessionA := slaveSession.setMasterNode true,
                              sessionB := slaveSession.setMasterNode false,
                              lock := none } : Cluster).call false 161000000000
      = { twoSlaves with sessionA := slaveSession.setMasterNode true,
                         sessionB := (slaveSession.setMasterNode false).setMasterNode true,
                         lock := some 161000000000 } := by
    simp only [Cluster.call, Bool.false_eq_true, if_false, twoSlaves]
    rw [GetRole_slave_absent 161000000000 liveConfig _ rfl rfl]
  simp only [Cluster.run, h1, h2, h3]
  exact ⟨rfl, rfl⟩

/-- C21, as amended: two processes outside the test network share `master.lock` and both
start as Slave, whatever the state of the file; their `GetRole` calls are interleaved in any
order and at any times, each call atomic and the `os` calls behaving. If no call is made by a
Slave that finds the file 101 s old or more while the other process is Master, then in the
state reached the two processes are not both Master. -/
theorem C21_at_most_one_master (c : Cluster) (sched : List (Bool × Int))
    (hA : c.configA.TestNet = false) (hB : c.configB.TestNet = false)
    (ha : c.sessionA.MasterNode = false) (hb : c.sessionB.MasterNode = false)
    (ht : c.timely sched = true) :
    ¬ ((c.run sched).sessionA.MasterNode = true ∧ (c.run sched).sessionB.MasterNode = true) :=
  (Cluster.Safe_run sched c ⟨hA, hB, by simp [ha, hb], by simp [ha]⟩ ht).2.2.2

/-- Witness of C21 as amended: the first process becomes Master at 0 s and refreshes at 60 s,
the second checks at 50 s and 110 s and finds the file fresh both times; the schedule is
timely and the two are not both Master. -/
theorem C21_at_most_one_master_witness :
    twoSlaves.timely [(true, 0), (false, 50000000000), (true, 60000000000),
        (false, 110000000000)] = true
      ∧ ¬ ((twoSlaves.run [(true, 0), (false, 50000000000), (true, 60000000000),
              (false, 110000000000)]).sessionA.MasterNode = true
          ∧ (twoSlaves.run [(true, 0), (false, 50000000000), (true, 60000000000),
              (false, 110000000000)]).sessionB.MasterNode = true) :=
  have h : twoSlaves.timely [(true, 0), (false, 50000000000), (true, 60000000000),
      (false, 110000000000)] = true := by
    have e1 : twoSlaves.call true 0
        = { twoSlaves with sessionA := slaveSession.setMasterNode true, lock := some 0 } := by
      simp only [Cluster.call, if_true, twoSlaves]
      rw [GetRole_slave_absent 0 liveConfig slaveSession rfl rfl]
    have e2 : ({ twoSlaves with sessionA := slaveSession.setMasterNode true,
                                lock := some 0 } : Cluster).call false 50000000000
        = { twoSlaves with sessionA := slaveSession.setMasterNode true,
                           sessionB := slaveSession.setMasterNode false, lock := some 0 } := by
      simp only [Cluster.call, Bool.false_eq_true, if_false, twoSlaves]
      rw [GetRole_slave_present 50000000000 0 liveConfig slaveSession rfl rfl]
      simp
    have e3 : ({ twoSlaves with sessionA := slaveSession.setMasterNode true,
                                sessionB := slaveSession.setMasterNode false,
                                lock := some 0 } : Cluster).call true 60000000000
        = { twoSlaves with sessionA := slaveSession.setMasterNode true,
                           sessionB := slaveSession.setMasterNode false,
                           lock := some 60000000000 } := by
      simp only [Cluster.call, if_true, twoSlaves]
      rw [GetRole_master 60000000000 liveConfig _ 0 rfl rfl]
    have a1 : ¬ (100 < ageSeconds 50000000000 0) := by
      rw [ageSeconds_stale]; norm_num
    have a2 : ¬ (100 < ageSeconds 110000000000 60000000000) := by
      rw [ageSeconds_stale]; norm_num
    simp only [Cluster.timely, e1, e2, e3]
    simp [Cluster.reclaimsFromMaster, twoSlaves, a1, a2, setMasterNode_MasterNode]
  ⟨h, C21_at_most_one_master twoSlaves _ rfl rfl rfl rfl h⟩

/-- C29: a Slave outside the test network calls `GetRole` while `master.lock` does not exist
and `os.Create` fails with the error `e`. The error is logged, `MasterNode` changes from
false to true, and the file does not exist after the call. -/
theorem C29_master_without_artifact (e : String) (now : Int) :
    slaveSession.MasterNode = false
      ∧ GetRole { noFaults with Create := some e } now liveConfig none slaveSession
        = (slaveSession.setMasterNode true, none,
           [Event.Logger Order.zero ("cryptopump/node.GetRole - " ++ e) LogLevel.DebugLevel]) := by
  refine ⟨rfl, ?_⟩
  simp [GetRole, liveConfig, slaveSession, osStat, noFaults, osCreate, roleLog]

theorem roleChecks_fresh (c : Config) (hnet : c.TestNet = false) (t : Int) (k : Nat) :
    ∀ (start : Int) (s : Session), s.MasterNode = false →
      (∀ i : Nat, i < k → start + 60000000000 * i - t < 101000000000) →
      roleChecks noFaults c k start (some t) s = (s, some t) := by
  induction k with
  | zero => intro start s _ _; rfl
  | succ k ih =>
    intro start s hs hf
    have h0 := hf 0 (by omega)
    simp only [Nat.cast_zero, mul_zero, add_zero] at h0
    simp only [roleChecks]
    rw [GetRole_slave_present start t c s hnet hs, if_neg (by omega)]
    simp only [setMasterNode_self s false hs]
    apply ih (start + 60000000000) s hs
    intro i hi
    have := hf (i + 1) (by omega)
    push_cast at this
    linarith

theorem roleChecks_add (f : OsFaults) (c : Config) (k : Nat) :
    ∀ (n : Nat) (start : Int) (lock : Option Int) (s : Session),
      roleChecks f c (k + n) start lock s
        = roleChecks f c n (start + 60000000000 * k)
            (roleChecks f c k start lock s).2 (roleChecks f c k start lock s).1 := by
  induction k with
  | zero => intro n start lock s; simp [roleChecks]
  | succ k ih =>
    intro n start lock s
    rw [show k + 1 + n = (k + n) + 1 by omega]
    simp only [roleChecks]
    rw [ih]
    congr 1
    push_cast
    ring

/-- C22, the counterexample: the file was last refreshed at time 0 and the Slave checks at
50 s, 110 s and 170 s. The age exceeds 100 s from 100 s on. The check at 110 s, the first
that finds the file more than 100 s old, leaves the Slave a Slave and removes the file, so
that the Slave is not Master 60 s after the age exceeded 100 s; it is Master after the check
at 170 s. -/
theorem C22_first_stale_check_counterexample :
    roleChecks noFaults liveConfig 1 50000000000 (some 0) slaveSession
        = (slaveSession, some 0)
      ∧ (roleChecks noFaults liveConfig 2 50000000000 (some 0) slaveSession).1.MasterNode
        = false
      ∧ (roleChecks noFaults liveConfig 2 50000000000 (some 0) slaveSession).2 = none
      ∧ (roleChecks noFaults liveConfig 3 50000000000 (some 0) slaveSession).1.MasterNode
        = true := by
  have e1 : GetRole noFaults 50000000000 liveConfig (some 0) slaveSession
      = (slaveSession, some 0, []) := by
    rw [GetRole_slave_present 50000000000 0 liveConfig slaveSession rfl rfl]
    simp [setMasterNode_self slaveSession false rfl]
  have e2 : GetRole noFaults (50000000000 + 60000000000) liveConfig (some 0) slaveSession
      = (slaveSession, none, []) := by
    rw [GetRole_slave_present _ 0 liveConfig slaveSession rfl rfl]
    simp [setMasterNode_self slaveSession false rfl]
  have e3 : GetRole noFaults (50000000000 + 60000000000 + 60000000000) liveConfig none
      slaveSession = (slaveSession.setMasterNode true, some 170000000000, []) := by
    rw [GetRole_slave_absent _ liveConfig slaveSession rfl rfl]
    norm_num
  simp only [roleChecks, e1, e2, e3]
  refine ⟨?_, ?_, ?_, ?_⟩ <;> trivial

/-- C22, as amended: a Slave outside the test network checks its role at time `start` and
then every 60 s, the `os` calls behave, and nobody refreshes `master.lock`, last modified at
time `t`. If check number `k` (from 0) is the first that finds the file 101 s old or more,
that check removes the file and leaves the Slave a Slave; the next check, 60 s later, creates
the file and leaves the Slave as Master. When an earlier check found the file fresh
(`0 < k`), the Slave is Master less than two intervals (120 s) after the age of the file
reached 101 s. -/
theorem C22_master_at_second_check (c : Config) (s : Session) (t start : Int) (k : Nat)
    (hnet : c.TestNet = false) (hs : s.MasterNode = false)
    (hfresh : ∀ i : Nat, i < k → start + 60000000000 * i - t < 101000000000)
    (hstale : 101000000000 ≤ start + 60000000000 * k - t) :
    (roleChecks noFaults c (k + 1) start (some t) s).1.MasterNode = false
      ∧ (roleChecks noFaults c (k + 1) start (some t) s).2 = none
      ∧ (roleChecks noFaults c (k + 2) start (some t) s).1.MasterNode = true
      ∧ (roleChecks noFaults c (k + 2) start (some t) s).2
          = some (start + 60000000000 * (k + 1))
      ∧ (0 < k → start + 60000000000 * (k + 1) - (t + 101000000000) < 120000000000) := by
  have hk := roleChecks_fresh c hnet t k start s hs hfresh
  have h1 : roleChecks noFaults c (k + 1) start (some t) s = (s, none) := by
    rw [roleChecks_add, hk]
    simp only [roleChecks]
    rw [GetRole_slave_present _ t c s hnet hs, if_pos hstale]
    simp [setMasterNode_self s false hs]
  have h2 : roleChecks noFaults c (k + 2) start (some t) s
      = (s.setMasterNode true, some (start + 60000000000 * (k + 1))) := by
    rw [show k + 2 = (k + 1) + 1 by rfl, roleChecks_add, h1]
    simp only [roleChecks]
    rw [GetRole_slave_absent _ c s hnet hs]
    push_cast
    rfl
  rw [h1, h2]
  refine ⟨hs, rfl, rfl, rfl, ?_⟩
  intro hpos
  have := hfresh (k - 1) (by omega)
  have hc : ((k - 1 : Nat) : Int) = (k : Int) - 1 := by omega
  rw [hc] at this
  linarith

/-- Witness of C22 as amended: the file was last refreshed at 0 s and the Slave checks at
50 s, 110 s and 170 s; the check at 110 s is the first that finds it stale (`k = 1`). -/
theorem C22_master_at_second_check_witness :
    (roleChecks noFaults liveConfig 2 50000000000 (some 0) slaveSession).1.MasterNode = false
      ∧ (roleChecks noFaults liveConfig 3 50000000000 (some 0) slaveSession).1.MasterNode
          = true
      ∧ (roleChecks noFaults liveConfig 3 50000000000 (some 0) slaveSession).2
          = some (50000000000 + 60000000000 * ((1 : Nat) + 1)) :=
  have h := C22_master_at_second_check liveConfig slaveSession 0 50000000000 1 rfl rfl
    (by intro i hi; interval_cases i; norm_num) (by norm_num)
  ⟨h.1, h.2.2.1, h.2.2.2.1⟩

/-! ## Identity resolution -/

theorem LockThreadID_true (f : OsFaults) (files : List String) (threadID : String)
    (h : (LockThreadID f files threadID).1 = true) :
    (threadID ++ ".lock") ∉ files
      ∧ (LockThreadID f files threadID).2 = (threadID ++ ".lock") :: files := by
  unfold LockThreadID at h ⊢
  dsimp only at h ⊢
  cases hs : f.Stat with
  | some e => simp [hs] at h
  | none =>
    by_cases hm : (threadID ++ ".lock") ∈ files
    · simp [hs, hm] at h
    · cases hc : f.Create with
      | some e => simp [hs, hm, hc] at h
      | none => simp [hm]

theorem LockThreadID_exists (f : OsFaults) (files : List String) (threadID : String)
    (h : (threadID ++ ".lock") ∈ files) :
    LockThreadID f files threadID = (false, files) := by
  unfold LockThreadID
  dsimp only
  cases f.Stat <;> simp [h]

theorem resolveIdentity_resume (env : Startup) (w : World) (f : OsFaults) (xfuel : Nat)
    (files : List String) (configData : Config) (sessionData : Session) (fiat : String)
    (hid : env.GetThreadTransactionDistinct.1 ≠ "") (hnew : configData.NewSession = false)
    (hsym : env.GetOrderSymbol (sessionData.setThreadID env.GetThreadTransactionDistinct.1)
      ≠ "")
    (hfiat : sliceString
      (env.GetOrderSymbol (sessionData.setThreadID env.GetThreadTransactionDistinct.1)) 3 7
        = some fiat) :
    resolveIdentity env w f xfuel files configData sessionData
      = { trace := [Event.Logger Order.zero "Resuming" LogLevel.InfoLevel],
          outcome := Outcome.returned,
          session :=
            (((sessionData.setThreadID env.GetThreadTransactionDistinct.1).setSymbol
              (env.GetOrderSymbol
                (sessionData.setThreadID env.GetThreadTransactionDistinct.1))).setSymbolFiat
              fiat),
          config := env.GetConfigData
            (sessionData.setThreadID env.GetThreadTransactionDistinct.1),
          files := files, lockCalls := [] } := by
  unfold resolveIdentity
  have h1 : (sessionData.setThreadID env.GetThreadTransactionDistinct.1).ThreadID
      = env.GetThreadTransactionDistinct.1 := rfl
  have h2 : ∀ (s : Session) (x : String), (s.setSymbol x).Symbol = x := fun _ _ => rfl
  simp only [h1, h2, ne_eq, hid, not_false_eq_true, hnew, and_self, if_true, hsym, if_false,
    hfiat]

theorem resolveIdentity_short (env : Startup) (w : World) (f : OsFaults) (xfuel : Nat)
    (files : List String) (configData : Config) (sessionData : Session)
    (hid : env.GetThreadTransactionDistinct.1 ≠ "") (hnew : configData.NewSession = false)
    (hsym : env.GetOrderSymbol (sessionData.setThreadID env.GetThreadTransactionDistinct.1)
      ≠ "")
    (hfiat : sliceString
      (env.GetOrderSymbol (sessionData.setThreadID env.GetThreadTransactionDistinct.1)) 3 7
        = none) :
    (resolveIdentity env w f xfuel files configData sessionData).outcome
      = Outcome.panicked := by
  unfold resolveIdentity
  have h1 : (sessionData.setThreadID env.GetThreadTransactionDistinct.1).ThreadID
      = env.GetThreadTransactionDistinct.1 := rfl
  have h2 : ∀ (s : Session) (x : String), (s.setSymbol x).Symbol = x := fun _ _ => rfl
  simp only [h1, h2, ne_eq, hid, not_false_eq_true, hnew, and_self, if_true, hsym, if_false,
    hfiat]

theorem resolveIdentity_fresh (env : Startup) (w : World) (f : OsFaults) (xfuel : Nat)
    (files : List String) (configData : Config) (sessionData : Session)
    (h : env.GetThreadTransactionDistinct.1 = "" ∨ configData.NewSession = true) :
    resolveIdentity env w f xfuel files configData sessionData
      = if (LockThreadID f files env.GetThreadID).1 = false then
          { trace := [Event.Exit 1], outcome := Outcome.exited 1,
            session := (sessionData.setThreadID
              env.GetThreadTransactionDistinct.1).setThreadID env.GetThreadID,
            config := configData, files := (LockThreadID f files env.GetThreadID).2,
            lockCalls := [(env.GetThreadID, false)] }
        else
          { trace := [Event.Logger Order.zero "Initializing" LogLevel.InfoLevel],
            outcome := Outcome.returned,
            session := ((((sessionData.setThreadID
              env.GetThreadTransactionDistinct.1).setThreadID env.GetThreadID).setSymbol
                configData.Symbol).setSymbolFiat configData.SymbolFiat),
            config := configData, files := (LockThreadID f files env.GetThreadID).2,
            lockCalls := [(env.GetThreadID, true)] } := by
  unfold resolveIdentity
  have h1 : ∀ (s : Session) (x : String), (s.setThreadID x).ThreadID = x := fun _ _ => rfl
  have hc : ¬ (env.GetThreadTransactionDistinct.1 ≠ "" ∧ configData.NewSession = false) := by
    rintro ⟨a, b⟩
    rcases h with h | h
    · exact a h
    · rw [h] at b; exact Bool.noConfusion b
  simp only [h1, hc, if_false]

theorem sliceString_long (s : String) (h : 7 ≤ s.data.length) :
    sliceString s 3 7 = some (String.mk ((s.data.drop 3).take 4)) := by
  unfold sliceString
  rw [if_pos ⟨by omega, h⟩]

theorem sliceString_short (s : String) (h : s.data.length < 7) :
    sliceString s 3 7 = none := by
  unfold sliceString
  rw [if_neg (fun hh => by omega)]

theorem ne_empty_of_length (s : String) (h : 0 < s.data.length) : s ≠ "" := by
  rintro rfl
  simp at h

/-- C24, the counterexample: the store holds the identity `abc` with the symbol BTCUSDT,
`NewSession` is not set and the working directory holds no file. `execution` goes on with
the ThreadID `abc`; `LockThreadID` was not called, and the file `abc.lock` does not exist. -/
theorem C24_resume_without_lock_counterexample :
    (resolveIdentity (storedIdentity "BTCUSDT") quietWorld noFaults 1 [] liveConfig
        Session.zero).outcome = Outcome.returned
    ∧ (resolveIdentity (storedIdentity "BTCUSDT") quietWorld noFaults 1 [] liveConfig
        Session.zero).session.ThreadID = "abc"
    ∧ (resolveIdentity (storedIdentity "BTCUSDT") quietWorld noFaults 1 [] liveConfig
        Session.zero).lockCalls = []
    ∧ "abc.lock" ∉ (resolveIdentity (storedIdentity "BTCUSDT") quietWorld noFaults 1 []
        liveConfig Session.zero).files := by
  rw [resolveIdentity_resume (storedIdentity "BTCUSDT") quietWorld noFaults 1 [] liveConfig
    Session.zero "USDT" (by decide) rfl (by decide) (by decide)]
  exact ⟨rfl, rfl, rfl, by simp⟩

/-- C24, as amended: on the fresh path (no stored identity, or `NewSession` set), when
`execution` goes on after the identity resolution, `LockThreadID` was called once, for the
ThreadID of the session, and returned true: the file `<ThreadID>.lock` did not exist before
and exists afterwards; and when that file already exists the process exits with code 1 and
no file is changed. On the resumed path `LockThreadID` is not called, and when `execution`
goes on no file has been created or removed. -/
theorem C24_lock_on_fresh_path (env : Startup) (w : World) (f : OsFaults) (xfuel : Nat)
    (files : List String) (configData : Config) (sessionData : Session) :
    ((env.GetThreadTransactionDistinct.1 = "" ∨ configData.NewSession = true) →
      ((resolveIdentity env w f xfuel files configData sessionData).outcome
          = Outcome.returned →
        (resolveIdentity env w f xfuel files configData sessionData).lockCalls
            = [((resolveIdentity env w f xfuel files configData sessionData).session.ThreadID,
                true)]
        ∧ ((resolveIdentity env w f xfuel files configData sessionData).session.ThreadID
            ++ ".lock") ∉ files
        ∧ ((resolveIdentity env w f xfuel files configData sessionData).session.ThreadID
            ++ ".lock")
            ∈ (resolveIdentity env w f xfuel files configData sessionData).files)
      ∧ ((env.GetThreadID ++ ".lock") ∈ files →
        (resolveIdentity env w f xfuel files configData sessionData).outcome
            = Outcome.exited 1
        ∧ (resolveIdentity env w f xfuel files configData sessionData).files = files))
    ∧ (env.GetThreadTransactionDistinct.1 ≠ "" → configData.NewSession = false →
      (resolveIdentity env w f xfuel files configData sessionData).lockCalls = []
      ∧ ((resolveIdentity env w f xfuel files configData sessionData).outcome
          = Outcome.returned →
        (resolveIdentity env w f xfuel files configData sessionData).files = files)) := by
  constructor
  · intro h
    rw [resolveIdentity_fresh env w f xfuel files configData sessionData h]
    constructor
    · cases hl : (LockThreadID f files env.GetThreadID).1
      · simp
      · obtain ⟨hn, he⟩ := LockThreadID_true f files env.GetThreadID hl
        simp only [Bool.true_eq_false, if_false]
        intro _
        refine ⟨rfl, hn, ?_⟩
        rw [he]
        exact List.mem_cons_self _ _
    · intro hex
      rw [LockThreadID_exists f files env.GetThreadID hex]
      simp
  · intro hid hnew
    unfold resolveIdentity
    have h1 : (sessionData.setThreadID env.GetThreadTransactionDistinct.1).ThreadID
        = env.GetThreadTransactionDistinct.1 := rfl
    simp only [h1, ne_eq, hid, not_false_eq_true, hnew, and_self, if_true]
    split
    · have ho := ExitThreadID_outcome w
        (fun _ => ((sessionData.setThreadID env.GetThreadTransactionDistinct.1).setSymbol
          (env.GetOrderSymbol
            (sessionData.setThreadID env.GetThreadTransactionDistinct.1))).Busy)
        ((sessionData.setThreadID env.GetThreadTransactionDistinct.1).setSymbol
          (env.GetOrderSymbol (sessionData.setThreadID env.GetThreadTransactionDistinct.1)))
        xfuel
      refine ⟨rfl, fun hr => ?_⟩
      exact absurd hr ho.2
    · split
      · exact ⟨rfl, fun _ => rfl⟩
      · exact ⟨rfl, fun _ => rfl⟩

/-- Witness of C24 as amended: an empty store with an empty working directory, an empty
store with the lock file already there, and a store that holds the identity `abc`. -/
theorem C24_lock_on_fresh_path_witness :
    ((resolveIdentity emptyStore quietWorld noFaults 1 [] liveConfig
        Session.zero).lockCalls = [("c0ffee", true)]
      ∧ "c0ffee.lock" ∈ (resolveIdentity emptyStore quietWorld noFaults 1 [] liveConfig
          Session.zero).files)
    ∧ (resolveIdentity emptyStore quietWorld noFaults 1 ["c0ffee.lock"] liveConfig
        Session.zero).outcome = Outcome.exited 1
    ∧ (resolveIdentity (storedIdentity "BTCUSDT") quietWorld noFaults 1 [] liveConfig
        Session.zero).lockCalls = [] :=
  have e : (resolveIdentity emptyStore quietWorld noFaults 1 [] liveConfig
      Session.zero).session.ThreadID = "c0ffee" := by
    rw [resolveIdentity_fresh emptyStore quietWorld noFaults 1 [] liveConfig Session.zero
      (Or.inl rfl)]
    rfl
  have o : (resolveIdentity emptyStore quietWorld noFaults 1 [] liveConfig
      Session.zero).outcome = Outcome.returned := by
    rw [resolveIdentity_fresh emptyStore quietWorld noFaults 1 [] liveConfig Session.zero
      (Or.inl rfl)]
    rfl
  have h1 := ((C24_lock_on_fresh_path emptyStore quietWorld noFaults 1 [] liveConfig
    Session.zero).1 (Or.inl rfl)).1 o
  have h2 := ((C24_lock_on_fresh_path emptyStore quietWorld noFaults 1 ["c0ffee.lock"]
    liveConfig Session.zero).1 (Or.inl rfl)).2 (by decide)
  have h3 := (C24_lock_on_fresh_path (storedIdentity "BTCUSDT") quietWorld noFaults 1 []
    liveConfig Session.zero).2 (by decide) rfl
  ⟨⟨by rw [e] at h1; exact h1.1, by rw [e] at h1; exact h1.2.2⟩, h2.1, h3.1⟩

/-- C30: on the resume path (a non-empty stored ThreadID, `NewSession` not set), with a
non-empty stored symbol. If the symbol has at least 7 characters, `SymbolFiat` is its 4
characters at offsets 3 to 6. If it has fewer than 7 characters, the slice expression
`sessionData.Symbol[3:7]` faults and `execution` ends in a run-time panic. -/
theorem C30_short_symbol_panics (env : Startup) (w : World) (f : OsFaults) (xfuel : Nat)
    (files : List String) (configData : Config) (sessionData : Session)
    (hid : env.GetThreadTransactionDistinct.1 ≠ "") (hnew : configData.NewSession = false)
    (hsym : env.GetOrderSymbol (sessionData.setThreadID env.GetThreadTransactionDistinct.1)
      ≠ "") :
    (7 ≤ (env.GetOrderSymbol
        (sessionData.setThreadID env.GetThreadTransactionDistinct.1)).data.length →
      (resolveIdentity env w f xfuel files configData sessionData).session.SymbolFiat
        = String.mk (((env.GetOrderSymbol
            (sessionData.setThreadID env.GetThreadTransactionDistinct.1)).data.drop 3).take 4))
    ∧ ((env.GetOrderSymbol
        (sessionData.setThreadID env.GetThreadTransactionDistinct.1)).data.length < 7 →
      (resolveIdentity env w f xfuel files configData sessionData).outcome
        = Outcome.panicked) := by
  constructor
  · intro hlen
    rw [resolveIdentity_resume env w f xfuel files configData sessionData _ hid hnew hsym
      (sliceString_long _ hlen)]
    rfl
  · intro hlen
    exact resolveIdentity_short env w f xfuel files configData sessionData hid hnew hsym
      (sliceString_short _ hlen)

/-- Witness of C30: the stored symbol ETHBTC (6 characters) ends in the panic, and the stored
symbol BTCUSDT gives the fiat symbol USDT. -/
theorem C30_short_symbol_panics_witness :
    (resolveIdentity (storedIdentity "ETHBTC") quietWorld noFaults 1 [] liveConfig
        Session.zero).outcome = Outcome.panicked
    ∧ (resolveIdentity (storedIdentity "BTCUSDT") quietWorld noFaults 1 [] liveConfig
        Session.zero).session.SymbolFiat = "USDT" :=
  ⟨(C30_short_symbol_panics (storedIdentity "ETHBTC") quietWorld noFaults 1 [] liveConfig
      Session.zero (by decide) rfl (by decide)).2 (by decide),
   (C30_short_symbol_panics (storedIdentity "BTCUSDT") quietWorld noFaults 1 [] liveConfig
      Session.zero (by decide) rfl (by decide)).1 (by decide)⟩

/-! ## The exclusivity flag on entry -/

theorem setBusy_setBusy (s : Session) (a b : Bool) : (s.setBusy a).setBusy b = s.setBusy b :=
  rfl

theorem withBusy_entry (body : Session → Run) (s : Session) (b : Bool) :
    withBusy body (s.setBusy b) = withBusy body (s.setBusy false) := by
  unfold withBusy
  simp only [setBusy_setBusy]

/-- C25, the counterexample: `BuyTicker` and `SellTicker` are entered with `Busy` already
true and dry-run off. Each sets `Busy` to true again and submits its order to the exchange
as its first call: nothing is waited for and no read of the flag precedes the submission. -/
theorem C25_busy_on_entry_counterexample :
    (liveSession.setBusy true).Busy = true
    ∧ [Event.SetBusy true,
       Event.BuyOrder (Float64ToStr
         (getBuyQuantity { Price := F64.fin 40000 } (liveSession.setBusy true) (F64.fin 100)) 4)]
        <+: (BuyTicker quietWorld 0 0 (F64.fin 100) liveConfig { Price := F64.fin 40000 }
              (liveSession.setBusy true)).trace
    ∧ [Event.SetBusy true,
       Event.SellOrder (Float64ToStr (getSellQuantity boughtOrder (liveSession.setBusy true)) 6)]
        <+: (SellTicker quietWorld 0 0 boughtOrder liveConfig { Price := F64.fin 40000 }
              (liveSession.setBusy true)).trace :=
  ⟨rfl,
   BuyTicker_starts quietWorld 0 0 (F64.fin 100) liveConfig { Price := F64.fin 40000 }
     (liveSession.setBusy true) rfl,
   SellTicker_starts quietWorld 0 0 boughtOrder liveConfig { Price := F64.fin 40000 }
     (liveSession.setBusy true) rfl⟩

/-- C25, as amended: `BuyTicker` and `SellTicker` do not read `Busy` on entry. Entered with
`Busy` already true they run exactly as when entered with `Busy` false: the same calls, the
same outcome, the same session afterwards; and with dry-run off the run starts by setting
`Busy` to true and submitting the order to the exchange. -/
theorem C25_entry_ignores_busy (w : World) (fuel xfuel : Nat) (quantity : F64) (order : Order)
    (configData : Config) (marketData : Market) (sessionData : Session) :
    BuyTicker w fuel xfuel quantity configData marketData (sessionData.setBusy true)
        = BuyTicker w fuel xfuel quantity configData marketData (sessionData.setBusy false)
    ∧ SellTicker w fuel xfuel order configData marketData (sessionData.setBusy true)
        = SellTicker w fuel xfuel order configData marketData (sessionData.setBusy false)
    ∧ (configData.DryRun = false →
        [Event.SetBusy true,
         Event.BuyOrder (Float64ToStr
           (getBuyQuantity marketData (sessionData.setBusy true) quantity) 4)]
          <+: (BuyTicker w fuel xfuel quantity configData marketData
                (sessionData.setBusy true)).trace
        ∧ [Event.SetBusy true,
           Event.SellOrder (Float64ToStr
             (getSellQuantity order (sessionData.setBusy true)) 6)]
          <+: (SellTicker w fuel xfuel order configData marketData
                (sessionData.setBusy true)).trace) :=
  ⟨withBusy_entry _ sessionData true, withBusy_entry _ sessionData true,
   fun hdry =>
    ⟨BuyTicker_starts w fuel xfuel quantity configData marketData (sessionData.setBusy true)
       hdry,
     SellTicker_starts w fuel xfuel order configData marketData (sessionData.setBusy true)
       hdry⟩⟩

/-- Witness of C25 as amended: a buy that is answered NEW and filled at the second status
query, entered with `Busy` true and with `Busy` false. -/
theorem C25_entry_ignores_busy_witness :
    liveConfig.DryRun = false
    ∧ BuyTicker slowFillWorld 5 1 (F64.fin 100) liveConfig { Price := F64.fin 40000 }
          (liveSession.setBusy true)
        = BuyTicker slowFillWorld 5 1 (F64.fin 100) liveConfig { Price := F64.fin 40000 }
          (liveSession.setBusy false)
    ∧ [Event.SetBusy true,
       Event.BuyOrder (Float64ToStr
         (getBuyQuantity { Price := F64.fin 40000 } (liveSession.setBusy true) (F64.fin 100)) 4)]
        <+: (BuyTicker slowFillWorld 5 1 (F64.fin 100) liveConfig { Price := F64.fin 40000 }
              (liveSession.setBusy true)).trace :=
  ⟨rfl,
   (C25_entry_ignores_busy slowFillWorld 5 1 (F64.fin 100) boughtOrder liveConfig
      { Price := F64.fin 40000 } liveSession).1,
   ((C25_entry_ignores_busy slowFillWorld 5 1 (F64.fin 100) boughtOrder liveConfig
      { Price := F64.fin 40000 } liveSession).2.2 rfl).1⟩

/-! ## The wait before the cancel request -/

theorem sleptMillis_tickPasses (c : Config) (n : Nat) :
    sleptMillis (tickPasses c n) = n * (Int.tdiv c.SellWaitBeforeCancel 10 * 1000) := by
  induction n with
  | zero => simp [tickPasses, sleptMillis]
  | succ n ih =>
    simp only [tickPasses, tickSleep, sleptMillis, ih]
    push_cast
    ring

/-- C26: with `SellWaitBeforeCancel = 100`, a sell answered NEW whose status stays NEW is
cancelled at the start of the 9th pass of the reconciliation loop, after 8 passes that each
slept 10 s: 80 s are slept inside the loop before the cancel request, not 100 s. For every
configuration the 8 passes before the cancel request sleep 8 times the whole seconds of
`SellWaitBeforeCancel / 10`. -/
theorem C26_cancel_after_eight_ticks (c : Config) :
    liveConfig.SellWaitBeforeCancel = 100
    ∧ (SellTicker sellTimesOutWorld 9 1 boughtOrder liveConfig { Price := F64.fin 40000 }
        liveSession).trace
      = [Event.SetBusy true,
         Event.SellOrder (Float64ToStr (getSellQuantity boughtOrder liveSession) 6),
         Event.SaveOrder "c7" (F64.fin 0) (F64.fin 0) 7 (F64.fin 40000) "SELL" "NEW"
           "BTCUSDT" 0,
         Event.Sleep 2000,
         Event.GetOrder 7]
        ++ tickPasses liveConfig 8
        ++ [Event.LoopPass,
            Event.CancelOrder 7,
            Event.GetOrder 7,
            Event.UpdateOrder 7 (F64.fin 0) (F64.fin 0) (F64.fin 40000) "NEW",
            Event.Logger { Order.zero with OrderID := 7, Price := F64.fin 40000,
                                           OrderIDSource := 3 }
              "CANCELED" LogLevel.InfoLevel,
            Event.SetBusy false]
    ∧ (tickPasses liveConfig 8 ++ [Event.LoopPass]).count Event.LoopPass = 9
    ∧ tickSleep liveConfig = Event.Sleep 10000
    ∧ sleptMillis (tickPasses liveConfig 8 ++ [Event.LoopPass]) = 80000
    ∧ sleptMillis (tickPasses c 8)
        = 8 * (Int.tdiv c.SellWaitBeforeCancel 10 * 1000) := by
  have hd : Int.tdiv 100 10 = 10 := by decide
  refine ⟨rfl, ?_, ?_, ?_, ?_, ?_⟩
  · rw [SellTicker_timesOut]
  · rw [List.count_append, tickPasses_count]
    rfl
  · simp [tickSleep, liveConfig, hd]
  · simp [tickPasses, tickSleep, sleptMillis, liveConfig, hd]
  · exact sleptMillis_tickPasses c 8

/-! ## The join barrier of the main loop -/

/-- C27: a pass of the main loop starts four tasks and sets the counter of the wait group to
3. If every task signals the barrier when it returns, `wg.Wait()` returns as soon as any
three of them have returned, with the fourth still running, and the signal of the fourth
drives the counter below zero. Whichever of the four tasks signal the barrier, there is a
set of returned tasks for which `wg.Wait()` returning and all four tasks having returned do
not coincide. -/
theorem C27_barrier_counts_three (signals : Goroutine → Bool) (t : Goroutine) :
    launched.length = 4
    ∧ barrierCounter signals [] = some 3
    ∧ waitReturns (barrierCounter (fun _ => true) (launched.erase t)) = true
    ∧ barrierCounter (fun _ => true) (launched.erase t ++ [t]) = none
    ∧ ∃ returned : List Goroutine, returned.Nodup
        ∧ ¬ (waitReturns (barrierCounter signals returned) = true
              ↔ ∀ g ∈ launched, g ∈ returned) := by
  refine ⟨rfl, by simp [barrierCounter, counterAfter, wgAdd], ?_, ?_, ?_⟩
  · cases t <;> simp [launched, barrierCounter, counterAfter, wgAdd, wgDone, waitReturns]
  · cases t <;> simp [launched, barrierCounter, counterAfter, wgAdd, wgDone]
  · cases h1 : signals Goroutine.CheckUpdates <;> cases h2 : signals Goroutine.WsKline <;>
      cases h3 : signals Goroutine.WsUserDataServe <;>
      cases h4 : signals Goroutine.WsBookTicker
    all_goals first
      | (refine ⟨[Goroutine.CheckUpdates, Goroutine.WsKline, Goroutine.WsUserDataServe],
          by decide, ?_⟩
         simp [launched, barrierCounter, counterAfter, wgAdd, wgDone, waitReturns, h1, h2, h3,
           h4]
         done)
      | (refine ⟨[Goroutine.CheckUpdates, Goroutine.WsKline, Goroutine.WsBookTicker],
          by decide, ?_⟩
         simp [launched, barrierCounter, counterAfter, wgAdd, wgDone, waitReturns, h1, h2, h3,
           h4]
         done)
      | (refine ⟨[Goroutine.CheckUpdates, Goroutine.WsUserDataServe, Goroutine.WsBookTicker],
          by decide, ?_⟩
         simp [launched, barrierCounter, counterAfter, wgAdd, wgDone, waitReturns, h1, h2, h3,
           h4]
         done)
      | (refine ⟨[Goroutine.WsKline, Goroutine.WsUserDataServe, Goroutine.WsBookTicker],
          by decide, ?_⟩
         simp [launched, barrierCounter, counterAfter, wgAdd, wgDone, waitReturns, h1, h2, h3,
           h4]
         done)
      | (refine ⟨launched, by decide, ?_⟩
         simp [launched, barrierCounter, counterAfter, wgAdd, wgDone, waitReturns, h1, h2, h3,
           h4])

/-! ## Logging on the error paths -/

/-- C28: with the log file opened, `Logger` called at level Debug with a nil `Session` ends
in a nil dereference, whatever the other fields. This is the entry the error paths of
`stringToTime`, `ExecuteTemplate`, `DeleteConfigFile`, `GetConfigData` and
`LoadConfigTemplate` build: `stringToTime` on a string that does not parse and
`DeleteConfigFile` on a failing removal panic instead of returning. -/
theorem C28_debug_entry_nil_session (configData : Option Config) (marketData : Option Market)
    (order : Option Order) (message fn err : String) (t : Int) (sessionData : Session) :
    Logger none { Config := configData, Market := marketData, Session := none, Order := order,
                  Message := message, LogLevel := LogLevel.DebugLevel }
        = ([], Outcome.panicked)
    ∧ Logger none (errorEntry fn err) = ([], Outcome.panicked)
    ∧ stringToTime none (t, some err) = Except.error Outcome.panicked
    ∧ DeleteConfigFile none (some err) sessionData = Outcome.panicked := by
  refine ⟨?_, ?_, ?_, ?_⟩
  · simp [Logger]
  · simp [Logger, errorEntry]
  · simp [stringToTime, Logger, errorEntry]
  · simp [DeleteConfigFile, Logger, errorEntry]

/-! ## Quantity correction on float64 -/

theorem Int_log_two_eq (q : ℚ) (k : ℤ) (hq : 0 < q) (h1 : (2 : ℚ) ^ k ≤ q)
    (h2 : q < (2 : ℚ) ^ (k + 1)) : Int.log 2 q = k := by
  have hb : 1 < (2 : ℕ) := by norm_num
  have a1 : k ≤ Int.log 2 q := by
    rw [← Int.zpow_le_iff_le_log hb hq]
    exact_mod_cast h1
  have a2 : Int.log 2 q < k + 1 := by
    rw [← Int.lt_zpow_iff_log_lt hb hq]
    exact_mod_cast h2
  omega

theorem huge_pos : (0 : ℚ) < F64.huge := by
  unfold F64.huge
  exact pow_pos (by norm_num) 1024

theorem lt_huge (v : ℚ) (h : v < 2 ^ 64) : v < F64.huge := by
  unfold F64.huge
  exact lt_of_lt_of_le h (pow_le_pow_right₀ (by norm_num) (by norm_num))

/-- The float64 nearest to a positive number `q` of the normal range: with
`2^k ≤ q < 2^(k+1)`, it is `n * 2^(k-52)` for the integer `n` nearest to `q / 2^(k-52)`,
ties to even. -/
theorem nearest_eq (q : ℚ) (k n : ℤ) (hq : 0 < q) (h1 : (2 : ℚ) ^ k ≤ q)
    (h2 : q < (2 : ℚ) ^ (k + 1)) (hk : -1022 ≤ k)
    (hn : roundHalfEven (q / 2 ^ (k - 52)) = n)
    (hov : (n : ℚ) * 2 ^ (k - 52) < F64.huge) (hpos : 0 ≤ n) :
    F64.nearest q = F64.fin (n * 2 ^ (k - 52)) := by
  have hu : F64.ulpExp q = k - 52 := by
    unfold F64.ulpExp
    rw [abs_of_pos hq, Int_log_two_eq q k hq h1 h2]
    omega
  unfold F64.nearest
  simp only [hu, hn]
  have hnn : (0 : ℚ) ≤ (n : ℚ) * 2 ^ (k - 52) := by
    have : (0 : ℚ) ≤ (n : ℚ) := by exact_mod_cast hpos
    positivity
  rw [if_neg (not_le.mpr hov), if_neg]
  intro h
  exact not_lt.mpr (hnn.trans h) (neg_neg_of_pos huge_pos)

theorem getSellQuantity64_fin (order : Order) (sessionData : Session) (x s t : ℚ)
    (hs : s ≠ 0) (ht : F64.nearest (x / s) = F64.fin t) :
    getSellQuantity64 { order with ExecutedQuantity := F64.fin x }
        { sessionData with StepSize := F64.fin s }
      = F64.nearest (roundHalfAway t * s) := by
  simp [getSellQuantity64, F64.div64, F64.mul64, mathRound, hs, ht]

theorem getBuyQuantity64_fin (sessionData : Session) (f p s r u : ℚ) (hp : p ≠ 0)
    (hs : s ≠ 0) (hr : F64.nearest (f / p) = F64.fin r)
    (hu : F64.nearest (r / s) = F64.fin u) :
    getBuyQuantity64 { Price := F64.fin p } { sessionData with StepSize := F64.fin s }
        (F64.fin f)
      = F64.nearest (roundHalfAway u * s) := by
  simp [getBuyQuantity64, F64.div64, F64.mul64, mathRound, hs, hp, hr, hu]

theorem nearest_five_halves : F64.nearest (5 / 2) = F64.fin (5 / 2) := by
  have h := nearest_eq (5 / 2) 1 5629499534213120 (by norm_num) (by norm_num) (by norm_num)
    (by norm_num) (by norm_num [roundHalfEven]) (lt_huge _ (by norm_num)) (by norm_num)
  rw [h]
  norm_num

theorem nearest_three : F64.nearest 3 = F64.fin 3 := by
  have h := nearest_eq 3 1 6755399441055744 (by norm_num) (by norm_num) (by norm_num)
    (by norm_num) (by norm_num [roundHalfEven]) (lt_huge _ (by norm_num)) (by norm_num)
  rw [h]
  norm_num

theorem nearest_quarter_by_tenth : F64.nearest ((1 / 4) / tenth64) = F64.fin (5 / 2) := by
  have h := nearest_eq ((1 / 4) / tenth64) 1 5629499534213120 (by norm_num [tenth64])
    (by norm_num [tenth64]) (by norm_num [tenth64]) (by norm_num)
    (by norm_num [tenth64, roundHalfEven]) (lt_huge _ (by norm_num)) (by norm_num)
  rw [h]
  norm_num

theorem nearest_quarter : F64.nearest (1 / 4) = F64.fin (1 / 4) := by
  have h := nearest_eq (1 / 4) (-2) 4503599627370496 (by norm_num) (by norm_num)
    (by norm_num) (by norm_num) (by norm_num [roundHalfEven]) (lt_huge _ (by norm_num))
    (by norm_num)
  rw [h]
  norm_num

theorem nearest_three_tenths :
    F64.nearest (3 * tenth64) = F64.fin (5404319552844596 / 2 ^ 54) := by
  have h := nearest_eq (3 * tenth64) (-2) 5404319552844596 (by norm_num [tenth64])
    (by norm_num [tenth64]) (by norm_num [tenth64]) (by norm_num)
    (by norm_num [tenth64, roundHalfEven]) (lt_huge _ (by norm_num)) (by norm_num)
  rw [h]
  norm_num

/-- C4, as amended: for every raw quantity and every step size `s > 0`, `getSellQuantity`
(raw quantity `x`, the executed quantity of the prior buy) and `getBuyQuantity` (raw
quantity the float64 quotient `r` of the fiat amount by a non-zero price) return
`round(q / s) * s` computed in float64: the quotient is rounded to the nearest float64 (`t`,
`u`), `round` is applied to that float64 quotient and rounds halves away from zero, as
`math.Round` does, and the product is rounded to the nearest float64. The halfway quotient
`2.5` goes to `3`. -/
theorem C4_quantity_rounds_half_away (order : Order) (sessionData : Session)
    (x f p s t r u : ℚ) (hs : 0 < s) (hp : p ≠ 0)
    (ht : F64.nearest (x / s) = F64.fin t)
    (hr : F64.nearest (f / p) = F64.fin r) (hu : F64.nearest (r / s) = F64.fin u) :
    getSellQuantity64 { order with ExecutedQuantity := F64.fin x }
        { sessionData with StepSize := F64.fin s }
      = F64.nearest (roundHalfAway t * s)
    ∧ getBuyQuantity64 { Price := F64.fin p } { sessionData with StepSize := F64.fin s }
        (F64.fin f)
      = F64.nearest (roundHalfAway u * s)
    ∧ roundHalfAway (5 / 2) = 3 :=
  ⟨getSellQuantity64_fin order sessionData x s t hs.ne' ht,
   getBuyQuantity64_fin sessionData f p s r u hp hs.ne' hr hu,
   by norm_num [roundHalfAway]⟩

/-- Witness of C4 as amended: executed quantity `0.25` (fiat `0.25` at price `1`) and the
float64 step size nearest to `0.1`. The exact quotient is below `2.5`, the float64 quotient
is `2.5`, and the result is 3 steps rounded to float64, `0.30000000000000004`. -/
theorem C4_quantity_rounds_half_away_witness :
    (1 / 4 : ℚ) / tenth64 < 5 / 2
    ∧ getSellQuantity64 { Order.zero with ExecutedQuantity := F64.fin (1 / 4) }
        { Session.zero with StepSize := F64.fin tenth64 }
      = F64.fin (5404319552844596 / 2 ^ 54)
    ∧ getBuyQuantity64 { Price := F64.fin 1 } { Session.zero with StepSize := F64.fin tenth64 }
        (F64.fin (1 / 4))
      = F64.fin (5404319552844596 / 2 ^ 54) :=
  have h3 : roundHalfAway (5 / 2) = 3 := by norm_num [roundHalfAway]
  have hr : F64.nearest ((1 / 4) / 1) = F64.fin (1 / 4) := by
    rw [div_one]; exact nearest_quarter
  have h := C4_quantity_rounds_half_away Order.zero Session.zero (1 / 4) (1 / 4) 1 tenth64
    (5 / 2) (1 / 4) (5 / 2) (by norm_num [tenth64]) one_ne_zero nearest_quarter_by_tenth hr
    nearest_quarter_by_tenth
  ⟨by norm_num [tenth64],
   by rw [h.1, h3]; exact_mod_cast nearest_three_tenths,
   by rw [h.2.1, h3]; exact_mod_cast nearest_three_tenths⟩

/-- C4 as stated fails: with executed quantity `2.5` and step size `1` every operation is
exact in float64 and the quotient is exactly halfway between 2 and 3; round-half-to-even
gives `2 * 1`, and `getSellQuantity` returns `3`; `getBuyQuantity` does the same for fiat
`2.5` at price `1`. -/
theorem C4_half_to_even_counterexample :
    getSellQuantity64 { Order.zero with ExecutedQuantity := F64.fin (5 / 2) }
        { Session.zero with StepSize := F64.fin 1 } = F64.fin 3
    ∧ getBuyQuantity64 { Price := F64.fin 1 } { Session.zero with StepSize := F64.fin 1 }
        (F64.fin (5 / 2)) = F64.fin 3
    ∧ F64.nearest (roundHalfEven (5 / 2 / 1) * 1) = F64.fin 2
    ∧ getSellQuantity64 { Order.zero with ExecutedQuantity := F64.fin (5 / 2) }
        { Session.zero with StepSize := F64.fin 1 }
      ≠ F64.nearest (roundHalfEven (5 / 2 / 1) * 1) := by
  have hq : F64.nearest (5 / 2 / 1) = F64.fin (5 / 2) := by
    rw [div_one]; exact nearest_five_halves
  have h3 : roundHalfAway (5 / 2) = 3 := by norm_num [roundHalfAway]
  have h1 : getSellQuantity64 { Order.zero with ExecutedQuantity := F64.fin (5 / 2) }
      { Session.zero with StepSize := F64.fin 1 } = F64.fin 3 := by
    rw [getSellQuantity64_fin _ _ _ _ _ one_ne_zero hq, h3]
    simpa using nearest_three
  have h2 : getBuyQuantity64 { Price := F64.fin 1 } { Session.zero with StepSize := F64.fin 1 }
      (F64.fin (5 / 2)) = F64.fin 3 := by
    rw [getBuyQuantity64_fin _ _ _ _ _ _ one_ne_zero one_ne_zero hq hq, h3]
    simpa using nearest_three
  have he : F64.nearest (roundHalfEven (5 / 2 / 1) * 1) = F64.fin 2 := by
    have e : roundHalfEven ((5 : ℚ) / 2 / 1) = 2 := by norm_num [roundHalfEven]
    rw [e]
    have h := nearest_eq 2 1 4503599627370496 (by norm_num) (by norm_num) (by norm_num)
      (by norm_num) (by norm_num [roundHalfEven]) (lt_huge _ (by norm_num)) (by norm_num)
    norm_num at h ⊢
    exact h
  refine ⟨h1, h2, he, ?_⟩
  rw [h1, he]
  intro h
  injection h with h
  norm_num at h

/-! ## The submitted quantity and the step grid -/

theorem nearest_step64 : F64.nearest (3 / 100000) = F64.fin step64 := by
  have h := nearest_eq (3 / 100000) (-16) 8854437155380585 (by norm_num) (by norm_num)
    (by norm_num) (by norm_num) (by norm_num [roundHalfEven]) (lt_huge _ (by norm_num))
    (by norm_num)
  rw [h, step64]
  norm_num

theorem nearest_sellStep64 : F64.nearest (3 / 10000000) = F64.fin sellStep64 := by
  have h := nearest_eq (3 / 10000000) (-22) 5666839779443574 (by norm_num) (by norm_num)
    (by norm_num) (by norm_num) (by norm_num [roundHalfEven]) (lt_huge _ (by norm_num))
    (by norm_num)
  rw [h, sellStep64]
  norm_num

theorem nearest_two : F64.nearest 2 = F64.fin 2 := by
  have h := nearest_eq 2 1 4503599627370496 (by norm_num) (by norm_num) (by norm_num)
    (by norm_num) (by norm_num [roundHalfEven]) (lt_huge _ (by norm_num)) (by norm_num)
  rw [h]
  norm_num

theorem nearest_two_step64 : F64.nearest (2 * step64) = F64.fin (2 * step64) := by
  have h := nearest_eq (2 * step64) (-15) 8854437155380585 (by norm_num [step64])
    (by norm_num [step64]) (by norm_num [step64]) (by norm_num)
    (by norm_num [step64, roundHalfEven]) (lt_huge _ (by norm_num)) (by norm_num)
  rw [h, step64]
  norm_num

theorem nearest_two_sellStep64 :
    F64.nearest (2 * sellStep64) = F64.fin (2 * sellStep64) := by
  have h := nearest_eq (2 * sellStep64) (-21) 5666839779443574 (by norm_num [sellStep64])
    (by norm_num [sellStep64]) (by norm_num [sellStep64]) (by norm_num)
    (by norm_num [sellStep64, roundHalfEven]) (lt_huge _ (by norm_num)) (by norm_num)
  rw [h, sellStep64]
  norm_num

/-- C6: with step size `0.00003` and fiat `0.00006` at price `1`, the corrected buy quantity
is `0.00006` and `BuyTicker` submits it printed with 4 decimals, `0.0001`, which is no
integer multiple of `0.00003`; with step size `0.0000003` and executed quantity
`0.0000006`, `SellTicker` submits `0.000001`, no integer multiple of `0.0000003`. The
machine computes the same strings: on the float64 values nearest to these decimals every
operation of the correction is exact, the corrected quantities are twice the step, and they
print as `0.0001` and `0.000001`, no integer multiples of the float64 steps either. -/
theorem C6_submitted_quantity_off_grid :
    (BuyTicker quietWorld 1 1 (F64.fin (6 / 100000)) liveConfig { Price := F64.fin 1 }
        { Session.zero with StepSize := F64.fin (3 / 100000) }).trace
      = [Event.SetBusy true, Event.BuyOrder (F64.fin (1 / 10000)), Event.SetBusy false]
    ∧ (¬ ∃ k : ℤ, (1 / 10000 : ℚ) = k * (3 / 100000))
    ∧ (SellTicker quietWorld 1 1 { Order.zero with ExecutedQuantity := F64.fin (6 / 10000000) }
        liveConfig { Price := F64.fin 1 }
        { Session.zero with StepSize := F64.fin (3 / 10000000) }).trace
      = [Event.SetBusy true, Event.SellOrder (F64.fin (1 / 1000000)), Event.SetBusy false]
    ∧ (¬ ∃ k : ℤ, (1 / 1000000 : ℚ) = k * (3 / 10000000))
    ∧ F64.nearest (3 / 100000) = F64.fin step64
    ∧ F64.nearest (6 / 100000) = F64.fin (2 * step64)
    ∧ getBuyQuantity64 { Price := F64.fin 1 } { Session.zero with StepSize := F64.fin step64 }
        (F64.fin (2 * step64)) = F64.fin (2 * step64)
    ∧ Float64ToStr (F64.fin (2 * step64)) 4 = F64.fin (1 / 10000)
    ∧ (¬ ∃ k : ℤ, (1 / 10000 : ℚ) = k * step64)
    ∧ F64.nearest (3 / 10000000) = F64.fin sellStep64
    ∧ F64.nearest (6 / 10000000) = F64.fin (2 * sellStep64)
    ∧ getSellQuantity64 { Order.zero with ExecutedQuantity := F64.fin (2 * sellStep64) }
        { Session.zero with StepSize := F64.fin sellStep64 } = F64.fin (2 * sellStep64)
    ∧ Float64ToStr (F64.fin (2 * sellStep64)) 6 = F64.fin (1 / 1000000)
    ∧ (¬ ∃ k : ℤ, (1 / 1000000 : ℚ) = k * sellStep64) := by
  have hb : Float64ToStr (getBuyQuantity { Price := F64.fin 1 }
      { Session.zero with StepSize := F64.fin (3 / 100000) } (F64.fin (6 / 100000))) 4
      = F64.fin (1 / 10000) := by
    rw [getBuyQuantity_fin _ _ _ _ (by norm_num) (by norm_num)]
    norm_num [Float64ToStr, FormatFloat, roundHalfAway, roundHalfEven]
  have hq : Float64ToStr (getSellQuantity
      { Order.zero with ExecutedQuantity := F64.fin (6 / 10000000) }
      { Session.zero with StepSize := F64.fin (3 / 10000000) }) 6
      = F64.fin (1 / 1000000) := by
    rw [getSellQuantity_fin _ _ _ _ (by norm_num)]
    norm_num [Float64ToStr, FormatFloat, roundHalfAway, roundHalfEven]
  have hr2 : roundHalfAway (2 : ℚ) = 2 := by norm_num [roundHalfAway]
  have hs0 : step64 ≠ 0 := by norm_num [step64]
  have hss0 : sellStep64 ≠ 0 := by norm_num [sellStep64]
  have hn6 : F64.nearest (6 / 100000) = F64.fin (2 * step64) := by
    have h := nearest_eq (6 / 100000) (-15) 8854437155380585 (by norm_num) (by norm_num)
      (by norm_num) (by norm_num) (by norm_num [roundHalfEven]) (lt_huge _ (by norm_num))
      (by norm_num)
    rw [h, step64]
    norm_num
  have hn6s : F64.nearest (6 / 10000000) = F64.fin (2 * sellStep64) := by
    have h := nearest_eq (6 / 10000000) (-21) 5666839779443574 (by norm_num) (by norm_num)
      (by norm_num) (by norm_num) (by norm_num [roundHalfEven]) (lt_huge _ (by norm_num))
      (by norm_num)
    rw [h, sellStep64]
    norm_num
  have hbuy : getBuyQuantity64 { Price := F64.fin 1 }
      { Session.zero with StepSize := F64.fin step64 } (F64.fin (2 * step64))
      = F64.fin (2 * step64) := by
    have hr : F64.nearest (2 * step64 / 1) = F64.fin (2 * step64) := by
      rw [div_one]; exact nearest_two_step64
    have hu : F64.nearest (2 * step64 / step64) = F64.fin 2 := by
      rw [mul_div_assoc, div_self hs0, mul_one]; exact nearest_two
    rw [getBuyQuantity64_fin _ _ _ _ _ _ one_ne_zero hs0 hr hu, hr2]
    exact_mod_cast nearest_two_step64
  have hsell : getSellQuantity64
      { Order.zero with ExecutedQuantity := F64.fin (2 * sellStep64) }
      { Session.zero with StepSize := F64.fin sellStep64 } = F64.fin (2 * sellStep64) := by
    have hu : F64.nearest (2 * sellStep64 / sellStep64) = F64.fin 2 := by
      rw [mul_div_assoc, div_self hss0, mul_one]; exact nearest_two
    rw [getSellQuantity64_fin _ _ _ _ _ hss0 hu, hr2]
    exact_mod_cast nearest_two_sellStep64
  refine ⟨?_, ?_, ?_, ?_, nearest_step64, hn6, hbuy, ?_, ?_, nearest_sellStep64, hn6s, hsell,
    ?_, ?_⟩
  · simp only [BuyTicker, withBusy, BuyTickerBody, getBuyQuantity_setBusy, hb]
    simp [liveConfig, BuyOrder, ToLower_binance, quietWorld]
  · rintro ⟨k, hk⟩
    have h : (10 : ℚ) = ((3 * k : ℤ) : ℚ) := by push_cast; linarith
    have h2 : (10 : ℤ) = 3 * k := by exact_mod_cast h
    omega
  · simp only [SellTicker, withBusy, SellTickerBody, getSellQuantity_setBusy, hq]
    simp [liveConfig, SellOrder, ToLower_binance, quietWorld]
  · rintro ⟨k, hk⟩
    have h : (10 : ℚ) = ((3 * k : ℤ) : ℚ) := by push_cast; linarith
    have h2 : (10 : ℤ) = 3 * k := by exact_mod_cast h
    omega
  · norm_num [Float64ToStr, FormatFloat, roundHalfEven, step64]
  · rintro ⟨k, hk⟩
    have h : ((295147905179352825856 : ℤ) : ℚ)
        = ((k * 88544371553805850000 : ℤ) : ℚ) := by
      rw [step64] at hk
      push_cast
      field_simp at hk
      norm_num at hk
      linarith
    have h2 : (295147905179352825856 : ℤ) = k * 88544371553805850000 := by exact_mod_cast h
    omega
  · norm_num [Float64ToStr, FormatFloat, roundHalfEven, sellStep64]
  · rintro ⟨k, hk⟩
    have h : ((9444732965739290427392 : ℤ) : ℚ)
        = ((k * 2833419889721787000000 : ℤ) : ℚ) := by
      rw [sellStep64] at hk
      push_cast
      field_simp at hk
      norm_num at hk
      linarith
    have h2 : (9444732965739290427392 : ℤ) = k * 2833419889721787000000 := by
      exact_mod_cast h
    omega

/-! ## The reconciliation loop: a failing status query, a successful cancel -/

/-- C10: the sell submission is answered NEW and the status query of the reconciliation loop
fails. The body of the loop is entered once, calls `ExitThreadID` while `SellTicker` still
holds `Busy`, and is never left: for every amount of fuel for the loop and for the wait of
`ExitThreadID`, the run is the submission, the write of the order, the status query, the
start of the first pass and then only 200 ms sleeps, and it is still waiting. The loop does
not terminate. -/
theorem C10_loop_hangs_on_failed_query (fuel xfuel : Nat) :
    SellTicker sellPollErrorWorld (fuel + 1) xfuel boughtOrder liveConfig
        { Price := F64.fin 40000 } liveSession
      = { trace :=
            [Event.SetBusy true,
             Event.SellOrder (Float64ToStr (getSellQuantity boughtOrder liveSession) 6),
             Event.SaveOrder "c7" (F64.fin 0) (F64.fin 0) 7 (F64.fin 40000) "SELL" "NEW"
               "BTCUSDT" 0,
             Event.Sleep 2000,
             Event.GetOrder 7,
             Event.LoopPass]
            ++ List.replicate xfuel (Event.Sleep 200),
          outcome := Outcome.busyWait,
          session := { liveSession with Busy := true } } := by
  have hB : ∀ q, (SellOrder sellPollErrorWorld liveConfig q).1
      = some (orderWith "SELL" "NEW") := by
    intro q; simp [SellOrder, liveConfig, ToLower_binance, sellPollErrorWorld]
  have hG : ∀ k, GetOrder sellPollErrorWorld liveConfig k 7
      = (none, some "Get: context deadline exceeded") := by
    intro k; simp [GetOrder, liveConfig, ToLower_binance, sellPollErrorWorld]
  have hd : liveConfig.DryRun = false := rfl
  have hid : (orderWith "SELL" "NEW").OrderID = 7 := rfl
  have hx := exitFrom_busy sellPollErrorWorld xfuel (liveSession.setBusy true)
    [Event.LoopPass] rfl
  simp only [SellTicker, withBusy, SellTickerBody, hd, hB, getSellQuantity_setBusy, hid, hG,
    sellLoop, hx]
  simp [orderWith, Order.zero, sellPollErrorWorld, quietWorld, Session.setBusy]

/-- C12: if the sell submission returns NEW, the status query before the cancel returns NEW
and the cancel request of the 9th pass succeeds with status CANCELED (the store and the
re-fetch succeeding), then `SellTicker` returns after: 8 passes ending in the tick sleep;
the cancel request; the re-fetch; `UpdateOrder` with the re-fetched quantities and status;
the CANCELED event. No ThreadTransaction is deleted, no SELL event is logged, and in the
session `SellTicker` leaves, `LastSellCanceledTime` is the time of the cancel and nothing
else has changed but `Busy`, which is false. -/
theorem C12_cancel_succeeds (w : World) (fuel xfuel : Nat) (order : Order)
    (configData : Config) (marketData : Market) (sessionData : Session)
    (r os cr final : Order)
    (hdry : configData.DryRun = false)
    (hsell : (SellOrder w configData
        (Float64ToStr (getSellQuantity order sessionData) 6)).1 = some r)
    (hr : r.Status = "NEW") (hsave : w.SaveOrder = none)
    (hget : GetOrder w configData 0 r.OrderID = (some os, none)) (hos : os.Status = "NEW")
    (hcancel : CancelOrder w configData r.OrderID = (some cr, none))
    (hcr : cr.Status = "CANCELED")
    (hre : GetOrder w configData 1 r.OrderID = (some final, none))
    (hupd : w.UpdateOrder = none) :
    SellTicker w (fuel + 9) xfuel order configData marketData sessionData
      = { trace :=
            [Event.SetBusy true,
             Event.SellOrder (Float64ToStr (getSellQuantity order sessionData) 6),
             Event.SaveOrder r.ClientOrderID r.CumulativeQuoteQuantity r.ExecutedQuantity
               r.OrderID marketData.Price r.Side r.Status r.Symbol r.TransactTime,
             Event.Sleep 2000,
             Event.GetOrder r.OrderID]
            ++ tickPasses configData 8
            ++ [Event.LoopPass,
                Event.CancelOrder r.OrderID,
                Event.GetOrder r.OrderID,
                Event.UpdateOrder r.OrderID final.CumulativeQuoteQuantity
                  final.ExecutedQuantity marketData.Price final.Status,
                Event.Logger { Order.zero with OrderID := r.OrderID, Price := marketData.Price,
                                               OrderIDSource := order.OrderID }
                  "CANCELED" LogLevel.InfoLevel,
                Event.SetBusy false],
          outcome := Outcome.returned,
          session := { sessionData with Busy := false, LastSellCanceledTime := w.Now } }
    ∧ (SellTicker w (fuel + 9) xfuel order configData marketData
        sessionData).session.LastSellCanceledTime = w.Now
    ∧ (∀ e ∈ (SellTicker w (fuel + 9) xfuel order configData marketData sessionData).trace,
        isDelete e = false ∧ isLog "SELL" e = false)
    ∧ (SellTicker w (fuel + 9) xfuel order configData marketData
        sessionData).trace.countP (isLog "CANCELED") = 1 := by
  have hloop := sellLoop_ticks w xfuel configData marketData (sessionData.setBusy true) r os
    (fuel + 1) (Or.inl hos) 8 0 (by omega)
  rw [show 0 + 8 = 8 by rfl, sellLoop_cancel_ok w xfuel configData marketData
    (sessionData.setBusy true) r os cr (some final) fuel (Or.inl hos) hcancel hcr hre] at hloop
  have hrun : SellTicker w (fuel + 9) xfuel order configData marketData sessionData
      = { trace :=
            [Event.SetBusy true,
             Event.SellOrder (Float64ToStr (getSellQuantity order sessionData) 6),
             Event.SaveOrder r.ClientOrderID r.CumulativeQuoteQuantity r.ExecutedQuantity
               r.OrderID marketData.Price r.Side r.Status r.Symbol r.TransactTime,
             Event.Sleep 2000,
             Event.GetOrder r.OrderID]
            ++ tickPasses configData 8
            ++ [Event.LoopPass,
                Event.CancelOrder r.OrderID,
                Event.GetOrder r.OrderID,
                Event.UpdateOrder r.OrderID final.CumulativeQuoteQuantity
                  final.ExecutedQuantity marketData.Price final.Status,
                Event.Logger { Order.zero with OrderID := r.OrderID, Price := marketData.Price,
                                               OrderIDSource := order.OrderID }
                  "CANCELED" LogLevel.InfoLevel,
                Event.SetBusy false],
          outcome := Outcome.returned,
          session := { sessionData with Busy := false, LastSellCanceledTime := w.Now } } := by
    simp only [SellTicker, withBusy, SellTickerBody, hdry, getSellQuantity_setBusy, hsell,
      hsave, hget, show fuel + 9 = fuel + 1 + 8 by omega, hloop, hupd, sellSettle]
    simp [hr, Session.setBusy, Session.setLastSellCanceledTime]
  refine ⟨hrun, ?_, ?_, ?_⟩
  · rw [hrun]
  · rw [hrun]
    intro e he
    simp only [List.mem_append, List.mem_cons, List.mem_singleton, List.not_mem_nil,
      or_false] at he
    rcases he with (he | he) | he
    · rcases he with rfl | rfl | rfl | rfl | rfl <;> exact ⟨rfl, rfl⟩
    · have hq : ∀ n, ∀ e ∈ tickPasses configData n,
          isDelete e = false ∧ isLog "SELL" e = false := by
        intro n
        induction n with
        | zero => intro e he; simp [tickPasses] at he
        | succ n ih =>
          intro e he
          simp only [tickPasses, List.mem_cons] at he
          rcases he with rfl | rfl | he
          · exact ⟨rfl, rfl⟩
          · exact ⟨rfl, rfl⟩
          · exact ih e he
      exact hq 8 e he
    · rcases he with rfl | rfl | rfl | rfl | rfl | rfl
      · exact ⟨rfl, rfl⟩
      · exact ⟨rfl, rfl⟩
      · exact ⟨rfl, rfl⟩
      · exact ⟨rfl, rfl⟩
      · exact ⟨rfl, by simp [isLog]⟩
      · exact ⟨rfl, rfl⟩
  · rw [hrun]
    have hq : ∀ n, (tickPasses configData n).countP (isLog "CANCELED") = 0 := by
      intro n
      induction n with
      | zero => rfl
      | succ n ih => simp [tickPasses, tickSleep, isLog, ih]
    simp [List.countP_append, hq, isLog, List.countP_cons]

/-- Witness of C12: the sell of order 7 that stays NEW and is canceled when the clock reads
`1700000000`, in a session whose `LastSellCanceledTime` was `0`. -/
theorem C12_cancel_succeeds_witness :
    liveSession.LastSellCanceledTime = 0
    ∧ (SellTicker cancelClockWorld (0 + 9) 1 boughtOrder liveConfig
        { Price := F64.fin 40000 } liveSession).outcome = Outcome.returned
    ∧ (SellTicker cancelClockWorld (0 + 9) 1 boughtOrder liveConfig
        { Price := F64.fin 40000 } liveSession).session.LastSellCanceledTime = 1700000000 :=
  have h := C12_cancel_succeeds cancelClockWorld 0 1 boughtOrder liveConfig
    { Price := F64.fin 40000 } liveSession (orderWith "SELL" "NEW") (orderWith "SELL" "NEW")
    (orderWith "SELL" "CANCELED") (orderWith "SELL" "NEW") rfl
    (by simp [SellOrder, liveConfig, ToLower_binance, cancelClockWorld, sellTimesOutWorld])
    rfl rfl
    (by simp [GetOrder, liveConfig, ToLower_binance, cancelClockWorld, sellTimesOutWorld,
      orderWith])
    rfl
    (by simp [CancelOrder, liveConfig, ToLower_binance, cancelClockWorld, sellTimesOutWorld,
      orderWith])
    rfl
    (by simp [GetOrder, liveConfig, ToLower_binance, cancelClockWorld, sellTimesOutWorld,
      orderWith])
    rfl
  ⟨rfl, by rw [h.1], h.2.1⟩

/-! ## Identity resolution: resume, teardown, fresh identity -/

theorem resolveIdentity_empty (env : Startup) (w : World) (f : OsFaults) (xfuel : Nat)
    (files : List String) (configData : Config) (sessionData : Session)
    (hid : env.GetThreadTransactionDistinct.1 ≠ "") (hnew : configData.NewSession = false)
    (hsym : env.GetOrderSymbol (sessionData.setThreadID env.GetThreadTransactionDistinct.1)
      = "") :
    resolveIdentity env w f xfuel files configData sessionData
      = { trace := Event.Logger Order.zero "sessionData.Symbol not found" LogLevel.DebugLevel
            :: (ExitThreadID w (fun _ => sessionData.Busy)
                  ((sessionData.setThreadID env.GetThreadTransactionDistinct.1).setSymbol "")
                  xfuel).1,
          outcome := (ExitThreadID w (fun _ => sessionData.Busy)
            ((sessionData.setThreadID env.GetThreadTransactionDistinct.1).setSymbol "")
            xfuel).2,
          session := (sessionData.setThreadID env.GetThreadTransactionDistinct.1).setSymbol "",
          config := env.GetConfigData
            (sessionData.setThreadID env.GetThreadTransactionDistinct.1),
          files :=
            if (ExitThreadID w (fun _ => sessionData.Busy)
                ((sessionData.setThreadID env.GetThreadTransactionDistinct.1).setSymbol "")
                xfuel).2 = Outcome.exited 1
            then filesAfterExit w
              ((sessionData.setThreadID env.GetThreadTransactionDistinct.1).setSymbol "") files
            else files,
          lockCalls := [] } := by
  unfold resolveIdentity
  have h1 : (sessionData.setThreadID env.GetThreadTransactionDistinct.1).ThreadID
      = env.GetThreadTransactionDistinct.1 := rfl
  have h2 : ∀ (s : Session) (x : String), (s.setSymbol x).Symbol = x := fun _ _ => rfl
  have h3 : ∀ (x y : String), ((sessionData.setThreadID x).setSymbol y).Busy
      = sessionData.Busy := fun _ _ => rfl
  simp only [h1, h2, h3, ne_eq, hid, not_false_eq_true, hnew, and_self, if_true, hsym]

/-- C23, the counterexample: the store holds the identity `abc`, `NewSession` is not set,
and the symbol stored for `abc` is empty. `execution` does not resume: it logs
"sessionData.Symbol not found" and runs `ExitThreadID`, which removes `abc.lock`, deletes
the session row and exits with code 1. (With the stored symbol ETHBTC, of 6 characters, the
run ends in the run-time panic of `Symbol[3:7]`.) -/
theorem C23_resume_without_symbol_counterexample :
    (storedIdentity "").GetThreadTransactionDistinct.1 = "abc"
    ∧ liveConfig.NewSession = false
    ∧ (resolveIdentity (storedIdentity "") quietWorld noFaults 1 [] liveConfig
        Session.zero).trace
      = [Event.Logger Order.zero "sessionData.Symbol not found" LogLevel.DebugLevel,
         Event.Remove "abc.lock", Event.DeleteSession,
         Event.Logger Order.zero "Clean Shutdown" LogLevel.InfoLevel, Event.Exit 1]
    ∧ (resolveIdentity (storedIdentity "") quietWorld noFaults 1 [] liveConfig
        Session.zero).outcome = Outcome.exited 1
    ∧ (resolveIdentity (storedIdentity "ETHBTC") quietWorld noFaults 1 [] liveConfig
        Session.zero).outcome = Outcome.panicked := by
  have he := resolveIdentity_empty (storedIdentity "") quietWorld noFaults 1 [] liveConfig
    Session.zero (by decide) rfl rfl
  have hx := ExitThreadID_done quietWorld (fun _ => Session.zero.Busy)
    ((Session.zero.setThreadID (storedIdentity "").GetThreadTransactionDistinct.1).setSymbol "")
    1 0 (fun k hk => absurd hk (Nat.not_lt_zero k)) rfl (by omega)
  rw [hx] at he
  refine ⟨rfl, rfl, ?_, ?_, ?_⟩
  · rw [he]
    simp [removeAndLog, quietWorld, storedIdentity, Session.setThreadID, Session.setSymbol,
      Session.zero]
  · rw [he]
  · exact resolveIdentity_short (storedIdentity "ETHBTC") quietWorld noFaults 1 [] liveConfig
      Session.zero (by decide) rfl (by decide) (sliceString_short _ (by decide))

/-- C23, as amended: the identity resolution of `execution`, for every answer of the store,
every configuration and every state of the working directory. If the store returns a
non-empty ThreadID and `NewSession` is not set: when the symbol stored for it has at least 7
characters, `execution` goes on with exactly that ThreadID, the symbol stored for it and the
configuration loaded for it, and no file is touched; when the stored symbol is empty,
`execution` logs "sessionData.Symbol not found" and runs `ExitThreadID` for that ThreadID,
so that it does not go on, and the process exits with code 1 once `Busy` is read false.
Otherwise (no stored identity, or `NewSession` set) the ThreadID is the one `GetThreadID`
mints and `LockThreadID` is called for it: if it fails the process exits with code 1; if it
succeeds the file `<ThreadID>.lock`, absent before, exists afterwards, and `Symbol` and
`SymbolFiat` are those of the configuration. -/
theorem C23_identity_resolution (env : Startup) (w : World) (f : OsFaults) (xfuel : Nat)
    (files : List String) (configData : Config) (sessionData : Session) :
    (env.GetThreadTransactionDistinct.1 ≠ "" → configData.NewSession = false →
      7 ≤ (env.GetOrderSymbol
        (sessionData.setThreadID env.GetThreadTransactionDistinct.1)).data.length →
      (resolveIdentity env w f xfuel files configData sessionData).outcome = Outcome.returned
      ∧ (resolveIdentity env w f xfuel files configData sessionData).session.ThreadID
          = env.GetThreadTransactionDistinct.1
      ∧ (resolveIdentity env w f xfuel files configData sessionData).session.Symbol
          = env.GetOrderSymbol (sessionData.setThreadID env.GetThreadTransactionDistinct.1)
      ∧ (resolveIdentity env w f xfuel files configData sessionData).config
          = env.GetConfigData (sessionData.setThreadID env.GetThreadTransactionDistinct.1)
      ∧ (resolveIdentity env w f xfuel files configData sessionData).files = files)
    ∧ (env.GetThreadTransactionDistinct.1 ≠ "" → configData.NewSession = false →
      env.GetOrderSymbol (sessionData.setThreadID env.GetThreadTransactionDistinct.1) = "" →
      (resolveIdentity env w f xfuel files configData sessionData).trace
          = Event.Logger Order.zero "sessionData.Symbol not found" LogLevel.DebugLevel
            :: (ExitThreadID w (fun _ => sessionData.Busy)
                  { sessionData with ThreadID := env.GetThreadTransactionDistinct.1,
                                     Symbol := "" } xfuel).1
      ∧ (resolveIdentity env w f xfuel files configData sessionData).outcome
          = (ExitThreadID w (fun _ => sessionData.Busy)
              { sessionData with ThreadID := env.GetThreadTransactionDistinct.1,
                                 Symbol := "" } xfuel).2
      ∧ (resolveIdentity env w f xfuel files configData sessionData).outcome
          ≠ Outcome.returned
      ∧ (resolveIdentity env w f xfuel files configData sessionData).lockCalls = []
      ∧ (sessionData.Busy = false → 0 < xfuel →
          (resolveIdentity env w f xfuel files configData sessionData).outcome
            = Outcome.exited 1))
    ∧ ((env.GetThreadTransactionDistinct.1 = "" ∨ configData.NewSession = true) →
      (resolveIdentity env w f xfuel files configData sessionData).session.ThreadID
          = env.GetThreadID
      ∧ (resolveIdentity env w f xfuel files configData sessionData).lockCalls
          = [(env.GetThreadID, (LockThreadID f files env.GetThreadID).1)]
      ∧ ((LockThreadID f files env.GetThreadID).1 = false →
          (resolveIdentity env w f xfuel files configData sessionData).outcome
            = Outcome.exited 1)
      ∧ ((LockThreadID f files env.GetThreadID).1 = true →
          (resolveIdentity env w f xfuel files configData sessionData).outcome
            = Outcome.returned
          ∧ (env.GetThreadID ++ ".lock") ∉ files
          ∧ (env.GetThreadID ++ ".lock")
              ∈ (resolveIdentity env w f xfuel files configData sessionData).files
          ∧ (resolveIdentity env w f xfuel files configData sessionData).session.Symbol
              = configData.Symbol
          ∧ (resolveIdentity env w f xfuel files configData sessionData).session.SymbolFiat
              = configData.SymbolFiat
          ∧ (resolveIdentity env w f xfuel files configData sessionData).config
              = configData)) := by
  refine ⟨?_, ?_, ?_⟩
  · intro hid hnew hlen
    rw [resolveIdentity_resume env w f xfuel files configData sessionData _ hid hnew
      (ne_empty_of_length _ (by omega)) (sliceString_long _ hlen)]
    exact ⟨rfl, rfl, rfl, rfl, rfl⟩
  · intro hid hnew hsym
    rw [resolveIdentity_empty env w f xfuel files configData sessionData hid hnew hsym]
    refine ⟨rfl, rfl, (ExitThreadID_outcome w _ _ xfuel).2, rfl, ?_⟩
    intro hb hx
    have hd := ExitThreadID_done w (fun _ => sessionData.Busy)
      ((sessionData.setThreadID env.GetThreadTransactionDistinct.1).setSymbol "") xfuel 0
      (fun k hk => absurd hk (Nat.not_lt_zero k)) hb hx
    show (ExitThreadID w (fun _ => sessionData.Busy)
      ((sessionData.setThreadID env.GetThreadTransactionDistinct.1).setSymbol "") xfuel).2
        = Outcome.exited 1
    rw [hd]
  · intro h
    rw [resolveIdentity_fresh env w f xfuel files configData sessionData h]
    cases hl : (LockThreadID f files env.GetThreadID).1
    · rw [if_pos rfl]
      exact ⟨rfl, rfl, fun _ => rfl, fun hh => Bool.noConfusion hh⟩
    · obtain ⟨hn, he⟩ := LockThreadID_true f files env.GetThreadID hl
      rw [if_neg (fun hh => Bool.noConfusion hh)]
      refine ⟨rfl, rfl, fun hh => Bool.noConfusion hh, fun _ => ⟨rfl, hn, ?_, rfl, rfl, rfl⟩⟩
      rw [he]
      exact List.mem_cons_self _ _

/-- Witness of C23 as amended: a store that holds the identity `abc` with the symbol
BTCUSDT, the same store with an empty symbol, and an empty store with an empty working
directory. -/
theorem C23_identity_resolution_witness :
    ((resolveIdentity (storedIdentity "BTCUSDT") quietWorld noFaults 1 [] liveConfig
        Session.zero).outcome = Outcome.returned
      ∧ (resolveIdentity (storedIdentity "BTCUSDT") quietWorld noFaults 1 [] liveConfig
          Session.zero).session.ThreadID = "abc"
      ∧ (resolveIdentity (storedIdentity "BTCUSDT") quietWorld noFaults 1 [] liveConfig
          Session.zero).session.Symbol = "BTCUSDT")
    ∧ ((resolveIdentity (storedIdentity "") quietWorld noFaults 1 [] liveConfig
          Session.zero).outcome = Outcome.exited 1
      ∧ (resolveIdentity (storedIdentity "") quietWorld noFaults 1 [] liveConfig
          Session.zero).lockCalls = [])
    ∧ ((resolveIdentity emptyStore quietWorld noFaults 1 [] liveConfig
          Session.zero).outcome = Outcome.returned
      ∧ (resolveIdentity emptyStore quietWorld noFaults 1 [] liveConfig
          Session.zero).session.ThreadID = "c0ffee"
      ∧ "c0ffee.lock" ∈ (resolveIdentity emptyStore quietWorld noFaults 1 [] liveConfig
          Session.zero).files
      ∧ (resolveIdentity emptyStore quietWorld noFaults 1 [] liveConfig
          Session.zero).session.Symbol = "BTCUSDT") :=
  have h1 := (C23_identity_resolution (storedIdentity "BTCUSDT") quietWorld noFaults 1 []
    liveConfig Session.zero).1 (by decide) rfl (by decide)
  have h0 := (C23_identity_resolution (storedIdentity "") quietWorld noFaults 1 []
    liveConfig Session.zero).2.1 (by decide) rfl rfl
  have h2 := (C23_identity_resolution emptyStore quietWorld noFaults 1 []
    liveConfig Session.zero).2.2 (Or.inl rfl)
  have h3 := h2.2.2.2 (by decide)
  ⟨⟨h1.1, h1.2.1, h1.2.2.1⟩, ⟨h0.2.2.2.2 rfl (by decide), h0.2.2.2.1⟩,
   ⟨h3.1, h2.1, h3.2.2.1, h3.2.2.2.1⟩⟩

end Cryptopump
